import Mathlib

/-!
Verification of the segregated-free-list allocator in `mm_grade_91.c`.

The development has two layers.

The first layer is a byte-level shallow embedding of the C source.  Memory is
a byte-addressable function `Nat → Nat`; the C macros `GET`/`PUT` (4-byte
little-endian words) and `GETLP`/`PUTLP` (8-byte pointers) are modelled
exactly, and every allocator routine (`insertFree`, `deleteFree`, `coalesce`,
`place`, `find_fit`, `extend_heap`, `mm_init`, `malloc`, `free`, `realloc`,
`calloc`) is a Lean function obtained by transliterating the corresponding C
function statement by statement, preserving evaluation order.  The external
page provider (`mem_sbrk` of `memlib.c`, out of scope per the specification)
is modelled from the spec as a linear bump allocator with an upper limit.

The second layer is a block-level abstraction of the physical heap (a list of
blocks with size and free bit) used to prove the global coalescing invariant
over all reachable states; its operations mirror the branch structure of
`coalesce`, `place`, `extend_heap` and the public entry points.
-/

namespace MM

/-- Byte-addressable memory, represented as the log of byte writes (most
recent first); each address holds one byte (values are kept below 256 by all
writers; readers reduce modulo 256).  Unwritten addresses read as 0: the
concrete traces below start from an all-zero memory. -/
def Mem : Type := List (Nat × Nat)

/-- Write a single byte. -/
def wr (m : Mem) (a v : Nat) : Mem := (a, v) :: m

/-- Read a single byte. -/
def rd : Mem → Nat → Nat
  | [], _ => 0
  | (b, v) :: t, a => if a = b then v else rd t a

/-- The C macro `PUT(p, val)`: store a 32-bit word, little-endian. -/
def putW (m : Mem) (a v : Nat) : Mem :=
  wr (wr (wr (wr m a (v % 256)) (a+1) (v / 256 % 256)) (a+2) (v / 65536 % 256))
     (a+3) (v / 16777216 % 256)

/-- The C macro `GET(p)`: read a 32-bit word, little-endian. -/
def getW (m : Mem) (a : Nat) : Nat :=
  rd m a % 256 + 256 * (rd m (a+1) % 256) + 65536 * (rd m (a+2) % 256)
    + 16777216 * (rd m (a+3) % 256)

/-- The C macro `PUTLP(p, val)`: store an 8-byte pointer, little-endian. -/
def putLP (m : Mem) (a v : Nat) : Mem :=
  wr (wr (wr (wr (wr (wr (wr (wr m
    a (v % 256))
    (a+1) (v / 256 % 256))
    (a+2) (v / 65536 % 256))
    (a+3) (v / 16777216 % 256))
    (a+4) (v / 4294967296 % 256))
    (a+5) (v / 1099511627776 % 256))
    (a+6) (v / 281474976710656 % 256))
    (a+7) (v / 72057594037927936 % 256)

/-- The C macro `GETLP(p)`: read an 8-byte pointer, little-endian. -/
def getLP (m : Mem) (a : Nat) : Nat :=
  rd m a % 256 + 256 * (rd m (a+1) % 256) + 65536 * (rd m (a+2) % 256)
    + 16777216 * (rd m (a+3) % 256) + 4294967296 * (rd m (a+4) % 256)
    + 1099511627776 * (rd m (a+5) % 256) + 281474976710656 * (rd m (a+6) % 256)
    + 72057594037927936 * (rd m (a+7) % 256)

/-- `PACK(size, alloc)`: or together a size (multiple of 8) and an alloc bit. -/
def PACK (size alloc : Nat) : Nat := size ||| alloc

/-- `GET_SIZE(p)`: the size field of the word at `p` (mask off low 3 bits). -/
def GET_SIZE (m : Mem) (p : Nat) : Nat := getW m p / 8 * 8

/-- `GET_ALLOC(p)`: the allocation bit of the word at `p`. -/
def GET_ALLOC (m : Mem) (p : Nat) : Nat := getW m p % 2

/-- `HDRP(bp)`: address of the header of the block with payload pointer `bp`. -/
def HDRP (bp : Nat) : Nat := bp - 4

/-- `FTRP(bp)`: address of the footer of the block with payload pointer `bp`. -/
def FTRP (m : Mem) (bp : Nat) : Nat := bp + GET_SIZE m (HDRP bp) - 8

/-- `NEXT_BLKP(bp)`: payload pointer of the next physical block. -/
def NEXT_BLKP (m : Mem) (bp : Nat) : Nat := bp + GET_SIZE m (bp - 4)

/-- `PREV_BLKP(bp)`: payload pointer of the previous physical block. -/
def PREV_BLKP (m : Mem) (bp : Nat) : Nat := bp - GET_SIZE m (bp - 8)

/-- `NEXT_FREE(bp)`: the next-in-list link of a free block (at `bp + 8`). -/
def NEXT_FREE (m : Mem) (bp : Nat) : Nat := getLP m (bp + 8)

/-- `PREV_FREE(bp)`: the previous-in-list link of a free block (at `bp`). -/
def PREV_FREE (m : Mem) (bp : Nat) : Nat := getLP m bp

/-- Unsigned 64-bit subtraction as computed by C on `size_t` operands. -/
def csub (a b : Nat) : Nat := (a + 18446744073709551616 - b) % 18446744073709551616

/-- Allocator state: the heap memory, the current and maximal break of the
page provider, and the globals `heap_listp` and `freelisttablehead` of the
source (the global `freelisthead` is written before being read in every
routine that mentions it, so it carries no state across calls and is kept
local to each routine). -/
structure MMState where
  mem : Mem
  brk : Nat
  limit : Nat
  heap_listp : Nat
  freelisttablehead : Nat

instance : DecidableEq Mem := inferInstanceAs (DecidableEq (List (Nat × Nat)))

instance : DecidableEq MMState := fun a b =>
  decidable_of_iff
    (a.mem = b.mem ∧ a.brk = b.brk ∧ a.limit = b.limit ∧
      a.heap_listp = b.heap_listp ∧ a.freelisttablehead = b.freelisttablehead)
    (by cases a; cases b; simp [MMState.mk.injEq, and_assoc])

/-- Modelled from the spec: the external page provider (`mem_sbrk` of the
out-of-scope `memlib.c`) linearly extends the heap and fails, leaving the
heap untouched, when the requested extension would exceed its bound. -/
def mem_sbrk (s : MMState) (size : Nat) : Option Nat × MMState :=
  if s.brk + size ≤ s.limit then (some s.brk, { s with brk := s.brk + size })
  else (none, s)

/-- Reinterpretation of the low 32 bits of a value as a C `int`: the
`(int)` casts applied to `GET_SIZE(HDRP(bp))` in `choosefreetable`
(line 264) and to the `size_t` request `asize` in `find_fit` (line 531). -/
def toInt32 (x : Nat) : Int :=
  if x % 4294967296 < 2147483648 then Int.ofNat (x % 4294967296)
  else Int.ofNat (x % 4294967296) - 4294967296

/-- `choosefreetable_bysize`: map a block size to the index of its free
list via the thresholds LIST1 .. LIST17 in units of `DSIZE = 8`.  The C
function takes `int` and every call site casts an unsigned size to `int`
first, so the embedding takes the uncast word and composes that cast with
the body: `temp = freeblksize/DSIZE` is C `int` division (truncation
toward zero, `Int.tdiv`), and a size whose low 32 bits have the sign bit
set yields a negative `temp`, which the first test `temp <= LIST1` sends
to class 1. -/
def choosefreetable_bysize (freeblksize : Nat) : Nat :=
  if Int.tdiv (toInt32 freeblksize) 8 ≤ 3 then 1
  else if Int.tdiv (toInt32 freeblksize) 8 ≤ 4 then 2
  else if Int.tdiv (toInt32 freeblksize) 8 ≤ 5 then 3
  else if Int.tdiv (toInt32 freeblksize) 8 ≤ 6 then 4
  else if Int.tdiv (toInt32 freeblksize) 8 ≤ 7 then 5
  else if Int.tdiv (toInt32 freeblksize) 8 ≤ 8 then 6
  else if Int.tdiv (toInt32 freeblksize) 8 ≤ 9 then 7
  else if Int.tdiv (toInt32 freeblksize) 8 ≤ 10 then 8
  else if Int.tdiv (toInt32 freeblksize) 8 ≤ 12 then 9
  else if Int.tdiv (toInt32 freeblksize) 8 ≤ 16 then 10
  else if Int.tdiv (toInt32 freeblksize) 8 ≤ 32 then 11
  else if Int.tdiv (toInt32 freeblksize) 8 ≤ 64 then 12
  else if Int.tdiv (toInt32 freeblksize) 8 ≤ 128 then 13
  else if Int.tdiv (toInt32 freeblksize) 8 ≤ 256 then 14
  else if Int.tdiv (toInt32 freeblksize) 8 ≤ 512 then 15
  else if Int.tdiv (toInt32 freeblksize) 8 ≤ 1024 then 16
  else if Int.tdiv (toInt32 freeblksize) 8 ≤ 2048 then 17
  else 18

/-- `choosefreetable`: the free-list index of the block at `bp`. -/
def choosefreetable (m : Mem) (bp : Nat) : Nat :=
  choosefreetable_bysize (GET_SIZE m (HDRP bp))

/-- Address of free-list slot `n` (1-based) in the directory. -/
def slotAddr (tbl n : Nat) : Nat := tbl + 8 * (n - 1)

/-- `insertFree`: LIFO insertion of `bp` at the head of the free list of its
class, transliterated from the source including the early return when `bp`
is already the head. -/
def insertFree (s : MMState) (bp : Nat) : MMState :=
  let n := choosefreetable s.mem bp
  let slot := slotAddr s.freelisttablehead n
  let freelisthead := getLP s.mem slot
  if bp = freelisthead then s
  else if freelisthead ≠ 0 then
    let m1 := putLP s.mem freelisthead bp
    let m2 := putLP m1 (bp + 8) freelisthead
    let m3 := putLP m2 bp 0
    let m4 := putLP m3 slot bp
    { s with mem := m4 }
  else
    let m1 := putLP s.mem bp 0
    let m2 := putLP m1 (bp + 8) 0
    let m3 := putLP m2 slot bp
    { s with mem := m3 }

/-- `deleteFree`: unlink `bp` from its free list, transliterated from the
source (the predecessor's next link or the table slot is redirected to the
successor, and the successor's previous link to the predecessor). -/
def deleteFree (s : MMState) (bp : Nat) : MMState :=
  let n := choosefreetable s.mem bp
  let slot := slotAddr s.freelisttablehead n
  let pre_f := PREV_FREE s.mem bp
  let next_f := NEXT_FREE s.mem bp
  let m1 := if pre_f ≠ 0 then putLP s.mem (pre_f + 8) next_f
            else putLP s.mem slot next_f
  let m2 := if next_f ≠ 0 then putLP m1 next_f pre_f else m1
  { s with mem := m2 }

/-- `coalesce`: boundary-tag coalescing of the free-marked, unlisted block
`bp` with its free physical neighbors, four cases as in the source. -/
def coalesce (s : MMState) (bp : Nat) : Nat × MMState :=
  let prev_alloc := GET_ALLOC s.mem (FTRP s.mem (PREV_BLKP s.mem bp))
  let next_alloc := GET_ALLOC s.mem (HDRP (NEXT_BLKP s.mem bp))
  let size := GET_SIZE s.mem (HDRP bp)
  if prev_alloc ≠ 0 ∧ next_alloc ≠ 0 then       -- Case 1
    (bp, insertFree s bp)
  else if prev_alloc ≠ 0 ∧ next_alloc = 0 then  -- Case 2
    let size2 := size + GET_SIZE s.mem (HDRP (NEXT_BLKP s.mem bp))
    let s1 := deleteFree s (NEXT_BLKP s.mem bp)
    let m1 := putW s1.mem (HDRP bp) (PACK size2 0)
    let m2 := putW m1 (FTRP m1 bp) (PACK size2 0)
    (bp, insertFree { s1 with mem := m2 } bp)
  else if prev_alloc = 0 ∧ next_alloc ≠ 0 then  -- Case 3
    let size2 := size + GET_SIZE s.mem (HDRP (PREV_BLKP s.mem bp))
    let s1 := deleteFree s (PREV_BLKP s.mem bp)
    let m1 := putW s1.mem (FTRP s1.mem bp) (PACK size2 0)
    let m2 := putW m1 (HDRP (PREV_BLKP m1 bp)) (PACK size2 0)
    let bp2 := PREV_BLKP m2 bp
    (bp2, insertFree { s1 with mem := m2 } bp2)
  else                                           -- Case 4
    let size2 := size + GET_SIZE s.mem (HDRP (PREV_BLKP s.mem bp))
      + GET_SIZE s.mem (FTRP s.mem (NEXT_BLKP s.mem bp))
    let s1 := deleteFree s (PREV_BLKP s.mem bp)
    let s2 := deleteFree s1 (NEXT_BLKP s1.mem bp)
    let m1 := putW s2.mem (HDRP (PREV_BLKP s2.mem bp)) (PACK size2 0)
    let m2 := putW m1 (FTRP m1 (NEXT_BLKP m1 bp)) (PACK size2 0)
    let bp2 := PREV_BLKP m2 bp
    (bp2, insertFree { s2 with mem := m2 } bp2)

/-- Inner loop of `find_fit`: walk one free list via next links; the loop
stops at a null pointer or a zero-size block.  `fuel` bounds the walk (the C
loop would diverge on a cyclic list). -/
def walkFF (m : Mem) (asize : Nat) : Nat → Nat → Option Nat
  | _, 0 => none
  | bp, fuel+1 =>
    if bp ≠ 0 ∧ 0 < GET_SIZE m (HDRP bp) then
      if GET_ALLOC m (HDRP bp) = 0 ∧ asize ≤ GET_SIZE m (HDRP bp) then some bp
      else walkFF m asize (NEXT_FREE m bp) fuel
    else none

/-- Outer loop of `find_fit`: classes `i, i+1, …` up to `MAXFREESIZE = 20`
(exclusive); `k` is the number of classes still to scan. -/
def ffLoop (m : Mem) (tbl asize fuel : Nat) : Nat → Nat → Option Nat
  | _, 0 => none
  | i, k+1 =>
    match walkFF m asize (getLP m (slotAddr tbl i)) fuel with
    | some bp => some bp
    | none => ffLoop m tbl asize fuel (i+1) k

/-- `find_fit`: first-fit search starting at the class of `asize`. -/
def find_fit (s : MMState) (asize fuel : Nat) : Option Nat :=
  let n := choosefreetable_bysize asize
  ffLoop s.mem s.freelisttablehead asize fuel n (20 - n)

/-- `place`: allocate `asize` bytes at the free block `bp`, splitting when
the remainder is at least the minimum block size `3*DSIZE = 24`.  The C
subtraction `csize - asize` is on `size_t`, hence `csub`. -/
def place (s : MMState) (bp asize : Nat) : MMState :=
  let csize := GET_SIZE s.mem (HDRP bp)
  if 24 ≤ csub csize asize then
    let s1 := deleteFree s bp
    let m1 := putW s1.mem (HDRP bp) (PACK asize 1)
    let m2 := putW m1 (FTRP m1 bp) (PACK asize 1)
    let bp2 := NEXT_BLKP m2 bp
    let m3 := putW m2 (HDRP bp2) (PACK (csub csize asize) 0)
    let m4 := putW m3 (FTRP m3 bp2) (PACK (csub csize asize) 0)
    (coalesce { s1 with mem := m4 } bp2).2
  else
    let s1 := deleteFree s bp
    let m1 := putW s1.mem (HDRP bp) (PACK csize 1)
    let m2 := putW m1 (FTRP m1 bp) (PACK csize 1)
    { s1 with mem := m2 }

/-- `extend_heap`: round `words` up to an even count, request the bytes from
the page provider, stamp the new free block and the fresh epilogue, and
coalesce with a possibly-free left neighbor. -/
def extend_heap (s : MMState) (words : Nat) : Option Nat × MMState :=
  match mem_sbrk s (if words % 2 = 1 then (words + 1) * 4 else words * 4) with
  | (none, s') => (none, s')
  | (some bp, s') =>
    let size := if words % 2 = 1 then (words + 1) * 4 else words * 4
    let m1 := putW s'.mem (HDRP bp) (PACK size 0)
    let m2 := putW m1 (FTRP m1 bp) (PACK size 0)
    let m3 := putW m2 (HDRP (NEXT_BLKP m2 bp)) (PACK 0 1)
    let (r, s2) := coalesce { s' with mem := m3 } bp
    (some r, s2)

/-- Null out the 20 directory slots (`for i in 0..MAXFREESIZE-1`). -/
def clearSlots (m : Mem) (tbl : Nat) : Nat → Mem
  | 0 => m
  | i+1 => putLP (clearSlots m tbl i) (tbl + 8 * i) 0

/-- `mm_init`: carve the free-list directory (168 bytes, framed as an
always-allocated sentinel), the prologue and epilogue, and extend the empty
heap by `CHUNKSIZE = 168` bytes.  The source leaves its first `mem_sbrk`
unchecked (failure would dereference `(void* )-1`); both provider failures
are modelled as initialization failure. -/
def mm_init (s : MMState) : Option MMState :=
  let freeslistnum := 8 * ((20 * 8 + 8 + 8 - 1) / 8)
  match mem_sbrk s freeslistnum with
  | (none, _) => none
  | (some base, s1) =>
    let tbl := base + 8
    let m1 := putW s1.mem (HDRP tbl) (PACK freeslistnum 1)
    let m2 := putW m1 (FTRP m1 tbl) (PACK freeslistnum 1)
    let m3 := clearSlots m2 tbl 20
    match mem_sbrk { s1 with mem := m3, freelisttablehead := tbl } 16 with
    | (none, _) => none
    | (some hp, s2) =>
      let m4 := putW s2.mem hp 0
      let m5 := putW m4 (hp + 4) (PACK 8 1)
      let m6 := putW m5 (hp + 8) (PACK 8 1)
      let m7 := putW m6 (hp + 12) (PACK 0 1)
      let s3 := { s2 with mem := m7, heap_listp := hp + 8 }
      match extend_heap s3 (168 / 4) with
      | (none, _) => none
      | (some _, s4) => some s4

/-- The size adjustment performed by `malloc` (and repeated by `realloc`):
requests of at most `DSIZE` become the minimum block size `3*DSIZE = 24`,
larger ones get `DSIZE` of boundary-tag overhead and are rounded up to a
multiple of `DSIZE`. -/
def adjustSize (size : Nat) : Nat :=
  if size ≤ 8 then 24 else 8 * ((size + 8 + (8 - 1)) / 8)

/-- Lazy initialization at the top of `malloc`. -/
def ensureInit (s : MMState) : Option MMState :=
  if s.heap_listp = 0 then mm_init s else some s

/-- `malloc`: lazy init, size adjustment, fit search, placement, extending
the heap by `max(asize, CHUNKSIZE)` on a miss.  A returned pointer of `0`
is C's null. -/
def mm_malloc (s : MMState) (size fuel : Nat) : Nat × MMState :=
  match ensureInit s with
  | none => (0, s)
  | some s0 =>
    if size = 0 then (0, s0)
    else
      let asize := adjustSize size
      match find_fit s0 asize fuel with
      | some bp => (bp, place s0 bp asize)
      | none =>
        let extendsize := max asize 168
        match extend_heap s0 (extendsize / 4) with
        | (none, s1) => (0, s1)
        | (some bp, s1) => (bp, place s1 bp asize)

/-- `free`: clear the allocation bit on header and footer, then coalesce. -/
def mm_free (s : MMState) (ptr : Nat) : MMState :=
  if ptr ≠ 0 then
    let fsize := GET_SIZE s.mem (HDRP ptr)
    let m1 := putW s.mem (HDRP ptr) (PACK fsize 0)
    let m2 := putW m1 (FTRP m1 ptr) (PACK fsize 0)
    (coalesce { s with mem := m2 } ptr).2
  else s

/-- C `memcpy` restricted to non-overlapping regions: all source bytes are
read from the original memory. -/
def memcpyN (m : Mem) (dst src : Nat) : Nat → Mem
  | 0 => m
  | n+1 => wr (memcpyN m dst src n) (dst + n) (rd m (src + n) % 256)

/-- C `memset`. -/
def memsetN (m : Mem) (p c : Nat) : Nat → Mem
  | 0 => m
  | n+1 => wr (memsetN m p c n) (p + n) (c % 256)

/-- `realloc`: free on `size = 0`, malloc on a null pointer, in-place return
when the adjusted size fits the current block, otherwise malloc a new block
(note: the source passes the already-adjusted size to `malloc`, which
adjusts again), copy `oldsize` bytes, free the old block. -/
def mm_realloc (s : MMState) (oldptr size fuel : Nat) : Nat × MMState :=
  if size = 0 then (0, mm_free s oldptr)
  else if oldptr = 0 then mm_malloc s size fuel
  else
    let oldsize := GET_SIZE s.mem (HDRP oldptr)
    let size2 := adjustSize size
    if size2 ≤ oldsize then (oldptr, s)
    else
      let (newptr, s1) := mm_malloc s size2 fuel
      if newptr = 0 then (0, s1)
      else
        let m1 := memcpyN s1.mem newptr oldptr oldsize
        let s2 := mm_free { s1 with mem := m1 } oldptr
        (newptr, s2)

/-- `calloc`: `malloc(nmemb * size)` then zero `nmemb * size` bytes.  The
source calls `memset` even on a null return (which would fault); the model
only zeroes on success. -/
def mm_calloc (s : MMState) (nmemb size fuel : Nat) : Nat × MMState :=
  let bytes := nmemb * size
  let r := mm_malloc s bytes fuel
  if r.1 = 0 then (0, r.2)
  else (r.1, { r.2 with mem := memsetN r.2.mem r.1 0 bytes })

/-- The physical heap walk performed by `mm_checkheap`: starting from a block
pointer, list `(bp, size, allocbit)` triples until a zero-size block (the
epilogue) is reached. -/
def heapWalk (m : Mem) : Nat → Nat → List (Nat × Nat × Nat)
  | _, 0 => []
  | bp, fuel+1 =>
    if 0 < GET_SIZE m (HDRP bp) then
      (bp, GET_SIZE m (HDRP bp), GET_ALLOC m (HDRP bp)) ::
        heapWalk m (NEXT_BLKP m bp) fuel
    else []

/-- The free blocks seen by the physical walk, as `(bp, size)` pairs. -/
def freeWalk (m : Mem) (start fuel : Nat) : List (Nat × Nat) :=
  (heapWalk m start fuel).filterMap
    (fun t => if t.2.2 = 0 then some (t.1, t.2.1) else none)

/-- A concrete empty starting state: zeroed memory, break at 800 (8-aligned,
as guaranteed by the page provider), ample limit, allocator uninitialized. -/
def initState : MMState :=
  { mem := [], brk := 800, limit := 100000, heap_listp := 0,
    freelisttablehead := 0 }


/-! ### Concrete scenario states

Each scenario of the claims is a composition of public calls starting from
`initState`.  The intermediate states are named so that the equality lemmas
below can certify them against precomputed literal states one call at a
time. -/

/-- C3 scenario, first call: `p = allocate(24)`. -/
def c3s1 : Nat × MMState := mm_malloc initState 24 50

/-- C3 scenario, second call: `q = allocate(24)`. -/
def c3s2 : Nat × MMState := mm_malloc c3s1.2 24 50

/-- C3 scenario, third call: `r = allocate(24)`. -/
def c3s3 : Nat × MMState := mm_malloc c3s2.2 24 50

/-- C3 scenario, final state: `free(q)`. -/
def c3state : MMState := mm_free c3s3.2 c3s2.1

/-- First small allocation from the empty heap (`allocate(1)`; also the state
named `p = allocate(16)` and `p = allocate(1)` of the C5 and C9 scenarios,
whose adjusted size is likewise 24). -/
def s984state : Nat × MMState := mm_malloc initState 1 50

/-- C6 scenario: four small allocations, then free the first and the third,
then `calloc(1, 1)` reuses the third block. -/
def c6s2 : Nat × MMState := mm_malloc s984state.2 1 50

/-- C6 scenario, third allocation. -/
def c6s3 : Nat × MMState := mm_malloc c6s2.2 1 50

/-- C6 scenario, fourth allocation. -/
def c6s4 : Nat × MMState := mm_malloc c6s3.2 1 50

/-- C6 scenario: free the first block. -/
def c6s5 : MMState := mm_free c6s4.2 s984state.1

/-- C6 scenario: free the third block. -/
def c6s6 : MMState := mm_free c6s5 c6s3.1

/-- C6 scenario, final: `calloc(1, 1)`. -/
def c6state : Nat × MMState := mm_calloc c6s6 1 1 50

/-- C5 scenario, final: `realloc(p, 17)` on the 24-byte block `p`. -/
def c5state : Nat × MMState := mm_realloc s984state.2 s984state.1 17 50

/-- A small `calloc(1, 8)` from the empty heap (witness scenario for the
amended C6 claim). -/
def c6wstate : Nat × MMState := mm_calloc initState 1 8 50

/-- Literal state after initialization from the empty heap (certified by an equality lemma below). -/
def sInitLit : MMState :=
  { mem := [(895, 0), (894, 0), (893, 0), (892, 0), (891, 0), (890, 0), (889, 3), (888, 216),
    (999, 0), (998, 0), (997, 0), (996, 0), (995, 0), (994, 0), (993, 0), (992, 0),
    (991, 0), (990, 0), (989, 0), (988, 0), (987, 0), (986, 0), (985, 0), (984, 0),
    (1151, 0), (1150, 0), (1149, 0), (1148, 1), (1147, 0), (1146, 0), (1145, 0), (1144, 168),
    (983, 0), (982, 0), (981, 0), (980, 168), (983, 0), (982, 0), (981, 0), (980, 1),
    (979, 0), (978, 0), (977, 0), (976, 9), (975, 0), (974, 0), (973, 0), (972, 9),
    (971, 0), (970, 0), (969, 0), (968, 0), (967, 0), (966, 0), (965, 0), (964, 0),
    (963, 0), (962, 0), (961, 0), (960, 0), (959, 0), (958, 0), (957, 0), (956, 0),
    (955, 0), (954, 0), (953, 0), (952, 0), (951, 0), (950, 0), (949, 0), (948, 0),
    (947, 0), (946, 0), (945, 0), (944, 0), (943, 0), (942, 0), (941, 0), (940, 0),
    (939, 0), (938, 0), (937, 0), (936, 0), (935, 0), (934, 0), (933, 0), (932, 0),
    (931, 0), (930, 0), (929, 0), (928, 0), (927, 0), (926, 0), (925, 0), (924, 0),
    (923, 0), (922, 0), (921, 0), (920, 0), (919, 0), (918, 0), (917, 0), (916, 0),
    (915, 0), (914, 0), (913, 0), (912, 0), (911, 0), (910, 0), (909, 0), (908, 0),
    (907, 0), (906, 0), (905, 0), (904, 0), (903, 0), (902, 0), (901, 0), (900, 0),
    (899, 0), (898, 0), (897, 0), (896, 0), (895, 0), (894, 0), (893, 0), (892, 0),
    (891, 0), (890, 0), (889, 0), (888, 0), (887, 0), (886, 0), (885, 0), (884, 0),
    (883, 0), (882, 0), (881, 0), (880, 0), (879, 0), (878, 0), (877, 0), (876, 0),
    (875, 0), (874, 0), (873, 0), (872, 0), (871, 0), (870, 0), (869, 0), (868, 0),
    (867, 0), (866, 0), (865, 0), (864, 0), (863, 0), (862, 0), (861, 0), (860, 0),
    (859, 0), (858, 0), (857, 0), (856, 0), (855, 0), (854, 0), (853, 0), (852, 0),
    (851, 0), (850, 0), (849, 0), (848, 0), (847, 0), (846, 0), (845, 0), (844, 0),
    (843, 0), (842, 0), (841, 0), (840, 0), (839, 0), (838, 0), (837, 0), (836, 0),
    (835, 0), (834, 0), (833, 0), (832, 0), (831, 0), (830, 0), (829, 0), (828, 0),
    (827, 0), (826, 0), (825, 0), (824, 0), (823, 0), (822, 0), (821, 0), (820, 0),
    (819, 0), (818, 0), (817, 0), (816, 0), (815, 0), (814, 0), (813, 0), (812, 0),
    (811, 0), (810, 0), (809, 0), (808, 0), (971, 0), (970, 0), (969, 0), (968, 169),
    (807, 0), (806, 0), (805, 0), (804, 169)],
    brk := 1152, limit := 100000, heap_listp := 976, freelisttablehead := 808 }

/-- Literal state after one small allocation from the empty heap (certified below). -/
def s984Lit : MMState :=
  { mem := [(895, 0), (894, 0), (893, 0), (892, 0), (891, 0), (890, 0), (889, 3), (888, 240),
    (1023, 0), (1022, 0), (1021, 0), (1020, 0), (1019, 0), (1018, 0), (1017, 0), (1016, 0),
    (1015, 0), (1014, 0), (1013, 0), (1012, 0), (1011, 0), (1010, 0), (1009, 0), (1008, 0),
    (1147, 0), (1146, 0), (1145, 0), (1144, 144), (1007, 0), (1006, 0), (1005, 0), (1004, 144),
    (1003, 0), (1002, 0), (1001, 0), (1000, 25), (983, 0), (982, 0), (981, 0), (980, 25),
    (895, 0), (894, 0), (893, 0), (892, 0), (891, 0), (890, 0), (889, 0), (888, 0),
    (895, 0), (894, 0), (893, 0), (892, 0), (891, 0), (890, 0), (889, 3), (888, 216),
    (999, 0), (998, 0), (997, 0), (996, 0), (995, 0), (994, 0), (993, 0), (992, 0),
    (991, 0), (990, 0), (989, 0), (988, 0), (987, 0), (986, 0), (985, 0), (984, 0),
    (1151, 0), (1150, 0), (1149, 0), (1148, 1), (1147, 0), (1146, 0), (1145, 0), (1144, 168),
    (983, 0), (982, 0), (981, 0), (980, 168), (983, 0), (982, 0), (981, 0), (980, 1),
    (979, 0), (978, 0), (977, 0), (976, 9), (975, 0), (974, 0), (973, 0), (972, 9),
    (971, 0), (970, 0), (969, 0), (968, 0), (967, 0), (966, 0), (965, 0), (964, 0),
    (963, 0), (962, 0), (961, 0), (960, 0), (959, 0), (958, 0), (957, 0), (956, 0),
    (955, 0), (954, 0), (953, 0), (952, 0), (951, 0), (950, 0), (949, 0), (948, 0),
    (947, 0), (946, 0), (945, 0), (944, 0), (943, 0), (942, 0), (941, 0), (940, 0),
    (939, 0), (938, 0), (937, 0), (936, 0), (935, 0), (934, 0), (933, 0), (932, 0),
    (931, 0), (930, 0), (929, 0), (928, 0), (927, 0), (926, 0), (925, 0), (924, 0),
    (923, 0), (922, 0), (921, 0), (920, 0), (919, 0), (918, 0), (917, 0), (916, 0),
    (915, 0), (914, 0), (913, 0), (912, 0), (911, 0), (910, 0), (909, 0), (908, 0),
    (907, 0), (906, 0), (905, 0), (904, 0), (903, 0), (902, 0), (901, 0), (900, 0),
    (899, 0), (898, 0), (897, 0), (896, 0), (895, 0), (894, 0), (893, 0), (892, 0),
    (891, 0), (890, 0), (889, 0), (888, 0), (887, 0), (886, 0), (885, 0), (884, 0),
    (883, 0), (882, 0), (881, 0), (880, 0), (879, 0), (878, 0), (877, 0), (876, 0),
    (875, 0), (874, 0), (873, 0), (872, 0), (871, 0), (870, 0), (869, 0), (868, 0),
    (867, 0), (866, 0), (865, 0), (864, 0), (863, 0), (862, 0), (861, 0), (860, 0),
    (859, 0), (858, 0), (857, 0), (856, 0), (855, 0), (854, 0), (853, 0), (852, 0),
    (851, 0), (850, 0), (849, 0), (848, 0), (847, 0), (846, 0), (845, 0), (844, 0),
    (843, 0), (842, 0), (841, 0), (840, 0), (839, 0), (838, 0), (837, 0), (836, 0),
    (835, 0), (834, 0), (833, 0), (832, 0), (831, 0), (830, 0), (829, 0), (828, 0),
    (827, 0), (826, 0), (825, 0), (824, 0), (823, 0), (822, 0), (821, 0), (820, 0),
    (819, 0), (818, 0), (817, 0), (816, 0), (815, 0), (814, 0), (813, 0), (812, 0),
    (811, 0), (810, 0), (809, 0), (808, 0), (971, 0), (970, 0), (969, 0), (968, 169),
    (807, 0), (806, 0), (805, 0), (804, 169)],
    brk := 1152, limit := 100000, heap_listp := 976, freelisttablehead := 808 }

/-- Literal state after the first allocation of the C3 scenario (certified below). -/
def c3s1Lit : MMState :=
  { mem := [(895, 0), (894, 0), (893, 0), (892, 0), (891, 0), (890, 0), (889, 3), (888, 248),
    (1031, 0), (1030, 0), (1029, 0), (1028, 0), (1027, 0), (1026, 0), (1025, 0), (1024, 0),
    (1023, 0), (1022, 0), (1021, 0), (1020, 0), (1019, 0), (1018, 0), (1017, 0), (1016, 0),
    (1147, 0), (1146, 0), (1145, 0), (1144, 136), (1015, 0), (1014, 0), (1013, 0), (1012, 136),
    (1011, 0), (1010, 0), (1009, 0), (1008, 33), (983, 0), (982, 0), (981, 0), (980, 33),
    (895, 0), (894, 0), (893, 0), (892, 0), (891, 0), (890, 0), (889, 0), (888, 0),
    (895, 0), (894, 0), (893, 0), (892, 0), (891, 0), (890, 0), (889, 3), (888, 216),
    (999, 0), (998, 0), (997, 0), (996, 0), (995, 0), (994, 0), (993, 0), (992, 0),
    (991, 0), (990, 0), (989, 0), (988, 0), (987, 0), (986, 0), (985, 0), (984, 0),
    (1151, 0), (1150, 0), (1149, 0), (1148, 1), (1147, 0), (1146, 0), (1145, 0), (1144, 168),
    (983, 0), (982, 0), (981, 0), (980, 168), (983, 0), (982, 0), (981, 0), (980, 1),
    (979, 0), (978, 0), (977, 0), (976, 9), (975, 0), (974, 0), (973, 0), (972, 9),
    (971, 0), (970, 0), (969, 0), (968, 0), (967, 0), (966, 0), (965, 0), (964, 0),
    (963, 0), (962, 0), (961, 0), (960, 0), (959, 0), (958, 0), (957, 0), (956, 0),
    (955, 0), (954, 0), (953, 0), (952, 0), (951, 0), (950, 0), (949, 0), (948, 0),
    (947, 0), (946, 0), (945, 0), (944, 0), (943, 0), (942, 0), (941, 0), (940, 0),
    (939, 0), (938, 0), (937, 0), (936, 0), (935, 0), (934, 0), (933, 0), (932, 0),
    (931, 0), (930, 0), (929, 0), (928, 0), (927, 0), (926, 0), (925, 0), (924, 0),
    (923, 0), (922, 0), (921, 0), (920, 0), (919, 0), (918, 0), (917, 0), (916, 0),
    (915, 0), (914, 0), (913, 0), (912, 0), (911, 0), (910, 0), (909, 0), (908, 0),
    (907, 0), (906, 0), (905, 0), (904, 0), (903, 0), (902, 0), (901, 0), (900, 0),
    (899, 0), (898, 0), (897, 0), (896, 0), (895, 0), (894, 0), (893, 0), (892, 0),
    (891, 0), (890, 0), (889, 0), (888, 0), (887, 0), (886, 0), (885, 0), (884, 0),
    (883, 0), (882, 0), (881, 0), (880, 0), (879, 0), (878, 0), (877, 0), (876, 0),
    (875, 0), (874, 0), (873, 0), (872, 0), (871, 0), (870, 0), (869, 0), (868, 0),
    (867, 0), (866, 0), (865, 0), (864, 0), (863, 0), (862, 0), (861, 0), (860, 0),
    (859, 0), (858, 0), (857, 0), (856, 0), (855, 0), (854, 0), (853, 0), (852, 0),
    (851, 0), (850, 0), (849, 0), (848, 0), (847, 0), (846, 0), (845, 0), (844, 0),
    (843, 0), (842, 0), (841, 0), (840, 0), (839, 0), (838, 0), (837, 0), (836, 0),
    (835, 0), (834, 0), (833, 0), (832, 0), (831, 0), (830, 0), (829, 0), (828, 0),
    (827, 0), (826, 0), (825, 0), (824, 0), (823, 0), (822, 0), (821, 0), (820, 0),
    (819, 0), (818, 0), (817, 0), (816, 0), (815, 0), (814, 0), (813, 0), (812, 0),
    (811, 0), (810, 0), (809, 0), (808, 0), (971, 0), (970, 0), (969, 0), (968, 169),
    (807, 0), (806, 0), (805, 0), (804, 169)],
    brk := 1152, limit := 100000, heap_listp := 976, freelisttablehead := 808 }

/-- Literal state after the second allocation of the C3 scenario (certified below). -/
def c3s2Lit : MMState :=
  { mem := [(887, 0), (886, 0), (885, 0), (884, 0), (883, 0), (882, 0), (881, 4), (880, 24),
    (1063, 0), (1062, 0), (1061, 0), (1060, 0), (1059, 0), (1058, 0), (1057, 0), (1056, 0),
    (1055, 0), (1054, 0), (1053, 0), (1052, 0), (1051, 0), (1050, 0), (1049, 0), (1048, 0),
    (1147, 0), (1146, 0), (1145, 0), (1144, 104), (1047, 0), (1046, 0), (1045, 0), (1044, 104),
    (1043, 0), (1042, 0), (1041, 0), (1040, 33), (1015, 0), (1014, 0), (1013, 0), (1012, 33),
    (895, 0), (894, 0), (893, 0), (892, 0), (891, 0), (890, 0), (889, 0), (888, 0),
    (895, 0), (894, 0), (893, 0), (892, 0), (891, 0), (890, 0), (889, 3), (888, 248),
    (1031, 0), (1030, 0), (1029, 0), (1028, 0), (1027, 0), (1026, 0), (1025, 0), (1024, 0),
    (1023, 0), (1022, 0), (1021, 0), (1020, 0), (1019, 0), (1018, 0), (1017, 0), (1016, 0),
    (1147, 0), (1146, 0), (1145, 0), (1144, 136), (1015, 0), (1014, 0), (1013, 0), (1012, 136),
    (1011, 0), (1010, 0), (1009, 0), (1008, 33), (983, 0), (982, 0), (981, 0), (980, 33),
    (895, 0), (894, 0), (893, 0), (892, 0), (891, 0), (890, 0), (889, 0), (888, 0),
    (895, 0), (894, 0), (893, 0), (892, 0), (891, 0), (890, 0), (889, 3), (888, 216),
    (999, 0), (998, 0), (997, 0), (996, 0), (995, 0), (994, 0), (993, 0), (992, 0),
    (991, 0), (990, 0), (989, 0), (988, 0), (987, 0), (986, 0), (985, 0), (984, 0),
    (1151, 0), (1150, 0), (1149, 0), (1148, 1), (1147, 0), (1146, 0), (1145, 0), (1144, 168),
    (983, 0), (982, 0), (981, 0), (980, 168), (983, 0), (982, 0), (981, 0), (980, 1),
    (979, 0), (978, 0), (977, 0), (976, 9), (975, 0), (974, 0), (973, 0), (972, 9),
    (971, 0), (970, 0), (969, 0), (968, 0), (967, 0), (966, 0), (965, 0), (964, 0),
    (963, 0), (962, 0), (961, 0), (960, 0), (959, 0), (958, 0), (957, 0), (956, 0),
    (955, 0), (954, 0), (953, 0), (952, 0), (951, 0), (950, 0), (949, 0), (948, 0),
    (947, 0), (946, 0), (945, 0), (944, 0), (943, 0), (942, 0), (941, 0), (940, 0),
    (939, 0), (938, 0), (937, 0), (936, 0), (935, 0), (934, 0), (933, 0), (932, 0),
    (931, 0), (930, 0), (929, 0), (928, 0), (927, 0), (926, 0), (925, 0), (924, 0),
    (923, 0), (922, 0), (921, 0), (920, 0), (919, 0), (918, 0), (917, 0), (916, 0),
    (915, 0), (914, 0), (913, 0), (912, 0), (911, 0), (910, 0), (909, 0), (908, 0),
    (907, 0), (906, 0), (905, 0), (904, 0), (903, 0), (902, 0), (901, 0), (900, 0),
    (899, 0), (898, 0), (897, 0), (896, 0), (895, 0), (894, 0), (893, 0), (892, 0),
    (891, 0), (890, 0), (889, 0), (888, 0), (887, 0), (886, 0), (885, 0), (884, 0),
    (883, 0), (882, 0), (881, 0), (880, 0), (879, 0), (878, 0), (877, 0), (876, 0),
    (875, 0), (874, 0), (873, 0), (872, 0), (871, 0), (870, 0), (869, 0), (868, 0),
    (867, 0), (866, 0), (865, 0), (864, 0), (863, 0), (862, 0), (861, 0), (860, 0),
    (859, 0), (858, 0), (857, 0), (856, 0), (855, 0), (854, 0), (853, 0), (852, 0),
    (851, 0), (850, 0), (849, 0), (848, 0), (847, 0), (846, 0), (845, 0), (844, 0),
    (843, 0), (842, 0), (841, 0), (840, 0), (839, 0), (838, 0), (837, 0), (836, 0),
    (835, 0), (834, 0), (833, 0), (832, 0), (831, 0), (830, 0), (829, 0), (828, 0),
    (827, 0), (826, 0), (825, 0), (824, 0), (823, 0), (822, 0), (821, 0), (820, 0),
    (819, 0), (818, 0), (817, 0), (816, 0), (815, 0), (814, 0), (813, 0), (812, 0),
    (811, 0), (810, 0), (809, 0), (808, 0), (971, 0), (970, 0), (969, 0), (968, 169),
    (807, 0), (806, 0), (805, 0), (804, 169)],
    brk := 1152, limit := 100000, heap_listp := 976, freelisttablehead := 808 }

/-- Literal state after the third allocation of the C3 scenario (certified below). -/
def c3s3Lit : MMState :=
  { mem := [(863, 0), (862, 0), (861, 0), (860, 0), (859, 0), (858, 0), (857, 4), (856, 56),
    (1095, 0), (1094, 0), (1093, 0), (1092, 0), (1091, 0), (1090, 0), (1089, 0), (1088, 0),
    (1087, 0), (1086, 0), (1085, 0), (1084, 0), (1083, 0), (1082, 0), (1081, 0), (1080, 0),
    (1147, 0), (1146, 0), (1145, 0), (1144, 72), (1079, 0), (1078, 0), (1077, 0), (1076, 72),
    (1075, 0), (1074, 0), (1073, 0), (1072, 33), (1047, 0), (1046, 0), (1045, 0), (1044, 33),
    (887, 0), (886, 0), (885, 0), (884, 0), (883, 0), (882, 0), (881, 0), (880, 0),
    (887, 0), (886, 0), (885, 0), (884, 0), (883, 0), (882, 0), (881, 4), (880, 24),
    (1063, 0), (1062, 0), (1061, 0), (1060, 0), (1059, 0), (1058, 0), (1057, 0), (1056, 0),
    (1055, 0), (1054, 0), (1053, 0), (1052, 0), (1051, 0), (1050, 0), (1049, 0), (1048, 0),
    (1147, 0), (1146, 0), (1145, 0), (1144, 104), (1047, 0), (1046, 0), (1045, 0), (1044, 104),
    (1043, 0), (1042, 0), (1041, 0), (1040, 33), (1015, 0), (1014, 0), (1013, 0), (1012, 33),
    (895, 0), (894, 0), (893, 0), (892, 0), (891, 0), (890, 0), (889, 0), (888, 0),
    (895, 0), (894, 0), (893, 0), (892, 0), (891, 0), (890, 0), (889, 3), (888, 248),
    (1031, 0), (1030, 0), (1029, 0), (1028, 0), (1027, 0), (1026, 0), (1025, 0), (1024, 0),
    (1023, 0), (1022, 0), (1021, 0), (1020, 0), (1019, 0), (1018, 0), (1017, 0), (1016, 0),
    (1147, 0), (1146, 0), (1145, 0), (1144, 136), (1015, 0), (1014, 0), (1013, 0), (1012, 136),
    (1011, 0), (1010, 0), (1009, 0), (1008, 33), (983, 0), (982, 0), (981, 0), (980, 33),
    (895, 0), (894, 0), (893, 0), (892, 0), (891, 0), (890, 0), (889, 0), (888, 0),
    (895, 0), (894, 0), (893, 0), (892, 0), (891, 0), (890, 0), (889, 3), (888, 216),
    (999, 0), (998, 0), (997, 0), (996, 0), (995, 0), (994, 0), (993, 0), (992, 0),
    (991, 0), (990, 0), (989, 0), (988, 0), (987, 0), (986, 0), (985, 0), (984, 0),
    (1151, 0), (1150, 0), (1149, 0), (1148, 1), (1147, 0), (1146, 0), (1145, 0), (1144, 168),
    (983, 0), (982, 0), (981, 0), (980, 168), (983, 0), (982, 0), (981, 0), (980, 1),
    (979, 0), (978, 0), (977, 0), (976, 9), (975, 0), (974, 0), (973, 0), (972, 9),
    (971, 0), (970, 0), (969, 0), (968, 0), (967, 0), (966, 0), (965, 0), (964, 0),
    (963, 0), (962, 0), (961, 0), (960, 0), (959, 0), (958, 0), (957, 0), (956, 0),
    (955, 0), (954, 0), (953, 0), (952, 0), (951, 0), (950, 0), (949, 0), (948, 0),
    (947, 0), (946, 0), (945, 0), (944, 0), (943, 0), (942, 0), (941, 0), (940, 0),
    (939, 0), (938, 0), (937, 0), (936, 0), (935, 0), (934, 0), (933, 0), (932, 0),
    (931, 0), (930, 0), (929, 0), (928, 0), (927, 0), (926, 0), (925, 0), (924, 0),
    (923, 0), (922, 0), (921, 0), (920, 0), (919, 0), (918, 0), (917, 0), (916, 0),
    (915, 0), (914, 0), (913, 0), (912, 0), (911, 0), (910, 0), (909, 0), (908, 0),
    (907, 0), (906, 0), (905, 0), (904, 0), (903, 0), (902, 0), (901, 0), (900, 0),
    (899, 0), (898, 0), (897, 0), (896, 0), (895, 0), (894, 0), (893, 0), (892, 0),
    (891, 0), (890, 0), (889, 0), (888, 0), (887, 0), (886, 0), (885, 0), (884, 0),
    (883, 0), (882, 0), (881, 0), (880, 0), (879, 0), (878, 0), (877, 0), (876, 0),
    (875, 0), (874, 0), (873, 0), (872, 0), (871, 0), (870, 0), (869, 0), (868, 0),
    (867, 0), (866, 0), (865, 0), (864, 0), (863, 0), (862, 0), (861, 0), (860, 0),
    (859, 0), (858, 0), (857, 0), (856, 0), (855, 0), (854, 0), (853, 0), (852, 0),
    (851, 0), (850, 0), (849, 0), (848, 0), (847, 0), (846, 0), (845, 0), (844, 0),
    (843, 0), (842, 0), (841, 0), (840, 0), (839, 0), (838, 0), (837, 0), (836, 0),
    (835, 0), (834, 0), (833, 0), (832, 0), (831, 0), (830, 0), (829, 0), (828, 0),
    (827, 0), (826, 0), (825, 0), (824, 0), (823, 0), (822, 0), (821, 0), (820, 0),
    (819, 0), (818, 0), (817, 0), (816, 0), (815, 0), (814, 0), (813, 0), (812, 0),
    (811, 0), (810, 0), (809, 0), (808, 0), (971, 0), (970, 0), (969, 0), (968, 169),
    (807, 0), (806, 0), (805, 0), (804, 169)],
    brk := 1152, limit := 100000, heap_listp := 976, freelisttablehead := 808 }

/-- Literal final state of the C3 scenario (certified below). -/
def c3stateLit : MMState :=
  { mem := [(823, 0), (822, 0), (821, 0), (820, 0), (819, 0), (818, 0), (817, 3), (816, 248),
    (1031, 0), (1030, 0), (1029, 0), (1028, 0), (1027, 0), (1026, 0), (1025, 0), (1024, 0),
    (1023, 0), (1022, 0), (1021, 0), (1020, 0), (1019, 0), (1018, 0), (1017, 0), (1016, 0),
    (1043, 0), (1042, 0), (1041, 0), (1040, 32), (1015, 0), (1014, 0), (1013, 0), (1012, 32),
    (863, 0), (862, 0), (861, 0), (860, 0), (859, 0), (858, 0), (857, 4), (856, 56),
    (1095, 0), (1094, 0), (1093, 0), (1092, 0), (1091, 0), (1090, 0), (1089, 0), (1088, 0),
    (1087, 0), (1086, 0), (1085, 0), (1084, 0), (1083, 0), (1082, 0), (1081, 0), (1080, 0),
    (1147, 0), (1146, 0), (1145, 0), (1144, 72), (1079, 0), (1078, 0), (1077, 0), (1076, 72),
    (1075, 0), (1074, 0), (1073, 0), (1072, 33), (1047, 0), (1046, 0), (1045, 0), (1044, 33),
    (887, 0), (886, 0), (885, 0), (884, 0), (883, 0), (882, 0), (881, 0), (880, 0),
    (887, 0), (886, 0), (885, 0), (884, 0), (883, 0), (882, 0), (881, 4), (880, 24),
    (1063, 0), (1062, 0), (1061, 0), (1060, 0), (1059, 0), (1058, 0), (1057, 0), (1056, 0),
    (1055, 0), (1054, 0), (1053, 0), (1052, 0), (1051, 0), (1050, 0), (1049, 0), (1048, 0),
    (1147, 0), (1146, 0), (1145, 0), (1144, 104), (1047, 0), (1046, 0), (1045, 0), (1044, 104),
    (1043, 0), (1042, 0), (1041, 0), (1040, 33), (1015, 0), (1014, 0), (1013, 0), (1012, 33),
    (895, 0), (894, 0), (893, 0), (892, 0), (891, 0), (890, 0), (889, 0), (888, 0),
    (895, 0), (894, 0), (893, 0), (892, 0), (891, 0), (890, 0), (889, 3), (888, 248),
    (1031, 0), (1030, 0), (1029, 0), (1028, 0), (1027, 0), (1026, 0), (1025, 0), (1024, 0),
    (1023, 0), (1022, 0), (1021, 0), (1020, 0), (1019, 0), (1018, 0), (1017, 0), (1016, 0),
    (1147, 0), (1146, 0), (1145, 0), (1144, 136), (1015, 0), (1014, 0), (1013, 0), (1012, 136),
    (1011, 0), (1010, 0), (1009, 0), (1008, 33), (983, 0), (982, 0), (981, 0), (980, 33),
    (895, 0), (894, 0), (893, 0), (892, 0), (891, 0), (890, 0), (889, 0), (888, 0),
    (895, 0), (894, 0), (893, 0), (892, 0), (891, 0), (890, 0), (889, 3), (888, 216),
    (999, 0), (998, 0), (997, 0), (996, 0), (995, 0), (994, 0), (993, 0), (992, 0),
    (991, 0), (990, 0), (989, 0), (988, 0), (987, 0), (986, 0), (985, 0), (984, 0),
    (1151, 0), (1150, 0), (1149, 0), (1148, 1), (1147, 0), (1146, 0), (1145, 0), (1144, 168),
    (983, 0), (982, 0), (981, 0), (980, 168), (983, 0), (982, 0), (981, 0), (980, 1),
    (979, 0), (978, 0), (977, 0), (976, 9), (975, 0), (974, 0), (973, 0), (972, 9),
    (971, 0), (970, 0), (969, 0), (968, 0), (967, 0), (966, 0), (965, 0), (964, 0),
    (963, 0), (962, 0), (961, 0), (960, 0), (959, 0), (958, 0), (957, 0), (956, 0),
    (955, 0), (954, 0), (953, 0), (952, 0), (951, 0), (950, 0), (949, 0), (948, 0),
    (947, 0), (946, 0), (945, 0), (944, 0), (943, 0), (942, 0), (941, 0), (940, 0),
    (939, 0), (938, 0), (937, 0), (936, 0), (935, 0), (934, 0), (933, 0), (932, 0),
    (931, 0), (930, 0), (929, 0), (928, 0), (927, 0), (926, 0), (925, 0), (924, 0),
    (923, 0), (922, 0), (921, 0), (920, 0), (919, 0), (918, 0), (917, 0), (916, 0),
    (915, 0), (914, 0), (913, 0), (912, 0), (911, 0), (910, 0), (909, 0), (908, 0),
    (907, 0), (906, 0), (905, 0), (904, 0), (903, 0), (902, 0), (901, 0), (900, 0),
    (899, 0), (898, 0), (897, 0), (896, 0), (895, 0), (894, 0), (893, 0), (892, 0),
    (891, 0), (890, 0), (889, 0), (888, 0), (887, 0), (886, 0), (885, 0), (884, 0),
    (883, 0), (882, 0), (881, 0), (880, 0), (879, 0), (878, 0), (877, 0), (876, 0),
    (875, 0), (874, 0), (873, 0), (872, 0), (871, 0), (870, 0), (869, 0), (868, 0),
    (867, 0), (866, 0), (865, 0), (864, 0), (863, 0), (862, 0), (861, 0), (860, 0),
    (859, 0), (858, 0), (857, 0), (856, 0), (855, 0), (854, 0), (853, 0), (852, 0),
    (851, 0), (850, 0), (849, 0), (848, 0), (847, 0), (846, 0), (845, 0), (844, 0),
    (843, 0), (842, 0), (841, 0), (840, 0), (839, 0), (838, 0), (837, 0), (836, 0),
    (835, 0), (834, 0), (833, 0), (832, 0), (831, 0), (830, 0), (829, 0), (828, 0),
    (827, 0), (826, 0), (825, 0), (824, 0), (823, 0), (822, 0), (821, 0), (820, 0),
    (819, 0), (818, 0), (817, 0), (816, 0), (815, 0), (814, 0), (813, 0), (812, 0),
    (811, 0), (810, 0), (809, 0), (808, 0), (971, 0), (970, 0), (969, 0), (968, 169),
    (807, 0), (806, 0), (805, 0), (804, 169)],
    brk := 1152, limit := 100000, heap_listp := 976, freelisttablehead := 808 }

/-- Literal state after the second allocation of the C6 scenario (certified below). -/
def c6s2Lit : MMState :=
  { mem := [(887, 0), (886, 0), (885, 0), (884, 0), (883, 0), (882, 0), (881, 4), (880, 8),
    (1047, 0), (1046, 0), (1045, 0), (1044, 0), (1043, 0), (1042, 0), (1041, 0), (1040, 0),
    (1039, 0), (1038, 0), (1037, 0), (1036, 0), (1035, 0), (1034, 0), (1033, 0), (1032, 0),
    (1147, 0), (1146, 0), (1145, 0), (1144, 120), (1031, 0), (1030, 0), (1029, 0), (1028, 120),
    (1027, 0), (1026, 0), (1025, 0), (1024, 25), (1007, 0), (1006, 0), (1005, 0), (1004, 25),
    (895, 0), (894, 0), (893, 0), (892, 0), (891, 0), (890, 0), (889, 0), (888, 0),
    (895, 0), (894, 0), (893, 0), (892, 0), (891, 0), (890, 0), (889, 3), (888, 240),
    (1023, 0), (1022, 0), (1021, 0), (1020, 0), (1019, 0), (1018, 0), (1017, 0), (1016, 0),
    (1015, 0), (1014, 0), (1013, 0), (1012, 0), (1011, 0), (1010, 0), (1009, 0), (1008, 0),
    (1147, 0), (1146, 0), (1145, 0), (1144, 144), (1007, 0), (1006, 0), (1005, 0), (1004, 144),
    (1003, 0), (1002, 0), (1001, 0), (1000, 25), (983, 0), (982, 0), (981, 0), (980, 25),
    (895, 0), (894, 0), (893, 0), (892, 0), (891, 0), (890, 0), (889, 0), (888, 0),
    (895, 0), (894, 0), (893, 0), (892, 0), (891, 0), (890, 0), (889, 3), (888, 216),
    (999, 0), (998, 0), (997, 0), (996, 0), (995, 0), (994, 0), (993, 0), (992, 0),
    (991, 0), (990, 0), (989, 0), (988, 0), (987, 0), (986, 0), (985, 0), (984, 0),
    (1151, 0), (1150, 0), (1149, 0), (1148, 1), (1147, 0), (1146, 0), (1145, 0), (1144, 168),
    (983, 0), (982, 0), (981, 0), (980, 168), (983, 0), (982, 0), (981, 0), (980, 1),
    (979, 0), (978, 0), (977, 0), (976, 9), (975, 0), (974, 0), (973, 0), (972, 9),
    (971, 0), (970, 0), (969, 0), (968, 0), (967, 0), (966, 0), (965, 0), (964, 0),
    (963, 0), (962, 0), (961, 0), (960, 0), (959, 0), (958, 0), (957, 0), (956, 0),
    (955, 0), (954, 0), (953, 0), (952, 0), (951, 0), (950, 0), (949, 0), (948, 0),
    (947, 0), (946, 0), (945, 0), (944, 0), (943, 0), (942, 0), (941, 0), (940, 0),
    (939, 0), (938, 0), (937, 0), (936, 0), (935, 0), (934, 0), (933, 0), (932, 0),
    (931, 0), (930, 0), (929, 0), (928, 0), (927, 0), (926, 0), (925, 0), (924, 0),
    (923, 0), (922, 0), (921, 0), (920, 0), (919, 0), (918, 0), (917, 0), (916, 0),
    (915, 0), (914, 0), (913, 0), (912, 0), (911, 0), (910, 0), (909, 0), (908, 0),
    (907, 0), (906, 0), (905, 0), (904, 0), (903, 0), (902, 0), (901, 0), (900, 0),
    (899, 0), (898, 0), (897, 0), (896, 0), (895, 0), (894, 0), (893, 0), (892, 0),
    (891, 0), (890, 0), (889, 0), (888, 0), (887, 0), (886, 0), (885, 0), (884, 0),
    (883, 0), (882, 0), (881, 0), (880, 0), (879, 0), (878, 0), (877, 0), (876, 0),
    (875, 0), (874, 0), (873, 0), (872, 0), (871, 0), (870, 0), (869, 0), (868, 0),
    (867, 0), (866, 0), (865, 0), (864, 0), (863, 0), (862, 0), (861, 0), (860, 0),
    (859, 0), (858, 0), (857, 0), (856, 0), (855, 0), (854, 0), (853, 0), (852, 0),
    (851, 0), (850, 0), (849, 0), (848, 0), (847, 0), (846, 0), (845, 0), (844, 0),
    (843, 0), (842, 0), (841, 0), (840, 0), (839, 0), (838, 0), (837, 0), (836, 0),
    (835, 0), (834, 0), (833, 0), (832, 0), (831, 0), (830, 0), (829, 0), (828, 0),
    (827, 0), (826, 0), (825, 0), (824, 0), (823, 0), (822, 0), (821, 0), (820, 0),
    (819, 0), (818, 0), (817, 0), (816, 0), (815, 0), (814, 0), (813, 0), (812, 0),
    (811, 0), (810, 0), (809, 0), (808, 0), (971, 0), (970, 0), (969, 0), (968, 169),
    (807, 0), (806, 0), (805, 0), (804, 169)],
    brk := 1152, limit := 100000, heap_listp := 976, freelisttablehead := 808 }

/-- Literal state after the third allocation of the C6 scenario (certified below). -/
def c6s3Lit : MMState :=
  { mem := [(879, 0), (878, 0), (877, 0), (876, 0), (875, 0), (874, 0), (873, 4), (872, 32),
    (1071, 0), (1070, 0), (1069, 0), (1068, 0), (1067, 0), (1066, 0), (1065, 0), (1064, 0),
    (1063, 0), (1062, 0), (1061, 0), (1060, 0), (1059, 0), (1058, 0), (1057, 0), (1056, 0),
    (1147, 0), (1146, 0), (1145, 0), (1144, 96), (1055, 0), (1054, 0), (1053, 0), (1052, 96),
    (1051, 0), (1050, 0), (1049, 0), (1048, 25), (1031, 0), (1030, 0), (1029, 0), (1028, 25),
    (887, 0), (886, 0), (885, 0), (884, 0), (883, 0), (882, 0), (881, 0), (880, 0),
    (887, 0), (886, 0), (885, 0), (884, 0), (883, 0), (882, 0), (881, 4), (880, 8),
    (1047, 0), (1046, 0), (1045, 0), (1044, 0), (1043, 0), (1042, 0), (1041, 0), (1040, 0),
    (1039, 0), (1038, 0), (1037, 0), (1036, 0), (1035, 0), (1034, 0), (1033, 0), (1032, 0),
    (1147, 0), (1146, 0), (1145, 0), (1144, 120), (1031, 0), (1030, 0), (1029, 0), (1028, 120),
    (1027, 0), (1026, 0), (1025, 0), (1024, 25), (1007, 0), (1006, 0), (1005, 0), (1004, 25),
    (895, 0), (894, 0), (893, 0), (892, 0), (891, 0), (890, 0), (889, 0), (888, 0),
    (895, 0), (894, 0), (893, 0), (892, 0), (891, 0), (890, 0), (889, 3), (888, 240),
    (1023, 0), (1022, 0), (1021, 0), (1020, 0), (1019, 0), (1018, 0), (1017, 0), (1016, 0),
    (1015, 0), (1014, 0), (1013, 0), (1012, 0), (1011, 0), (1010, 0), (1009, 0), (1008, 0),
    (1147, 0), (1146, 0), (1145, 0), (1144, 144), (1007, 0), (1006, 0), (1005, 0), (1004, 144),
    (1003, 0), (1002, 0), (1001, 0), (1000, 25), (983, 0), (982, 0), (981, 0), (980, 25),
    (895, 0), (894, 0), (893, 0), (892, 0), (891, 0), (890, 0), (889, 0), (888, 0),
    (895, 0), (894, 0), (893, 0), (892, 0), (891, 0), (890, 0), (889, 3), (888, 216),
    (999, 0), (998, 0), (997, 0), (996, 0), (995, 0), (994, 0), (993, 0), (992, 0),
    (991, 0), (990, 0), (989, 0), (988, 0), (987, 0), (986, 0), (985, 0), (984, 0),
    (1151, 0), (1150, 0), (1149, 0), (1148, 1), (1147, 0), (1146, 0), (1145, 0), (1144, 168),
    (983, 0), (982, 0), (981, 0), (980, 168), (983, 0), (982, 0), (981, 0), (980, 1),
    (979, 0), (978, 0), (977, 0), (976, 9), (975, 0), (974, 0), (973, 0), (972, 9),
    (971, 0), (970, 0), (969, 0), (968, 0), (967, 0), (966, 0), (965, 0), (964, 0),
    (963, 0), (962, 0), (961, 0), (960, 0), (959, 0), (958, 0), (957, 0), (956, 0),
    (955, 0), (954, 0), (953, 0), (952, 0), (951, 0), (950, 0), (949, 0), (948, 0),
    (947, 0), (946, 0), (945, 0), (944, 0), (943, 0), (942, 0), (941, 0), (940, 0),
    (939, 0), (938, 0), (937, 0), (936, 0), (935, 0), (934, 0), (933, 0), (932, 0),
    (931, 0), (930, 0), (929, 0), (928, 0), (927, 0), (926, 0), (925, 0), (924, 0),
    (923, 0), (922, 0), (921, 0), (920, 0), (919, 0), (918, 0), (917, 0), (916, 0),
    (915, 0), (914, 0), (913, 0), (912, 0), (911, 0), (910, 0), (909, 0), (908, 0),
    (907, 0), (906, 0), (905, 0), (904, 0), (903, 0), (902, 0), (901, 0), (900, 0),
    (899, 0), (898, 0), (897, 0), (896, 0), (895, 0), (894, 0), (893, 0), (892, 0),
    (891, 0), (890, 0), (889, 0), (888, 0), (887, 0), (886, 0), (885, 0), (884, 0),
    (883, 0), (882, 0), (881, 0), (880, 0), (879, 0), (878, 0), (877, 0), (876, 0),
    (875, 0), (874, 0), (873, 0), (872, 0), (871, 0), (870, 0), (869, 0), (868, 0),
    (867, 0), (866, 0), (865, 0), (864, 0), (863, 0), (862, 0), (861, 0), (860, 0),
    (859, 0), (858, 0), (857, 0), (856, 0), (855, 0), (854, 0), (853, 0), (852, 0),
    (851, 0), (850, 0), (849, 0), (848, 0), (847, 0), (846, 0), (845, 0), (844, 0),
    (843, 0), (842, 0), (841, 0), (840, 0), (839, 0), (838, 0), (837, 0), (836, 0),
    (835, 0), (834, 0), (833, 0), (832, 0), (831, 0), (830, 0), (829, 0), (828, 0),
    (827, 0), (826, 0), (825, 0), (824, 0), (823, 0), (822, 0), (821, 0), (820, 0),
    (819, 0), (818, 0), (817, 0), (816, 0), (815, 0), (814, 0), (813, 0), (812, 0),
    (811, 0), (810, 0), (809, 0), (808, 0), (971, 0), (970, 0), (969, 0), (968, 169),
    (807, 0), (806, 0), (805, 0), (804, 169)],
    brk := 1152, limit := 100000, heap_listp := 976, freelisttablehead := 808 }

/-- Literal state after the fourth allocation of the C6 scenario (certified below). -/
def c6s4Lit : MMState :=
  { mem := [(863, 0), (862, 0), (861, 0), (860, 0), (859, 0), (858, 0), (857, 4), (856, 56),
    (1095, 0), (1094, 0), (1093, 0), (1092, 0), (1091, 0), (1090, 0), (1089, 0), (1088, 0),
    (1087, 0), (1086, 0), (1085, 0), (1084, 0), (1083, 0), (1082, 0), (1081, 0), (1080, 0),
    (1147, 0), (1146, 0), (1145, 0), (1144, 72), (1079, 0), (1078, 0), (1077, 0), (1076, 72),
    (1075, 0), (1074, 0), (1073, 0), (1072, 25), (1055, 0), (1054, 0), (1053, 0), (1052, 25),
    (879, 0), (878, 0), (877, 0), (876, 0), (875, 0), (874, 0), (873, 0), (872, 0),
    (879, 0), (878, 0), (877, 0), (876, 0), (875, 0), (874, 0), (873, 4), (872, 32),
    (1071, 0), (1070, 0), (1069, 0), (1068, 0), (1067, 0), (1066, 0), (1065, 0), (1064, 0),
    (1063, 0), (1062, 0), (1061, 0), (1060, 0), (1059, 0), (1058, 0), (1057, 0), (1056, 0),
    (1147, 0), (1146, 0), (1145, 0), (1144, 96), (1055, 0), (1054, 0), (1053, 0), (1052, 96),
    (1051, 0), (1050, 0), (1049, 0), (1048, 25), (1031, 0), (1030, 0), (1029, 0), (1028, 25),
    (887, 0), (886, 0), (885, 0), (884, 0), (883, 0), (882, 0), (881, 0), (880, 0),
    (887, 0), (886, 0), (885, 0), (884, 0), (883, 0), (882, 0), (881, 4), (880, 8),
    (1047, 0), (1046, 0), (1045, 0), (1044, 0), (1043, 0), (1042, 0), (1041, 0), (1040, 0),
    (1039, 0), (1038, 0), (1037, 0), (1036, 0), (1035, 0), (1034, 0), (1033, 0), (1032, 0),
    (1147, 0), (1146, 0), (1145, 0), (1144, 120), (1031, 0), (1030, 0), (1029, 0), (1028, 120),
    (1027, 0), (1026, 0), (1025, 0), (1024, 25), (1007, 0), (1006, 0), (1005, 0), (1004, 25),
    (895, 0), (894, 0), (893, 0), (892, 0), (891, 0), (890, 0), (889, 0), (888, 0),
    (895, 0), (894, 0), (893, 0), (892, 0), (891, 0), (890, 0), (889, 3), (888, 240),
    (1023, 0), (1022, 0), (1021, 0), (1020, 0), (1019, 0), (1018, 0), (1017, 0), (1016, 0),
    (1015, 0), (1014, 0), (1013, 0), (1012, 0), (1011, 0), (1010, 0), (1009, 0), (1008, 0),
    (1147, 0), (1146, 0), (1145, 0), (1144, 144), (1007, 0), (1006, 0), (1005, 0), (1004, 144),
    (1003, 0), (1002, 0), (1001, 0), (1000, 25), (983, 0), (982, 0), (981, 0), (980, 25),
    (895, 0), (894, 0), (893, 0), (892, 0), (891, 0), (890, 0), (889, 0), (888, 0),
    (895, 0), (894, 0), (893, 0), (892, 0), (891, 0), (890, 0), (889, 3), (888, 216),
    (999, 0), (998, 0), (997, 0), (996, 0), (995, 0), (994, 0), (993, 0), (992, 0),
    (991, 0), (990, 0), (989, 0), (988, 0), (987, 0), (986, 0), (985, 0), (984, 0),
    (1151, 0), (1150, 0), (1149, 0), (1148, 1), (1147, 0), (1146, 0), (1145, 0), (1144, 168),
    (983, 0), (982, 0), (981, 0), (980, 168), (983, 0), (982, 0), (981, 0), (980, 1),
    (979, 0), (978, 0), (977, 0), (976, 9), (975, 0), (974, 0), (973, 0), (972, 9),
    (971, 0), (970, 0), (969, 0), (968, 0), (967, 0), (966, 0), (965, 0), (964, 0),
    (963, 0), (962, 0), (961, 0), (960, 0), (959, 0), (958, 0), (957, 0), (956, 0),
    (955, 0), (954, 0), (953, 0), (952, 0), (951, 0), (950, 0), (949, 0), (948, 0),
    (947, 0), (946, 0), (945, 0), (944, 0), (943, 0), (942, 0), (941, 0), (940, 0),
    (939, 0), (938, 0), (937, 0), (936, 0), (935, 0), (934, 0), (933, 0), (932, 0),
    (931, 0), (930, 0), (929, 0), (928, 0), (927, 0), (926, 0), (925, 0), (924, 0),
    (923, 0), (922, 0), (921, 0), (920, 0), (919, 0), (918, 0), (917, 0), (916, 0),
    (915, 0), (914, 0), (913, 0), (912, 0), (911, 0), (910, 0), (909, 0), (908, 0),
    (907, 0), (906, 0), (905, 0), (904, 0), (903, 0), (902, 0), (901, 0), (900, 0),
    (899, 0), (898, 0), (897, 0), (896, 0), (895, 0), (894, 0), (893, 0), (892, 0),
    (891, 0), (890, 0), (889, 0), (888, 0), (887, 0), (886, 0), (885, 0), (884, 0),
    (883, 0), (882, 0), (881, 0), (880, 0), (879, 0), (878, 0), (877, 0), (876, 0),
    (875, 0), (874, 0), (873, 0), (872, 0), (871, 0), (870, 0), (869, 0), (868, 0),
    (867, 0), (866, 0), (865, 0), (864, 0), (863, 0), (862, 0), (861, 0), (860, 0),
    (859, 0), (858, 0), (857, 0), (856, 0), (855, 0), (854, 0), (853, 0), (852, 0),
    (851, 0), (850, 0), (849, 0), (848, 0), (847, 0), (846, 0), (845, 0), (844, 0),
    (843, 0), (842, 0), (841, 0), (840, 0), (839, 0), (838, 0), (837, 0), (836, 0),
    (835, 0), (834, 0), (833, 0), (832, 0), (831, 0), (830, 0), (829, 0), (828, 0),
    (827, 0), (826, 0), (825, 0), (824, 0), (823, 0), (822, 0), (821, 0), (820, 0),
    (819, 0), (818, 0), (817, 0), (816, 0), (815, 0), (814, 0), (813, 0), (812, 0),
    (811, 0), (810, 0), (809, 0), (808, 0), (971, 0), (970, 0), (969, 0), (968, 169),
    (807, 0), (806, 0), (805, 0), (804, 169)],
    brk := 1152, limit := 100000, heap_listp := 976, freelisttablehead := 808 }

/-- Literal state after freeing the first block in the C6 scenario (certified below). -/
def c6s5Lit : MMState :=
  { mem := [(815, 0), (814, 0), (813, 0), (812, 0), (811, 0), (810, 0), (809, 3), (808, 216),
    (999, 0), (998, 0), (997, 0), (996, 0), (995, 0), (994, 0), (993, 0), (992, 0),
    (991, 0), (990, 0), (989, 0), (988, 0), (987, 0), (986, 0), (985, 0), (984, 0),
    (1003, 0), (1002, 0), (1001, 0), (1000, 24), (983, 0), (982, 0), (981, 0), (980, 24),
    (863, 0), (862, 0), (861, 0), (860, 0), (859, 0), (858, 0), (857, 4), (856, 56),
    (1095, 0), (1094, 0), (1093, 0), (1092, 0), (1091, 0), (1090, 0), (1089, 0), (1088, 0),
    (1087, 0), (1086, 0), (1085, 0), (1084, 0), (1083, 0), (1082, 0), (1081, 0), (1080, 0),
    (1147, 0), (1146, 0), (1145, 0), (1144, 72), (1079, 0), (1078, 0), (1077, 0), (1076, 72),
    (1075, 0), (1074, 0), (1073, 0), (1072, 25), (1055, 0), (1054, 0), (1053, 0), (1052, 25),
    (879, 0), (878, 0), (877, 0), (876, 0), (875, 0), (874, 0), (873, 0), (872, 0),
    (879, 0), (878, 0), (877, 0), (876, 0), (875, 0), (874, 0), (873, 4), (872, 32),
    (1071, 0), (1070, 0), (1069, 0), (1068, 0), (1067, 0), (1066, 0), (1065, 0), (1064, 0),
    (1063, 0), (1062, 0), (1061, 0), (1060, 0), (1059, 0), (1058, 0), (1057, 0), (1056, 0),
    (1147, 0), (1146, 0), (1145, 0), (1144, 96), (1055, 0), (1054, 0), (1053, 0), (1052, 96),
    (1051, 0), (1050, 0), (1049, 0), (1048, 25), (1031, 0), (1030, 0), (1029, 0), (1028, 25),
    (887, 0), (886, 0), (885, 0), (884, 0), (883, 0), (882, 0), (881, 0), (880, 0),
    (887, 0), (886, 0), (885, 0), (884, 0), (883, 0), (882, 0), (881, 4), (880, 8),
    (1047, 0), (1046, 0), (1045, 0), (1044, 0), (1043, 0), (1042, 0), (1041, 0), (1040, 0),
    (1039, 0), (1038, 0), (1037, 0), (1036, 0), (1035, 0), (1034, 0), (1033, 0), (1032, 0),
    (1147, 0), (1146, 0), (1145, 0), (1144, 120), (1031, 0), (1030, 0), (1029, 0), (1028, 120),
    (1027, 0), (1026, 0), (1025, 0), (1024, 25), (1007, 0), (1006, 0), (1005, 0), (1004, 25),
    (895, 0), (894, 0), (893, 0), (892, 0), (891, 0), (890, 0), (889, 0), (888, 0),
    (895, 0), (894, 0), (893, 0), (892, 0), (891, 0), (890, 0), (889, 3), (888, 240),
    (1023, 0), (1022, 0), (1021, 0), (1020, 0), (1019, 0), (1018, 0), (1017, 0), (1016, 0),
    (1015, 0), (1014, 0), (1013, 0), (1012, 0), (1011, 0), (1010, 0), (1009, 0), (1008, 0),
    (1147, 0), (1146, 0), (1145, 0), (1144, 144), (1007, 0), (1006, 0), (1005, 0), (1004, 144),
    (1003, 0), (1002, 0), (1001, 0), (1000, 25), (983, 0), (982, 0), (981, 0), (980, 25),
    (895, 0), (894, 0), (893, 0), (892, 0), (891, 0), (890, 0), (889, 0), (888, 0),
    (895, 0), (894, 0), (893, 0), (892, 0), (891, 0), (890, 0), (889, 3), (888, 216),
    (999, 0), (998, 0), (997, 0), (996, 0), (995, 0), (994, 0), (993, 0), (992, 0),
    (991, 0), (990, 0), (989, 0), (988, 0), (987, 0), (986, 0), (985, 0), (984, 0),
    (1151, 0), (1150, 0), (1149, 0), (1148, 1), (1147, 0), (1146, 0), (1145, 0), (1144, 168),
    (983, 0), (982, 0), (981, 0), (980, 168), (983, 0), (982, 0), (981, 0), (980, 1),
    (979, 0), (978, 0), (977, 0), (976, 9), (975, 0), (974, 0), (973, 0), (972, 9),
    (971, 0), (970, 0), (969, 0), (968, 0), (967, 0), (966, 0), (965, 0), (964, 0),
    (963, 0), (962, 0), (961, 0), (960, 0), (959, 0), (958, 0), (957, 0), (956, 0),
    (955, 0), (954, 0), (953, 0), (952, 0), (951, 0), (950, 0), (949, 0), (948, 0),
    (947, 0), (946, 0), (945, 0), (944, 0), (943, 0), (942, 0), (941, 0), (940, 0),
    (939, 0), (938, 0), (937, 0), (936, 0), (935, 0), (934, 0), (933, 0), (932, 0),
    (931, 0), (930, 0), (929, 0), (928, 0), (927, 0), (926, 0), (925, 0), (924, 0),
    (923, 0), (922, 0), (921, 0), (920, 0), (919, 0), (918, 0), (917, 0), (916, 0),
    (915, 0), (914, 0), (913, 0), (912, 0), (911, 0), (910, 0), (909, 0), (908, 0),
    (907, 0), (906, 0), (905, 0), (904, 0), (903, 0), (902, 0), (901, 0), (900, 0),
    (899, 0), (898, 0), (897, 0), (896, 0), (895, 0), (894, 0), (893, 0), (892, 0),
    (891, 0), (890, 0), (889, 0), (888, 0), (887, 0), (886, 0), (885, 0), (884, 0),
    (883, 0), (882, 0), (881, 0), (880, 0), (879, 0), (878, 0), (877, 0), (876, 0),
    (875, 0), (874, 0), (873, 0), (872, 0), (871, 0), (870, 0), (869, 0), (868, 0),
    (867, 0), (866, 0), (865, 0), (864, 0), (863, 0), (862, 0), (861, 0), (860, 0),
    (859, 0), (858, 0), (857, 0), (856, 0), (855, 0), (854, 0), (853, 0), (852, 0),
    (851, 0), (850, 0), (849, 0), (848, 0), (847, 0), (846, 0), (845, 0), (844, 0),
    (843, 0), (842, 0), (841, 0), (840, 0), (839, 0), (838, 0), (837, 0), (836, 0),
    (835, 0), (834, 0), (833, 0), (832, 0), (831, 0), (830, 0), (829, 0), (828, 0),
    (827, 0), (826, 0), (825, 0), (824, 0), (823, 0), (822, 0), (821, 0), (820, 0),
    (819, 0), (818, 0), (817, 0), (816, 0), (815, 0), (814, 0), (813, 0), (812, 0),
    (811, 0), (810, 0), (809, 0), (808, 0), (971, 0), (970, 0), (969, 0), (968, 169),
    (807, 0), (806, 0), (805, 0), (804, 169)],
    brk := 1152, limit := 100000, heap_listp := 976, freelisttablehead := 808 }

/-- Literal state after freeing the third block in the C6 scenario (certified below). -/
def c6s6Lit : MMState :=
  { mem := [(815, 0), (814, 0), (813, 0), (812, 0), (811, 0), (810, 0), (809, 4), (808, 8),
    (1039, 0), (1038, 0), (1037, 0), (1036, 0), (1035, 0), (1034, 0), (1033, 0), (1032, 0),
    (1047, 0), (1046, 0), (1045, 0), (1044, 0), (1043, 0), (1042, 0), (1041, 3), (1040, 216),
    (991, 0), (990, 0), (989, 0), (988, 0), (987, 0), (986, 0), (985, 4), (984, 8),
    (1051, 0), (1050, 0), (1049, 0), (1048, 24), (1031, 0), (1030, 0), (1029, 0), (1028, 24),
    (815, 0), (814, 0), (813, 0), (812, 0), (811, 0), (810, 0), (809, 3), (808, 216),
    (999, 0), (998, 0), (997, 0), (996, 0), (995, 0), (994, 0), (993, 0), (992, 0),
    (991, 0), (990, 0), (989, 0), (988, 0), (987, 0), (986, 0), (985, 0), (984, 0),
    (1003, 0), (1002, 0), (1001, 0), (1000, 24), (983, 0), (982, 0), (981, 0), (980, 24),
    (863, 0), (862, 0), (861, 0), (860, 0), (859, 0), (858, 0), (857, 4), (856, 56),
    (1095, 0), (1094, 0), (1093, 0), (1092, 0), (1091, 0), (1090, 0), (1089, 0), (1088, 0),
    (1087, 0), (1086, 0), (1085, 0), (1084, 0), (1083, 0), (1082, 0), (1081, 0), (1080, 0),
    (1147, 0), (1146, 0), (1145, 0), (1144, 72), (1079, 0), (1078, 0), (1077, 0), (1076, 72),
    (1075, 0), (1074, 0), (1073, 0), (1072, 25), (1055, 0), (1054, 0), (1053, 0), (1052, 25),
    (879, 0), (878, 0), (877, 0), (876, 0), (875, 0), (874, 0), (873, 0), (872, 0),
    (879, 0), (878, 0), (877, 0), (876, 0), (875, 0), (874, 0), (873, 4), (872, 32),
    (1071, 0), (1070, 0), (1069, 0), (1068, 0), (1067, 0), (1066, 0), (1065, 0), (1064, 0),
    (1063, 0), (1062, 0), (1061, 0), (1060, 0), (1059, 0), (1058, 0), (1057, 0), (1056, 0),
    (1147, 0), (1146, 0), (1145, 0), (1144, 96), (1055, 0), (1054, 0), (1053, 0), (1052, 96),
    (1051, 0), (1050, 0), (1049, 0), (1048, 25), (1031, 0), (1030, 0), (1029, 0), (1028, 25),
    (887, 0), (886, 0), (885, 0), (884, 0), (883, 0), (882, 0), (881, 0), (880, 0),
    (887, 0), (886, 0), (885, 0), (884, 0), (883, 0), (882, 0), (881, 4), (880, 8),
    (1047, 0), (1046, 0), (1045, 0), (1044, 0), (1043, 0), (1042, 0), (1041, 0), (1040, 0),
    (1039, 0), (1038, 0), (1037, 0), (1036, 0), (1035, 0), (1034, 0), (1033, 0), (1032, 0),
    (1147, 0), (1146, 0), (1145, 0), (1144, 120), (1031, 0), (1030, 0), (1029, 0), (1028, 120),
    (1027, 0), (1026, 0), (1025, 0), (1024, 25), (1007, 0), (1006, 0), (1005, 0), (1004, 25),
    (895, 0), (894, 0), (893, 0), (892, 0), (891, 0), (890, 0), (889, 0), (888, 0),
    (895, 0), (894, 0), (893, 0), (892, 0), (891, 0), (890, 0), (889, 3), (888, 240),
    (1023, 0), (1022, 0), (1021, 0), (1020, 0), (1019, 0), (1018, 0), (1017, 0), (1016, 0),
    (1015, 0), (1014, 0), (1013, 0), (1012, 0), (1011, 0), (1010, 0), (1009, 0), (1008, 0),
    (1147, 0), (1146, 0), (1145, 0), (1144, 144), (1007, 0), (1006, 0), (1005, 0), (1004, 144),
    (1003, 0), (1002, 0), (1001, 0), (1000, 25), (983, 0), (982, 0), (981, 0), (980, 25),
    (895, 0), (894, 0), (893, 0), (892, 0), (891, 0), (890, 0), (889, 0), (888, 0),
    (895, 0), (894, 0), (893, 0), (892, 0), (891, 0), (890, 0), (889, 3), (888, 216),
    (999, 0), (998, 0), (997, 0), (996, 0), (995, 0), (994, 0), (993, 0), (992, 0),
    (991, 0), (990, 0), (989, 0), (988, 0), (987, 0), (986, 0), (985, 0), (984, 0),
    (1151, 0), (1150, 0), (1149, 0), (1148, 1), (1147, 0), (1146, 0), (1145, 0), (1144, 168),
    (983, 0), (982, 0), (981, 0), (980, 168), (983, 0), (982, 0), (981, 0), (980, 1),
    (979, 0), (978, 0), (977, 0), (976, 9), (975, 0), (974, 0), (973, 0), (972, 9),
    (971, 0), (970, 0), (969, 0), (968, 0), (967, 0), (966, 0), (965, 0), (964, 0),
    (963, 0), (962, 0), (961, 0), (960, 0), (959, 0), (958, 0), (957, 0), (956, 0),
    (955, 0), (954, 0), (953, 0), (952, 0), (951, 0), (950, 0), (949, 0), (948, 0),
    (947, 0), (946, 0), (945, 0), (944, 0), (943, 0), (942, 0), (941, 0), (940, 0),
    (939, 0), (938, 0), (937, 0), (936, 0), (935, 0), (934, 0), (933, 0), (932, 0),
    (931, 0), (930, 0), (929, 0), (928, 0), (927, 0), (926, 0), (925, 0), (924, 0),
    (923, 0), (922, 0), (921, 0), (920, 0), (919, 0), (918, 0), (917, 0), (916, 0),
    (915, 0), (914, 0), (913, 0), (912, 0), (911, 0), (910, 0), (909, 0), (908, 0),
    (907, 0), (906, 0), (905, 0), (904, 0), (903, 0), (902, 0), (901, 0), (900, 0),
    (899, 0), (898, 0), (897, 0), (896, 0), (895, 0), (894, 0), (893, 0), (892, 0),
    (891, 0), (890, 0), (889, 0), (888, 0), (887, 0), (886, 0), (885, 0), (884, 0),
    (883, 0), (882, 0), (881, 0), (880, 0), (879, 0), (878, 0), (877, 0), (876, 0),
    (875, 0), (874, 0), (873, 0), (872, 0), (871, 0), (870, 0), (869, 0), (868, 0),
    (867, 0), (866, 0), (865, 0), (864, 0), (863, 0), (862, 0), (861, 0), (860, 0),
    (859, 0), (858, 0), (857, 0), (856, 0), (855, 0), (854, 0), (853, 0), (852, 0),
    (851, 0), (850, 0), (849, 0), (848, 0), (847, 0), (846, 0), (845, 0), (844, 0),
    (843, 0), (842, 0), (841, 0), (840, 0), (839, 0), (838, 0), (837, 0), (836, 0),
    (835, 0), (834, 0), (833, 0), (832, 0), (831, 0), (830, 0), (829, 0), (828, 0),
    (827, 0), (826, 0), (825, 0), (824, 0), (823, 0), (822, 0), (821, 0), (820, 0),
    (819, 0), (818, 0), (817, 0), (816, 0), (815, 0), (814, 0), (813, 0), (812, 0),
    (811, 0), (810, 0), (809, 0), (808, 0), (971, 0), (970, 0), (969, 0), (968, 169),
    (807, 0), (806, 0), (805, 0), (804, 169)],
    brk := 1152, limit := 100000, heap_listp := 976, freelisttablehead := 808 }

/-- Literal final state of the C6 scenario (certified below). -/
def c6stateLit : MMState :=
  { mem := [(1032, 0), (1051, 0), (1050, 0), (1049, 0), (1048, 25), (1031, 0), (1030, 0), (1029, 0),
    (1028, 25), (991, 0), (990, 0), (989, 0), (988, 0), (987, 0), (986, 0), (985, 0),
    (984, 0), (815, 0), (814, 0), (813, 0), (812, 0), (811, 0), (810, 0), (809, 3),
    (808, 216), (815, 0), (814, 0), (813, 0), (812, 0), (811, 0), (810, 0), (809, 4),
    (808, 8), (1039, 0), (1038, 0), (1037, 0), (1036, 0), (1035, 0), (1034, 0), (1033, 0),
    (1032, 0), (1047, 0), (1046, 0), (1045, 0), (1044, 0), (1043, 0), (1042, 0), (1041, 3),
    (1040, 216), (991, 0), (990, 0), (989, 0), (988, 0), (987, 0), (986, 0), (985, 4),
    (984, 8), (1051, 0), (1050, 0), (1049, 0), (1048, 24), (1031, 0), (1030, 0), (1029, 0),
    (1028, 24), (815, 0), (814, 0), (813, 0), (812, 0), (811, 0), (810, 0), (809, 3),
    (808, 216), (999, 0), (998, 0), (997, 0), (996, 0), (995, 0), (994, 0), (993, 0),
    (992, 0), (991, 0), (990, 0), (989, 0), (988, 0), (987, 0), (986, 0), (985, 0),
    (984, 0), (1003, 0), (1002, 0), (1001, 0), (1000, 24), (983, 0), (982, 0), (981, 0),
    (980, 24), (863, 0), (862, 0), (861, 0), (860, 0), (859, 0), (858, 0), (857, 4),
    (856, 56), (1095, 0), (1094, 0), (1093, 0), (1092, 0), (1091, 0), (1090, 0), (1089, 0),
    (1088, 0), (1087, 0), (1086, 0), (1085, 0), (1084, 0), (1083, 0), (1082, 0), (1081, 0),
    (1080, 0), (1147, 0), (1146, 0), (1145, 0), (1144, 72), (1079, 0), (1078, 0), (1077, 0),
    (1076, 72), (1075, 0), (1074, 0), (1073, 0), (1072, 25), (1055, 0), (1054, 0), (1053, 0),
    (1052, 25), (879, 0), (878, 0), (877, 0), (876, 0), (875, 0), (874, 0), (873, 0),
    (872, 0), (879, 0), (878, 0), (877, 0), (876, 0), (875, 0), (874, 0), (873, 4),
    (872, 32), (1071, 0), (1070, 0), (1069, 0), (1068, 0), (1067, 0), (1066, 0), (1065, 0),
    (1064, 0), (1063, 0), (1062, 0), (1061, 0), (1060, 0), (1059, 0), (1058, 0), (1057, 0),
    (1056, 0), (1147, 0), (1146, 0), (1145, 0), (1144, 96), (1055, 0), (1054, 0), (1053, 0),
    (1052, 96), (1051, 0), (1050, 0), (1049, 0), (1048, 25), (1031, 0), (1030, 0), (1029, 0),
    (1028, 25), (887, 0), (886, 0), (885, 0), (884, 0), (883, 0), (882, 0), (881, 0),
    (880, 0), (887, 0), (886, 0), (885, 0), (884, 0), (883, 0), (882, 0), (881, 4),
    (880, 8), (1047, 0), (1046, 0), (1045, 0), (1044, 0), (1043, 0), (1042, 0), (1041, 0),
    (1040, 0), (1039, 0), (1038, 0), (1037, 0), (1036, 0), (1035, 0), (1034, 0), (1033, 0),
    (1032, 0), (1147, 0), (1146, 0), (1145, 0), (1144, 120), (1031, 0), (1030, 0), (1029, 0),
    (1028, 120), (1027, 0), (1026, 0), (1025, 0), (1024, 25), (1007, 0), (1006, 0), (1005, 0),
    (1004, 25), (895, 0), (894, 0), (893, 0), (892, 0), (891, 0), (890, 0), (889, 0),
    (888, 0), (895, 0), (894, 0), (893, 0), (892, 0), (891, 0), (890, 0), (889, 3),
    (888, 240), (1023, 0), (1022, 0), (1021, 0), (1020, 0), (1019, 0), (1018, 0), (1017, 0),
    (1016, 0), (1015, 0), (1014, 0), (1013, 0), (1012, 0), (1011, 0), (1010, 0), (1009, 0),
    (1008, 0), (1147, 0), (1146, 0), (1145, 0), (1144, 144), (1007, 0), (1006, 0), (1005, 0),
    (1004, 144), (1003, 0), (1002, 0), (1001, 0), (1000, 25), (983, 0), (982, 0), (981, 0),
    (980, 25), (895, 0), (894, 0), (893, 0), (892, 0), (891, 0), (890, 0), (889, 0),
    (888, 0), (895, 0), (894, 0), (893, 0), (892, 0), (891, 0), (890, 0), (889, 3),
    (888, 216), (999, 0), (998, 0), (997, 0), (996, 0), (995, 0), (994, 0), (993, 0),
    (992, 0), (991, 0), (990, 0), (989, 0), (988, 0), (987, 0), (986, 0), (985, 0),
    (984, 0), (1151, 0), (1150, 0), (1149, 0), (1148, 1), (1147, 0), (1146, 0), (1145, 0),
    (1144, 168), (983, 0), (982, 0), (981, 0), (980, 168), (983, 0), (982, 0), (981, 0),
    (980, 1), (979, 0), (978, 0), (977, 0), (976, 9), (975, 0), (974, 0), (973, 0),
    (972, 9), (971, 0), (970, 0), (969, 0), (968, 0), (967, 0), (966, 0), (965, 0),
    (964, 0), (963, 0), (962, 0), (961, 0), (960, 0), (959, 0), (958, 0), (957, 0),
    (956, 0), (955, 0), (954, 0), (953, 0), (952, 0), (951, 0), (950, 0), (949, 0),
    (948, 0), (947, 0), (946, 0), (945, 0), (944, 0), (943, 0), (942, 0), (941, 0),
    (940, 0), (939, 0), (938, 0), (937, 0), (936, 0), (935, 0), (934, 0), (933, 0),
    (932, 0), (931, 0), (930, 0), (929, 0), (928, 0), (927, 0), (926, 0), (925, 0),
    (924, 0), (923, 0), (922, 0), (921, 0), (920, 0), (919, 0), (918, 0), (917, 0),
    (916, 0), (915, 0), (914, 0), (913, 0), (912, 0), (911, 0), (910, 0), (909, 0),
    (908, 0), (907, 0), (906, 0), (905, 0), (904, 0), (903, 0), (902, 0), (901, 0),
    (900, 0), (899, 0), (898, 0), (897, 0), (896, 0), (895, 0), (894, 0), (893, 0),
    (892, 0), (891, 0), (890, 0), (889, 0), (888, 0), (887, 0), (886, 0), (885, 0),
    (884, 0), (883, 0), (882, 0), (881, 0), (880, 0), (879, 0), (878, 0), (877, 0),
    (876, 0), (875, 0), (874, 0), (873, 0), (872, 0), (871, 0), (870, 0), (869, 0),
    (868, 0), (867, 0), (866, 0), (865, 0), (864, 0), (863, 0), (862, 0), (861, 0),
    (860, 0), (859, 0), (858, 0), (857, 0), (856, 0), (855, 0), (854, 0), (853, 0),
    (852, 0), (851, 0), (850, 0), (849, 0), (848, 0), (847, 0), (846, 0), (845, 0),
    (844, 0), (843, 0), (842, 0), (841, 0), (840, 0), (839, 0), (838, 0), (837, 0),
    (836, 0), (835, 0), (834, 0), (833, 0), (832, 0), (831, 0), (830, 0), (829, 0),
    (828, 0), (827, 0), (826, 0), (825, 0), (824, 0), (823, 0), (822, 0), (821, 0),
    (820, 0), (819, 0), (818, 0), (817, 0), (816, 0), (815, 0), (814, 0), (813, 0),
    (812, 0), (811, 0), (810, 0), (809, 0), (808, 0), (971, 0), (970, 0), (969, 0),
    (968, 169), (807, 0), (806, 0), (805, 0), (804, 169)],
    brk := 1152, limit := 100000, heap_listp := 976, freelisttablehead := 808 }

/-- Literal state after the inner allocation of the C5 scenario (certified below). -/
def mid5Lit : MMState :=
  { mem := [(887, 0), (886, 0), (885, 0), (884, 0), (883, 0), (882, 0), (881, 4), (880, 24),
    (1063, 0), (1062, 0), (1061, 0), (1060, 0), (1059, 0), (1058, 0), (1057, 0), (1056, 0),
    (1055, 0), (1054, 0), (1053, 0), (1052, 0), (1051, 0), (1050, 0), (1049, 0), (1048, 0),
    (1147, 0), (1146, 0), (1145, 0), (1144, 104), (1047, 0), (1046, 0), (1045, 0), (1044, 104),
    (1043, 0), (1042, 0), (1041, 0), (1040, 41), (1007, 0), (1006, 0), (1005, 0), (1004, 41),
    (895, 0), (894, 0), (893, 0), (892, 0), (891, 0), (890, 0), (889, 0), (888, 0),
    (895, 0), (894, 0), (893, 0), (892, 0), (891, 0), (890, 0), (889, 3), (888, 240),
    (1023, 0), (1022, 0), (1021, 0), (1020, 0), (1019, 0), (1018, 0), (1017, 0), (1016, 0),
    (1015, 0), (1014, 0), (1013, 0), (1012, 0), (1011, 0), (1010, 0), (1009, 0), (1008, 0),
    (1147, 0), (1146, 0), (1145, 0), (1144, 144), (1007, 0), (1006, 0), (1005, 0), (1004, 144),
    (1003, 0), (1002, 0), (1001, 0), (1000, 25), (983, 0), (982, 0), (981, 0), (980, 25),
    (895, 0), (894, 0), (893, 0), (892, 0), (891, 0), (890, 0), (889, 0), (888, 0),
    (895, 0), (894, 0), (893, 0), (892, 0), (891, 0), (890, 0), (889, 3), (888, 216),
    (999, 0), (998, 0), (997, 0), (996, 0), (995, 0), (994, 0), (993, 0), (992, 0),
    (991, 0), (990, 0), (989, 0), (988, 0), (987, 0), (986, 0), (985, 0), (984, 0),
    (1151, 0), (1150, 0), (1149, 0), (1148, 1), (1147, 0), (1146, 0), (1145, 0), (1144, 168),
    (983, 0), (982, 0), (981, 0), (980, 168), (983, 0), (982, 0), (981, 0), (980, 1),
    (979, 0), (978, 0), (977, 0), (976, 9), (975, 0), (974, 0), (973, 0), (972, 9),
    (971, 0), (970, 0), (969, 0), (968, 0), (967, 0), (966, 0), (965, 0), (964, 0),
    (963, 0), (962, 0), (961, 0), (960, 0), (959, 0), (958, 0), (957, 0), (956, 0),
    (955, 0), (954, 0), (953, 0), (952, 0), (951, 0), (950, 0), (949, 0), (948, 0),
    (947, 0), (946, 0), (945, 0), (944, 0), (943, 0), (942, 0), (941, 0), (940, 0),
    (939, 0), (938, 0), (937, 0), (936, 0), (935, 0), (934, 0), (933, 0), (932, 0),
    (931, 0), (930, 0), (929, 0), (928, 0), (927, 0), (926, 0), (925, 0), (924, 0),
    (923, 0), (922, 0), (921, 0), (920, 0), (919, 0), (918, 0), (917, 0), (916, 0),
    (915, 0), (914, 0), (913, 0), (912, 0), (911, 0), (910, 0), (909, 0), (908, 0),
    (907, 0), (906, 0), (905, 0), (904, 0), (903, 0), (902, 0), (901, 0), (900, 0),
    (899, 0), (898, 0), (897, 0), (896, 0), (895, 0), (894, 0), (893, 0), (892, 0),
    (891, 0), (890, 0), (889, 0), (888, 0), (887, 0), (886, 0), (885, 0), (884, 0),
    (883, 0), (882, 0), (881, 0), (880, 0), (879, 0), (878, 0), (877, 0), (876, 0),
    (875, 0), (874, 0), (873, 0), (872, 0), (871, 0), (870, 0), (869, 0), (868, 0),
    (867, 0), (866, 0), (865, 0), (864, 0), (863, 0), (862, 0), (861, 0), (860, 0),
    (859, 0), (858, 0), (857, 0), (856, 0), (855, 0), (854, 0), (853, 0), (852, 0),
    (851, 0), (850, 0), (849, 0), (848, 0), (847, 0), (846, 0), (845, 0), (844, 0),
    (843, 0), (842, 0), (841, 0), (840, 0), (839, 0), (838, 0), (837, 0), (836, 0),
    (835, 0), (834, 0), (833, 0), (832, 0), (831, 0), (830, 0), (829, 0), (828, 0),
    (827, 0), (826, 0), (825, 0), (824, 0), (823, 0), (822, 0), (821, 0), (820, 0),
    (819, 0), (818, 0), (817, 0), (816, 0), (815, 0), (814, 0), (813, 0), (812, 0),
    (811, 0), (810, 0), (809, 0), (808, 0), (971, 0), (970, 0), (969, 0), (968, 169),
    (807, 0), (806, 0), (805, 0), (804, 169)],
    brk := 1152, limit := 100000, heap_listp := 976, freelisttablehead := 808 }

/-- Literal final state of the C5 scenario (certified below). -/
def c5rLit : MMState :=
  { mem := [(815, 0), (814, 0), (813, 0), (812, 0), (811, 0), (810, 0), (809, 3), (808, 216),
    (999, 0), (998, 0), (997, 0), (996, 0), (995, 0), (994, 0), (993, 0), (992, 0),
    (991, 0), (990, 0), (989, 0), (988, 0), (987, 0), (986, 0), (985, 0), (984, 0),
    (1003, 0), (1002, 0), (1001, 0), (1000, 24), (983, 0), (982, 0), (981, 0), (980, 24),
    (1031, 0), (1030, 0), (1029, 0), (1028, 41), (1027, 0), (1026, 0), (1025, 0), (1024, 25),
    (1023, 0), (1022, 0), (1021, 0), (1020, 0), (1019, 0), (1018, 0), (1017, 0), (1016, 0),
    (1015, 0), (1014, 0), (1013, 0), (1012, 0), (1011, 0), (1010, 0), (1009, 0), (1008, 0),
    (887, 0), (886, 0), (885, 0), (884, 0), (883, 0), (882, 0), (881, 4), (880, 24),
    (1063, 0), (1062, 0), (1061, 0), (1060, 0), (1059, 0), (1058, 0), (1057, 0), (1056, 0),
    (1055, 0), (1054, 0), (1053, 0), (1052, 0), (1051, 0), (1050, 0), (1049, 0), (1048, 0),
    (1147, 0), (1146, 0), (1145, 0), (1144, 104), (1047, 0), (1046, 0), (1045, 0), (1044, 104),
    (1043, 0), (1042, 0), (1041, 0), (1040, 41), (1007, 0), (1006, 0), (1005, 0), (1004, 41),
    (895, 0), (894, 0), (893, 0), (892, 0), (891, 0), (890, 0), (889, 0), (888, 0),
    (895, 0), (894, 0), (893, 0), (892, 0), (891, 0), (890, 0), (889, 3), (888, 240),
    (1023, 0), (1022, 0), (1021, 0), (1020, 0), (1019, 0), (1018, 0), (1017, 0), (1016, 0),
    (1015, 0), (1014, 0), (1013, 0), (1012, 0), (1011, 0), (1010, 0), (1009, 0), (1008, 0),
    (1147, 0), (1146, 0), (1145, 0), (1144, 144), (1007, 0), (1006, 0), (1005, 0), (1004, 144),
    (1003, 0), (1002, 0), (1001, 0), (1000, 25), (983, 0), (982, 0), (981, 0), (980, 25),
    (895, 0), (894, 0), (893, 0), (892, 0), (891, 0), (890, 0), (889, 0), (888, 0),
    (895, 0), (894, 0), (893, 0), (892, 0), (891, 0), (890, 0), (889, 3), (888, 216),
    (999, 0), (998, 0), (997, 0), (996, 0), (995, 0), (994, 0), (993, 0), (992, 0),
    (991, 0), (990, 0), (989, 0), (988, 0), (987, 0), (986, 0), (985, 0), (984, 0),
    (1151, 0), (1150, 0), (1149, 0), (1148, 1), (1147, 0), (1146, 0), (1145, 0), (1144, 168),
    (983, 0), (982, 0), (981, 0), (980, 168), (983, 0), (982, 0), (981, 0), (980, 1),
    (979, 0), (978, 0), (977, 0), (976, 9), (975, 0), (974, 0), (973, 0), (972, 9),
    (971, 0), (970, 0), (969, 0), (968, 0), (967, 0), (966, 0), (965, 0), (964, 0),
    (963, 0), (962, 0), (961, 0), (960, 0), (959, 0), (958, 0), (957, 0), (956, 0),
    (955, 0), (954, 0), (953, 0), (952, 0), (951, 0), (950, 0), (949, 0), (948, 0),
    (947, 0), (946, 0), (945, 0), (944, 0), (943, 0), (942, 0), (941, 0), (940, 0),
    (939, 0), (938, 0), (937, 0), (936, 0), (935, 0), (934, 0), (933, 0), (932, 0),
    (931, 0), (930, 0), (929, 0), (928, 0), (927, 0), (926, 0), (925, 0), (924, 0),
    (923, 0), (922, 0), (921, 0), (920, 0), (919, 0), (918, 0), (917, 0), (916, 0),
    (915, 0), (914, 0), (913, 0), (912, 0), (911, 0), (910, 0), (909, 0), (908, 0),
    (907, 0), (906, 0), (905, 0), (904, 0), (903, 0), (902, 0), (901, 0), (900, 0),
    (899, 0), (898, 0), (897, 0), (896, 0), (895, 0), (894, 0), (893, 0), (892, 0),
    (891, 0), (890, 0), (889, 0), (888, 0), (887, 0), (886, 0), (885, 0), (884, 0),
    (883, 0), (882, 0), (881, 0), (880, 0), (879, 0), (878, 0), (877, 0), (876, 0),
    (875, 0), (874, 0), (873, 0), (872, 0), (871, 0), (870, 0), (869, 0), (868, 0),
    (867, 0), (866, 0), (865, 0), (864, 0), (863, 0), (862, 0), (861, 0), (860, 0),
    (859, 0), (858, 0), (857, 0), (856, 0), (855, 0), (854, 0), (853, 0), (852, 0),
    (851, 0), (850, 0), (849, 0), (848, 0), (847, 0), (846, 0), (845, 0), (844, 0),
    (843, 0), (842, 0), (841, 0), (840, 0), (839, 0), (838, 0), (837, 0), (836, 0),
    (835, 0), (834, 0), (833, 0), (832, 0), (831, 0), (830, 0), (829, 0), (828, 0),
    (827, 0), (826, 0), (825, 0), (824, 0), (823, 0), (822, 0), (821, 0), (820, 0),
    (819, 0), (818, 0), (817, 0), (816, 0), (815, 0), (814, 0), (813, 0), (812, 0),
    (811, 0), (810, 0), (809, 0), (808, 0), (971, 0), (970, 0), (969, 0), (968, 169),
    (807, 0), (806, 0), (805, 0), (804, 169)],
    brk := 1152, limit := 100000, heap_listp := 976, freelisttablehead := 808 }

/-- Literal state after a small zeroing allocation (certified below). -/
def c6wLit : MMState :=
  { mem := [(991, 0), (990, 0), (989, 0), (988, 0), (987, 0), (986, 0), (985, 0), (984, 0),
    (895, 0), (894, 0), (893, 0), (892, 0), (891, 0), (890, 0), (889, 3), (888, 240),
    (1023, 0), (1022, 0), (1021, 0), (1020, 0), (1019, 0), (1018, 0), (1017, 0), (1016, 0),
    (1015, 0), (1014, 0), (1013, 0), (1012, 0), (1011, 0), (1010, 0), (1009, 0), (1008, 0),
    (1147, 0), (1146, 0), (1145, 0), (1144, 144), (1007, 0), (1006, 0), (1005, 0), (1004, 144),
    (1003, 0), (1002, 0), (1001, 0), (1000, 25), (983, 0), (982, 0), (981, 0), (980, 25),
    (895, 0), (894, 0), (893, 0), (892, 0), (891, 0), (890, 0), (889, 0), (888, 0),
    (895, 0), (894, 0), (893, 0), (892, 0), (891, 0), (890, 0), (889, 3), (888, 216),
    (999, 0), (998, 0), (997, 0), (996, 0), (995, 0), (994, 0), (993, 0), (992, 0),
    (991, 0), (990, 0), (989, 0), (988, 0), (987, 0), (986, 0), (985, 0), (984, 0),
    (1151, 0), (1150, 0), (1149, 0), (1148, 1), (1147, 0), (1146, 0), (1145, 0), (1144, 168),
    (983, 0), (982, 0), (981, 0), (980, 168), (983, 0), (982, 0), (981, 0), (980, 1),
    (979, 0), (978, 0), (977, 0), (976, 9), (975, 0), (974, 0), (973, 0), (972, 9),
    (971, 0), (970, 0), (969, 0), (968, 0), (967, 0), (966, 0), (965, 0), (964, 0),
    (963, 0), (962, 0), (961, 0), (960, 0), (959, 0), (958, 0), (957, 0), (956, 0),
    (955, 0), (954, 0), (953, 0), (952, 0), (951, 0), (950, 0), (949, 0), (948, 0),
    (947, 0), (946, 0), (945, 0), (944, 0), (943, 0), (942, 0), (941, 0), (940, 0),
    (939, 0), (938, 0), (937, 0), (936, 0), (935, 0), (934, 0), (933, 0), (932, 0),
    (931, 0), (930, 0), (929, 0), (928, 0), (927, 0), (926, 0), (925, 0), (924, 0),
    (923, 0), (922, 0), (921, 0), (920, 0), (919, 0), (918, 0), (917, 0), (916, 0),
    (915, 0), (914, 0), (913, 0), (912, 0), (911, 0), (910, 0), (909, 0), (908, 0),
    (907, 0), (906, 0), (905, 0), (904, 0), (903, 0), (902, 0), (901, 0), (900, 0),
    (899, 0), (898, 0), (897, 0), (896, 0), (895, 0), (894, 0), (893, 0), (892, 0),
    (891, 0), (890, 0), (889, 0), (888, 0), (887, 0), (886, 0), (885, 0), (884, 0),
    (883, 0), (882, 0), (881, 0), (880, 0), (879, 0), (878, 0), (877, 0), (876, 0),
    (875, 0), (874, 0), (873, 0), (872, 0), (871, 0), (870, 0), (869, 0), (868, 0),
    (867, 0), (866, 0), (865, 0), (864, 0), (863, 0), (862, 0), (861, 0), (860, 0),
    (859, 0), (858, 0), (857, 0), (856, 0), (855, 0), (854, 0), (853, 0), (852, 0),
    (851, 0), (850, 0), (849, 0), (848, 0), (847, 0), (846, 0), (845, 0), (844, 0),
    (843, 0), (842, 0), (841, 0), (840, 0), (839, 0), (838, 0), (837, 0), (836, 0),
    (835, 0), (834, 0), (833, 0), (832, 0), (831, 0), (830, 0), (829, 0), (828, 0),
    (827, 0), (826, 0), (825, 0), (824, 0), (823, 0), (822, 0), (821, 0), (820, 0),
    (819, 0), (818, 0), (817, 0), (816, 0), (815, 0), (814, 0), (813, 0), (812, 0),
    (811, 0), (810, 0), (809, 0), (808, 0), (971, 0), (970, 0), (969, 0), (968, 169),
    (807, 0), (806, 0), (805, 0), (804, 169)],
    brk := 1152, limit := 100000, heap_listp := 976, freelisttablehead := 808 }


/-- Witness state for the out-of-memory claim: the initialized heap with the
page provider bound lowered to the current break, so any further extension
is refused. -/
def sInitSmall : MMState := { sInitLit with limit := sInitLit.brk }

/-! ### Spec-side description of the fit search (claim C8) -/

/-- The nodes of one free list in next-link order, stopping at a null
pointer or a zero-size block exactly as the inner loop of `find_fit` does. -/
def walkList (m : Mem) : Nat → Nat → List Nat
  | _, 0 => []
  | bp, fuel+1 =>
    if bp ≠ 0 ∧ 0 < GET_SIZE m (HDRP bp) then bp :: walkList m (NEXT_FREE m bp) fuel
    else []

/-- Spec-side class of a size, following the words of the specification:
the size in `D`-units placed by the thresholds 3, 4, 5, 6, 7, 8, 9, 10,
12, 16, 32, 64, 128, 256, 512, 1024, 2048, with everything larger in the
last class.  Unlike the program's `choosefreetable_bysize` there is no
`int` reinterpretation: the spec's `class_of` is a function of the size
itself. -/
def classOfSpec (asize : Nat) : Nat :=
  if asize / 8 ≤ 3 then 1
  else if asize / 8 ≤ 4 then 2
  else if asize / 8 ≤ 5 then 3
  else if asize / 8 ≤ 6 then 4
  else if asize / 8 ≤ 7 then 5
  else if asize / 8 ≤ 8 then 6
  else if asize / 8 ≤ 9 then 7
  else if asize / 8 ≤ 10 then 8
  else if asize / 8 ≤ 12 then 9
  else if asize / 8 ≤ 16 then 10
  else if asize / 8 ≤ 32 then 11
  else if asize / 8 ≤ 64 then 12
  else if asize / 8 ≤ 128 then 13
  else if asize / 8 ≤ 256 then 14
  else if asize / 8 ≤ 512 then 15
  else if asize / 8 ≤ 1024 then 16
  else if asize / 8 ≤ 2048 then 17
  else 18

/-- Spec-side search order: the concatenation of the walks of the class
lists from `class_of(asize)` through the last class. -/
def specSearchList (s : MMState) (asize fuel : Nat) : List Nat :=
  ((List.range' (classOfSpec asize) (20 - classOfSpec asize)).map
    (fun k => walkList s.mem (getLP s.mem (slotAddr s.freelisttablehead k)) fuel)).flatten

/-- Spec-side first fit, following the words of the specification: the first
block in the search order that is free and at least `asize` bytes. -/
def firstFitSpec (s : MMState) (asize fuel : Nat) : Option Nat :=
  (specSearchList s asize fuel).find?
    (fun bp => decide (GET_ALLOC s.mem (HDRP bp) = 0 ∧ asize ≤ GET_SIZE s.mem (HDRP bp)))

/-- Spec-side first fit ignoring the allocation bit: the first block in the
search order whose size is at least `asize` (the claim describes the search
this way; it agrees with `find_fit` when every listed block is free). -/
def firstFitSpecSize (s : MMState) (asize fuel : Nat) : Option Nat :=
  (specSearchList s asize fuel).find? (fun bp => decide (asize ≤ GET_SIZE s.mem (HDRP bp)))

/-- Heap memory for the fit-search cast counterexample: a single free block
at 1000 whose header records size `2^31`, published on class list 1 — the
class the allocator's own `insertFree` (through the same `int` cast in
`choosefreetable`) files such a block under. -/
def cs8Mem : Mem := putLP (putW [] 996 2147483648) 808 1000

/-- State around `cs8Mem`, with the directory at 808. -/
def cs8State : MMState :=
  { mem := cs8Mem, brk := 1008, limit := 100000, heap_listp := 976,
    freelisttablehead := 808 }

/-! ### Witness state for the coalescing case analysis (claim C1)

A small well-formed heap built by explicit header/footer writes: prologue at
976, a free listed block of 24 bytes at 984 (class 1), a free-marked,
unlisted block of 24 bytes at 1008, a free listed block of 32 bytes at 1032
(class 2), and the epilogue header at 1060.  The directory sits at 808. -/

/-- Memory of the handcrafted case-4 coalescing witness. -/
def c1wMem : Mem :=
  putLP (putLP (putW (putW (putW (putW (putW (putW (putW (putW (putW []
    972 9) 976 9) 980 24) 1000 24) 1004 24) 1024 24) 1028 32) 1056 32) 1060 1)
    808 984) 816 1032

/-- The handcrafted case-4 coalescing witness state. -/
def c1wState : MMState :=
  { mem := c1wMem, brk := 1064, limit := 100000, heap_listp := 976,
    freelisttablehead := 808 }

/-! ### Block-level abstraction of the physical heap (claim C2)

For the global coalescing invariant only the physical block sequence
matters: `insertFree`/`deleteFree` do not change the walk, and the free-list
directory influences only which free block `find_fit` selects, so the
abstract allocation step quantifies over every free fitting block.  A heap
is the list of interior blocks of the physical walk in address order; the
always-allocated prologue and epilogue sentinels are implicit at the two
ends. -/

/-- Abstract view of one block: its size in bytes and its free bit. -/
structure ABlock where
  size : Nat
  free : Bool

instance : DecidableEq ABlock := fun a b =>
  decidable_of_iff (a.size = b.size ∧ a.free = b.free)
    (by cases a; cases b; simp)

/-- Abstract heap: interior blocks of the walk, in address order. -/
abbrev AHeap : Type := List ABlock

/-- Whether the physical left neighbor of a block with prefix `pre` is free
(`GET_ALLOC(FTRP(PREV_BLKP(bp))) = 0`); the prologue sentinel is allocated. -/
def lastFree (pre : AHeap) : Bool :=
  match pre.getLast? with
  | some b => b.free
  | none => false

/-- Whether the physical right neighbor is free
(`GET_ALLOC(HDRP(NEXT_BLKP(bp))) = 0`); the epilogue sentinel is allocated. -/
def headFree (post : AHeap) : Bool :=
  match post.head? with
  | some b => b.free
  | none => false

/-- Size of the left neighbor (`GET_SIZE(HDRP(PREV_BLKP(bp)))`). -/
def lsize (pre : AHeap) : Nat :=
  match pre.getLast? with
  | some b => b.size
  | none => 0

/-- Size of the right neighbor (`GET_SIZE(HDRP(NEXT_BLKP(bp)))`). -/
def rsize (post : AHeap) : Nat :=
  match post.head? with
  | some b => b.size
  | none => 0

/-- Abstract `coalesce`: the four cases of the source applied to a just
freed block of size `sz` between `pre` and `post`; the merged block is free
and replaces the merged neighbors. -/
def coalesceA (pre : AHeap) (sz : Nat) (post : AHeap) : AHeap :=
  if lastFree pre = false ∧ headFree post = false then
    pre ++ ⟨sz, true⟩ :: post
  else if lastFree pre = false ∧ headFree post = true then
    pre ++ ⟨sz + rsize post, true⟩ :: post.tail
  else if lastFree pre = true ∧ headFree post = false then
    pre.dropLast ++ ⟨lsize pre + sz, true⟩ :: post
  else
    pre.dropLast ++ ⟨lsize pre + sz + rsize post, true⟩ :: post.tail

/-- Abstract `place`: allocate `asize` bytes at the front of a free block of
size `csize`, splitting when the remainder reaches the minimum block size
and passing the remainder through `coalesce` as the source does. -/
def placeA (pre : AHeap) (csize : Nat) (post : AHeap) (asize : Nat) : AHeap :=
  if 24 ≤ csize - asize then
    coalesceA (pre ++ [⟨asize, false⟩]) (csize - asize) post
  else
    pre ++ ⟨csize, false⟩ :: post

/-- Prefix left after `extend_heap` merges the new block with a free last
block (`coalesce` case 3; the right neighbor is the fresh epilogue). -/
def extPre (bs : AHeap) : AHeap :=
  if lastFree bs = true then bs.dropLast else bs

/-- Size of the free block produced by `extend_heap`. -/
def extSize (bs : AHeap) (nsz : Nat) : Nat :=
  if lastFree bs = true then lsize bs + nsz else nsz

/-- One primitive heap transformation of the allocator, at the block level:
placement into a chosen free fitting block (`malloc` hit), heap extension
followed by placement (`malloc` miss), a failed allocation (no state
change), or freeing an allocated block (`free`).  `realloc`'s grow path is
an allocation step followed by a free step; `calloc` is an allocation and a
payload `memset`, which does not change the block structure. -/
inductive AStep : AHeap → AHeap → Prop
  | allocFound (pre : AHeap) (sz : Nat) (post : AHeap) (asize : Nat)
      (hfit : asize ≤ sz) :
      AStep (pre ++ ⟨sz, true⟩ :: post) (placeA pre sz post asize)
  | allocExtend (bs : AHeap) (nsz asize : Nat)
      (hfit : asize ≤ extSize bs nsz) :
      AStep bs (placeA (extPre bs) (extSize bs nsz) [] asize)
  | allocFail (bs : AHeap) : AStep bs bs
  | freeBlock (pre : AHeap) (sz : Nat) (post : AHeap) :
      AStep (pre ++ ⟨sz, false⟩ :: post) (coalesceA pre sz post)

/-- The heap right after initialization: one free block of `CHUNKSIZE = 168`
bytes. -/
def initA : AHeap := [⟨168, true⟩]

/-- Heaps reachable from the initialized heap by public calls (each public
call contributes at most two primitive steps). -/
def ReachableA (bs : AHeap) : Prop := Relation.ReflTransGen AStep initA bs

/-- No two physically adjacent blocks are both free. -/
def noAdjFree (bs : AHeap) : Prop :=
  List.Chain' (fun a b => a.free = true → b.free = true → False) bs

instance (bs : AHeap) : Decidable (noAdjFree bs) :=
  inferInstanceAs (Decidable (List.Chain'
    (fun a b : ABlock => a.free = true → b.free = true → False) bs))

/-- The memory after `free` of a block whose two neighbors are allocated
and whose class list is empty: header and footer are cleared and the block
becomes the head (sole member) of the free list of its class. -/
def freeCase1Mem (m : Mem) (tbl ptr oldsize : Nat) : Mem :=
  putLP (putLP (putLP (putW (putW m (HDRP ptr) (PACK oldsize 0))
    (ptr + oldsize - 8) (PACK oldsize 0)) ptr 0) (ptr + 8) 0)
    (slotAddr tbl (choosefreetable_bysize oldsize)) ptr


/-! ## Theorems

First the frame lemmas for the memory primitives, then the equality lemmas
certifying the concrete scenario states, then the claims. -/

theorem rd_wr_eq (m : Mem) (a v : Nat) : rd (wr m a v) a = v := by
  simp [wr, rd]

theorem rd_wr_ne (m : Mem) (a v x : Nat) (h : x ≠ a) : rd (wr m a v) x = rd m x := by
  simp [wr, rd, h]

theorem rd_putW_out (m : Mem) (a v x : Nat) (h : x < a ∨ a + 4 ≤ x) :
    rd (putW m a v) x = rd m x := by
  unfold putW
  rw [rd_wr_ne _ (a+3) _ x (by omega), rd_wr_ne _ (a+2) _ x (by omega),
      rd_wr_ne _ (a+1) _ x (by omega), rd_wr_ne _ a _ x (by omega)]

theorem rd_putLP_out (m : Mem) (a v x : Nat) (h : x < a ∨ a + 8 ≤ x) :
    rd (putLP m a v) x = rd m x := by
  unfold putLP
  rw [rd_wr_ne _ (a+7) _ x (by omega), rd_wr_ne _ (a+6) _ x (by omega),
      rd_wr_ne _ (a+5) _ x (by omega), rd_wr_ne _ (a+4) _ x (by omega),
      rd_wr_ne _ (a+3) _ x (by omega), rd_wr_ne _ (a+2) _ x (by omega),
      rd_wr_ne _ (a+1) _ x (by omega), rd_wr_ne _ a _ x (by omega)]

theorem getW_putW_out (m : Mem) (a v x : Nat) (h : a + 4 ≤ x ∨ x + 4 ≤ a) :
    getW (putW m a v) x = getW m x := by
  unfold getW
  rw [rd_putW_out _ _ _ x (by omega), rd_putW_out _ _ _ (x+1) (by omega),
      rd_putW_out _ _ _ (x+2) (by omega), rd_putW_out _ _ _ (x+3) (by omega)]

theorem getW_putLP_out (m : Mem) (a v x : Nat) (h : a + 8 ≤ x ∨ x + 4 ≤ a) :
    getW (putLP m a v) x = getW m x := by
  unfold getW
  rw [rd_putLP_out _ _ _ x (by omega), rd_putLP_out _ _ _ (x+1) (by omega),
      rd_putLP_out _ _ _ (x+2) (by omega), rd_putLP_out _ _ _ (x+3) (by omega)]

theorem getLP_putW_out (m : Mem) (a v x : Nat) (h : a + 4 ≤ x ∨ x + 8 ≤ a) :
    getLP (putW m a v) x = getLP m x := by
  unfold getLP
  rw [rd_putW_out _ _ _ x (by omega), rd_putW_out _ _ _ (x+1) (by omega),
      rd_putW_out _ _ _ (x+2) (by omega), rd_putW_out _ _ _ (x+3) (by omega),
      rd_putW_out _ _ _ (x+4) (by omega), rd_putW_out _ _ _ (x+5) (by omega),
      rd_putW_out _ _ _ (x+6) (by omega), rd_putW_out _ _ _ (x+7) (by omega)]

theorem getLP_putLP_out (m : Mem) (a v x : Nat) (h : a + 8 ≤ x ∨ x + 8 ≤ a) :
    getLP (putLP m a v) x = getLP m x := by
  unfold getLP
  rw [rd_putLP_out _ _ _ x (by omega), rd_putLP_out _ _ _ (x+1) (by omega),
      rd_putLP_out _ _ _ (x+2) (by omega), rd_putLP_out _ _ _ (x+3) (by omega),
      rd_putLP_out _ _ _ (x+4) (by omega), rd_putLP_out _ _ _ (x+5) (by omega),
      rd_putLP_out _ _ _ (x+6) (by omega), rd_putLP_out _ _ _ (x+7) (by omega)]

theorem rd_putW_b0 (m : Mem) (a v : Nat) : rd (putW m a v) a = v % 256 := by
  unfold putW
  rw [rd_wr_ne _ (a+3) _ a (by omega), rd_wr_ne _ (a+2) _ a (by omega),
      rd_wr_ne _ (a+1) _ a (by omega), rd_wr_eq]

theorem rd_putW_b1 (m : Mem) (a v : Nat) : rd (putW m a v) (a+1) = v / 256 % 256 := by
  unfold putW
  rw [rd_wr_ne _ (a+3) _ (a+1) (by omega), rd_wr_ne _ (a+2) _ (a+1) (by omega), rd_wr_eq]

theorem rd_putW_b2 (m : Mem) (a v : Nat) : rd (putW m a v) (a+2) = v / 65536 % 256 := by
  unfold putW
  rw [rd_wr_ne _ (a+3) _ (a+2) (by omega), rd_wr_eq]

theorem rd_putW_b3 (m : Mem) (a v : Nat) : rd (putW m a v) (a+3) = v / 16777216 % 256 := by
  unfold putW
  rw [rd_wr_eq]

theorem getW_putW_same (m : Mem) (a v : Nat) :
    getW (putW m a v) a = v % 4294967296 := by
  unfold getW
  rw [rd_putW_b0, rd_putW_b1, rd_putW_b2, rd_putW_b3]
  omega

theorem rd_putLP_b (m : Mem) (a v j : Nat) (hj : j < 8) :
    rd (putLP m a v) (a + j) = v / 256 ^ j % 256 := by
  unfold putLP
  interval_cases j
  · rw [rd_wr_ne _ (a+7) _ (a+0) (by omega), rd_wr_ne _ (a+6) _ (a+0) (by omega),
        rd_wr_ne _ (a+5) _ (a+0) (by omega), rd_wr_ne _ (a+4) _ (a+0) (by omega),
        rd_wr_ne _ (a+3) _ (a+0) (by omega), rd_wr_ne _ (a+2) _ (a+0) (by omega),
        rd_wr_ne _ (a+1) _ (a+0) (by omega)]
    norm_num [rd_wr_eq]
  · rw [rd_wr_ne _ (a+7) _ (a+1) (by omega), rd_wr_ne _ (a+6) _ (a+1) (by omega),
        rd_wr_ne _ (a+5) _ (a+1) (by omega), rd_wr_ne _ (a+4) _ (a+1) (by omega),
        rd_wr_ne _ (a+3) _ (a+1) (by omega), rd_wr_ne _ (a+2) _ (a+1) (by omega), rd_wr_eq]
    norm_num
  · rw [rd_wr_ne _ (a+7) _ (a+2) (by omega), rd_wr_ne _ (a+6) _ (a+2) (by omega),
        rd_wr_ne _ (a+5) _ (a+2) (by omega), rd_wr_ne _ (a+4) _ (a+2) (by omega),
        rd_wr_ne _ (a+3) _ (a+2) (by omega), rd_wr_eq]
    norm_num
  · rw [rd_wr_ne _ (a+7) _ (a+3) (by omega), rd_wr_ne _ (a+6) _ (a+3) (by omega),
        rd_wr_ne _ (a+5) _ (a+3) (by omega), rd_wr_ne _ (a+4) _ (a+3) (by omega), rd_wr_eq]
    norm_num
  · rw [rd_wr_ne _ (a+7) _ (a+4) (by omega), rd_wr_ne _ (a+6) _ (a+4) (by omega),
        rd_wr_ne _ (a+5) _ (a+4) (by omega), rd_wr_eq]
    norm_num
  · rw [rd_wr_ne _ (a+7) _ (a+5) (by omega), rd_wr_ne _ (a+6) _ (a+5) (by omega), rd_wr_eq]
    norm_num
  · rw [rd_wr_ne _ (a+7) _ (a+6) (by omega), rd_wr_eq]
    norm_num
  · rw [rd_wr_eq]
    norm_num

theorem getLP_putLP_same (m : Mem) (a v : Nat) :
    getLP (putLP m a v) a = v % 18446744073709551616 := by
  unfold getLP
  have h0 : rd (putLP m a v) a = v % 256 := by
    simpa using rd_putLP_b m a v 0 (by omega)
  have h1 := rd_putLP_b m a v 1 (by omega)
  have h2 := rd_putLP_b m a v 2 (by omega)
  have h3 := rd_putLP_b m a v 3 (by omega)
  have h4 := rd_putLP_b m a v 4 (by omega)
  have h5 := rd_putLP_b m a v 5 (by omega)
  have h6 := rd_putLP_b m a v 6 (by omega)
  have h7 := rd_putLP_b m a v 7 (by omega)
  norm_num at h1 h2 h3 h4 h5 h6 h7
  rw [h0, h1, h2, h3, h4, h5, h6, h7]
  omega

theorem rd_memcpyN_in (m : Mem) (dst src n j : Nat) (h : j < n) :
    rd (memcpyN m dst src n) (dst + j) = rd m (src + j) % 256 := by
  induction n with
  | zero => omega
  | succ k ih =>
    unfold memcpyN
    by_cases hj : j = k
    · subst hj; rw [rd_wr_eq]
    · rw [rd_wr_ne _ (dst+k) _ (dst+j) (by omega)]
      exact ih (by omega)

theorem rd_memcpyN_out (m : Mem) (dst src n x : Nat) (h : x < dst ∨ dst + n ≤ x) :
    rd (memcpyN m dst src n) x = rd m x := by
  induction n with
  | zero => rfl
  | succ k ih =>
    unfold memcpyN
    rw [rd_wr_ne _ (dst+k) _ x (by omega)]
    exact ih (by omega)

theorem rd_memsetN_in (m : Mem) (p c n j : Nat) (h : j < n) :
    rd (memsetN m p c n) (p + j) = c % 256 := by
  induction n with
  | zero => omega
  | succ k ih =>
    unfold memsetN
    by_cases hj : j = k
    · subst hj; rw [rd_wr_eq]
    · rw [rd_wr_ne _ (p+k) _ (p+j) (by omega)]
      exact ih (by omega)

theorem getW_memcpyN_out (m : Mem) (dst src n x : Nat)
    (h : x + 4 ≤ dst ∨ dst + n ≤ x) :
    getW (memcpyN m dst src n) x = getW m x := by
  unfold getW
  rw [rd_memcpyN_out _ _ _ _ x (by omega), rd_memcpyN_out _ _ _ _ (x+1) (by omega),
      rd_memcpyN_out _ _ _ _ (x+2) (by omega), rd_memcpyN_out _ _ _ _ (x+3) (by omega)]

theorem getLP_memcpyN_out (m : Mem) (dst src n x : Nat)
    (h : x + 8 ≤ dst ∨ dst + n ≤ x) :
    getLP (memcpyN m dst src n) x = getLP m x := by
  unfold getLP
  rw [rd_memcpyN_out _ _ _ _ x (by omega), rd_memcpyN_out _ _ _ _ (x+1) (by omega),
      rd_memcpyN_out _ _ _ _ (x+2) (by omega), rd_memcpyN_out _ _ _ _ (x+3) (by omega),
      rd_memcpyN_out _ _ _ _ (x+4) (by omega), rd_memcpyN_out _ _ _ _ (x+5) (by omega),
      rd_memcpyN_out _ _ _ _ (x+6) (by omega), rd_memcpyN_out _ _ _ _ (x+7) (by omega)]

/-! ### Certification of the concrete scenario states

Each lemma evaluates one public call of the model, starting from the
previously certified literal state. -/

set_option maxRecDepth 1000000 in
set_option maxHeartbeats 4000000 in
theorem init_eval : mm_init initState = some sInitLit := by decide

set_option maxRecDepth 1000000 in
set_option maxHeartbeats 4000000 in
theorem s984_eval : mm_malloc initState 1 50 = (984, s984Lit) := by decide

set_option maxRecDepth 1000000 in
set_option maxHeartbeats 4000000 in
theorem s984_eval16 : mm_malloc initState 16 50 = (984, s984Lit) := by decide

set_option maxRecDepth 1000000 in
set_option maxHeartbeats 4000000 in
theorem c3s1_eval : mm_malloc initState 24 50 = (984, c3s1Lit) := by decide

set_option maxRecDepth 1000000 in
set_option maxHeartbeats 4000000 in
theorem c3s2_eval : mm_malloc c3s1Lit 24 50 = (1016, c3s2Lit) := by decide

set_option maxRecDepth 1000000 in
set_option maxHeartbeats 4000000 in
theorem c3s3_eval : mm_malloc c3s2Lit 24 50 = (1048, c3s3Lit) := by decide

set_option maxRecDepth 1000000 in
set_option maxHeartbeats 4000000 in
theorem c3f_eval : mm_free c3s3Lit 1016 = c3stateLit := by decide

set_option maxRecDepth 1000000 in
set_option maxHeartbeats 4000000 in
theorem c6s2_eval : mm_malloc s984Lit 1 50 = (1008, c6s2Lit) := by decide

set_option maxRecDepth 1000000 in
set_option maxHeartbeats 4000000 in
theorem c6s3_eval : mm_malloc c6s2Lit 1 50 = (1032, c6s3Lit) := by decide

set_option maxRecDepth 1000000 in
set_option maxHeartbeats 4000000 in
theorem c6s4_eval : mm_malloc c6s3Lit 1 50 = (1056, c6s4Lit) := by decide

set_option maxRecDepth 1000000 in
set_option maxHeartbeats 4000000 in
theorem c6s5_eval : mm_free c6s4Lit 984 = c6s5Lit := by decide

set_option maxRecDepth 1000000 in
set_option maxHeartbeats 4000000 in
theorem c6s6_eval : mm_free c6s5Lit 1032 = c6s6Lit := by decide

set_option maxRecDepth 1000000 in
set_option maxHeartbeats 4000000 in
theorem c6state_eval : mm_calloc c6s6Lit 1 1 50 = (1032, c6stateLit) := by decide

set_option maxRecDepth 1000000 in
set_option maxHeartbeats 4000000 in
theorem mid5_eval : mm_malloc s984Lit 32 50 = (1008, mid5Lit) := by decide

set_option maxRecDepth 1000000 in
set_option maxHeartbeats 8000000 in
theorem c5r_eval : mm_realloc s984Lit 984 17 50 = (1008, c5rLit) := by decide

set_option maxRecDepth 1000000 in
set_option maxHeartbeats 4000000 in
theorem c6w_eval : mm_calloc initState 1 8 50 = (984, c6wLit) := by decide

/-! ### Derived state equalities for the composed scenarios -/

theorem c3state_eval : c3state = c3stateLit := by
  unfold c3state c3s3 c3s2 c3s1
  simp only [c3s1_eval, c3s2_eval, c3s3_eval, c3f_eval]

theorem c3q_eval : c3s2.1 = 1016 := by
  unfold c3s2 c3s1
  simp only [c3s1_eval, c3s2_eval]

theorem c6state_evalFull : c6state = (1032, c6stateLit) := by
  unfold c6state c6s6 c6s5 c6s4 c6s3 c6s2 s984state
  simp only [s984_eval, c6s2_eval, c6s3_eval, c6s4_eval, c6s5_eval, c6s6_eval,
    c6state_eval]

theorem c5state_eval : c5state = (1008, c5rLit) := by
  unfold c5state s984state
  simp only [s984_eval, c5r_eval]

/-! ### Claims -/

/-- C9: for a non-null pointer and a positive size whose normalized adjusted
size fits in the current block, `realloc` returns the pointer unchanged and
returns the state unchanged (header, footer and contents unmodified). -/
theorem realloc_inplace_shrink (s : MMState) (ptr size fuel : Nat)
    (h1 : ptr ≠ 0) (h2 : size ≠ 0)
    (h3 : adjustSize size ≤ GET_SIZE s.mem (HDRP ptr)) :
    mm_realloc s ptr size fuel = (ptr, s) := by
  unfold mm_realloc
  simp [h1, h2, h3]

set_option maxRecDepth 1000000 in
set_option maxHeartbeats 4000000 in
/-- Witness for C9 at the spec scenario `p = allocate(16); x = reallocate(p, 8)`:
the in-place shrink path returns `x = p` with the state untouched. -/
theorem realloc_inplace_shrink_witness :
    mm_realloc (mm_malloc initState 16 50).2 (mm_malloc initState 16 50).1 8 50
      = ((mm_malloc initState 16 50).1, (mm_malloc initState 16 50).2) := by
  rw [s984_eval16]
  exact realloc_inplace_shrink s984Lit 984 8 50 (by decide) (by decide) (by decide)

/-- C7: on an initialized heap, when the fit search finds nothing and the
page provider refuses the extension, `malloc` returns null and the state
(all blocks, headers, footers, free lists, and the break) is unchanged. -/
theorem malloc_oom_unchanged (s : MMState) (size fuel : Nat)
    (h0 : s.heap_listp ≠ 0) (h1 : size ≠ 0)
    (h2 : find_fit s (adjustSize size) fuel = none)
    (h3 : (extend_heap s (max (adjustSize size) 168 / 4)).1 = none) :
    mm_malloc s size fuel = (0, s) := by
  have hs : extend_heap s (max (adjustSize size) 168 / 4) = (none, s) := by
    unfold extend_heap mem_sbrk at h3 ⊢
    by_cases hb : s.brk + (if (max (adjustSize size) 168 / 4) % 2 = 1
        then (max (adjustSize size) 168 / 4 + 1) * 4
        else (max (adjustSize size) 168 / 4) * 4) ≤ s.limit
    · rw [if_pos hb] at h3
      simp at h3
    · rw [if_neg hb]
  unfold mm_malloc ensureInit
  rw [if_neg h0]
  simp only [h1, if_neg, h2, hs]
  simp

set_option maxRecDepth 1000000 in
set_option maxHeartbeats 4000000 in
/-- Witness for C7: the freshly initialized heap with the provider bound
lowered to the current break refuses `allocate(200)` and is unchanged. -/
theorem malloc_oom_unchanged_witness :
    mm_malloc sInitSmall 200 50 = (0, sInitSmall) :=
  malloc_oom_unchanged sInitSmall 200 50 (by decide) (by decide) (by decide)
    (by decide)

set_option maxRecDepth 1000000 in
set_option maxHeartbeats 4000000 in
/-- C4: from the empty heap, `allocate(1)` returns the non-null 8-aligned
pointer 984 whose block header reports size 24 with the allocation bit set;
and the size adjustment maps every request of at most `DSIZE = 8` to
`3*DSIZE = 24` and every larger request to the multiple of 8 that adds 8
bytes of overhead and rounds up (the unique multiple of 8 in
`[size + 8, size + 16)`). -/
theorem malloc_first_alloc :
    (mm_malloc initState 1 50).1 = 984 ∧
    (984 : Nat) ≠ 0 ∧ (984 : Nat) % 8 = 0 ∧
    GET_SIZE (mm_malloc initState 1 50).2.mem (HDRP 984) = 24 ∧
    GET_ALLOC (mm_malloc initState 1 50).2.mem (HDRP 984) = 1 ∧
    (∀ sz : Nat, sz ≤ 8 → adjustSize sz = 24) ∧
    (∀ sz : Nat, 8 < sz →
      adjustSize sz % 8 = 0 ∧ sz + 8 ≤ adjustSize sz ∧ adjustSize sz < sz + 16) := by
  refine ⟨?_, by norm_num, by norm_num, ?_, ?_, ?_, ?_⟩
  · rw [s984_eval]
  · rw [s984_eval]; decide
  · rw [s984_eval]; decide
  · intro sz h
    simp [adjustSize, h]
  · intro sz h
    unfold adjustSize
    rw [if_neg (by omega)]
    refine ⟨by omega, by omega, by omega⟩

/-- Witness for the quantified size-adjustment parts of C4. -/
theorem malloc_first_alloc_witness : adjustSize 5 = 24 ∧ adjustSize 100 = 112 := by
  constructor
  · exact malloc_first_alloc.2.2.2.2.2.1 5 (by norm_num)
  · have h := malloc_first_alloc.2.2.2.2.2.2 100 (by norm_num)
    omega

set_option maxRecDepth 1000000 in
set_option maxHeartbeats 4000000 in
/-- C10: the first `allocate` call lazily initializes: after `mm_init` the
heap walk from the prologue contains exactly one free block, of
`CHUNKSIZE = 168` bytes, published at the head of the single nonempty free
list, the one of its class (class 11 for 168 bytes); the break grew by the
directory (168), the sentinels (16) and `CHUNKSIZE` (168); and a subsequent
call with a nonzero `heap_listp` does not re-initialize. -/
theorem lazy_init_single_chunk :
    mm_init initState = some sInitLit ∧
    freeWalk sInitLit.mem sInitLit.heap_listp 50 = [(984, 168)] ∧
    GET_SIZE sInitLit.mem (HDRP 984) = 168 ∧
    GET_ALLOC sInitLit.mem (HDRP 984) = 0 ∧
    choosefreetable sInitLit.mem 984 = 11 ∧
    (List.range 20).map
        (fun k => getLP sInitLit.mem (slotAddr sInitLit.freelisttablehead (k+1)))
      = [0, 0, 0, 0, 0, 0, 0, 0, 0, 0, 984, 0, 0, 0, 0, 0, 0, 0, 0, 0] ∧
    NEXT_FREE sInitLit.mem 984 = 0 ∧
    sInitLit.brk = initState.brk + 168 + 16 + 168 ∧
    ensureInit sInitLit = some sInitLit ∧
    ensureInit (mm_malloc initState 24 50).2 = some (mm_malloc initState 24 50).2 := by
  refine ⟨init_eval, by decide, by decide, by decide, by decide, by decide,
    by decide, by decide, by decide, ?_⟩
  rw [c3s1_eval]
  decide

set_option maxRecDepth 1000000 in
set_option maxHeartbeats 4000000 in
/-- C3 counterexample: in
`p = allocate(24); q = allocate(24); r = allocate(24); free(q)` from the
empty heap, the physical walk shows exactly two free blocks, the freed `q`
at 1016 and the tail remainder at 1080 (whose next block is the epilogue);
the non-tail free block has size 32, not 24 as claimed, and free list 3 is
empty, so the block does not sit on class 3. -/
theorem alloc24_class_counterexample :
    c3s2.1 = 1016 ∧
    c3state.heap_listp = 976 ∧
    freeWalk c3state.mem 976 50 = [(1016, 32), (1080, 72)] ∧
    NEXT_BLKP c3state.mem 1080 = 1152 ∧
    GET_SIZE c3state.mem (HDRP 1152) = 0 ∧
    GET_ALLOC c3state.mem (HDRP 1152) = 1 ∧
    GET_SIZE c3state.mem (HDRP 1016) ≠ 24 ∧
    getLP c3state.mem (slotAddr c3state.freelisttablehead 3) = 0 := by
  rw [c3state_eval, c3q_eval]
  refine ⟨rfl, by decide, by decide, by decide, by decide, by decide, by decide,
    by decide⟩

set_option maxRecDepth 1000000 in
set_option maxHeartbeats 4000000 in
/-- C3 amended: the same scenario yields exactly one free block besides the
tail remainder; it is the freed `q` at 1016, has size 32 bytes (the request
24 is adjusted to 32 = 8·⌈(24+8)/8⌉), and sits at the head of free list
class 2 (since 32/8 = 4 lies in the class-2 interval (3, 4]). -/
theorem alloc24_class_amended :
    c3s2.1 = 1016 ∧
    c3state.heap_listp = 976 ∧
    freeWalk c3state.mem 976 50 = [(1016, 32), (1080, 72)] ∧
    NEXT_BLKP c3state.mem 1080 = 1152 ∧
    GET_SIZE c3state.mem (HDRP 1152) = 0 ∧
    GET_SIZE c3state.mem (HDRP 1016) = 32 ∧
    choosefreetable c3state.mem 1016 = 2 ∧
    getLP c3state.mem (slotAddr c3state.freelisttablehead 2) = 1016 ∧
    NEXT_FREE c3state.mem 1016 = 0 ∧
    adjustSize 24 = 32 := by
  rw [c3state_eval, c3q_eval]
  refine ⟨rfl, by decide, by decide, by decide, by decide, by decide, by decide,
    by decide, by decide, by decide⟩

set_option maxRecDepth 1000000 in
set_option maxHeartbeats 4000000 in
/-- C6 counterexample: after
`p1 = allocate(1); p2 = allocate(1); p3 = allocate(1); p4 = allocate(1);
free(p1); free(p3)`, the call `calloc(1, 1)` succeeds and reuses the block
at 1032, whose recorded size is 24 (payload 16); the payload byte at offset
8 still holds a stale free-list link byte 216 ≠ 0, so not every byte of the
full payload is zero. -/
theorem calloc_payload_counterexample :
    c6state.1 = 1032 ∧
    GET_SIZE c6state.2.mem (HDRP 1032) = 24 ∧
    rd c6state.2.mem (1032 + 8) = 216 ∧
    ¬ (∀ i, i < GET_SIZE c6state.2.mem (HDRP 1032) - 8 →
        rd c6state.2.mem (1032 + i) = 0) := by
  rw [c6state_evalFull]
  refine ⟨rfl, by decide, by decide, by decide⟩

/-- C6 amended: `calloc(n, size)` zeroes exactly the `n·size` requested
bytes: when it returns a non-null pointer, every byte in the first `n·size`
bytes of the payload is zero (the rest of the payload is not touched). -/
theorem calloc_zeroes_request (s : MMState) (n size fuel : Nat)
    (h : 0 < n * size) (hp : (mm_calloc s n size fuel).1 ≠ 0) :
    ∀ i, i < n * size →
      rd (mm_calloc s n size fuel).2.mem ((mm_calloc s n size fuel).1 + i) = 0 := by
  intro i hi
  unfold mm_calloc at hp ⊢
  by_cases h0 : (mm_malloc s (n * size) fuel).1 = 0
  · simp [h0] at hp
  · simp only [h0, if_neg, if_false]
    have := rd_memsetN_in (mm_malloc s (n * size) fuel).2.mem
      (mm_malloc s (n * size) fuel).1 0 (n * size) i hi
    simpa using this

set_option maxRecDepth 1000000 in
set_option maxHeartbeats 4000000 in
/-- Witness for the amended C6: `calloc(1, 8)` from the empty heap returns a
non-null pointer whose fourth byte (inside the requested 8) is zero. -/
theorem calloc_zeroes_request_witness :
    (mm_calloc initState 1 8 50).1 ≠ 0 ∧
    rd (mm_calloc initState 1 8 50).2.mem ((mm_calloc initState 1 8 50).1 + 3) = 0 := by
  constructor
  · rw [c6w_eval]
    decide
  · exact calloc_zeroes_request initState 1 8 50 (by norm_num)
      (by rw [c6w_eval]; decide) 3 (by norm_num)

/-! ### C8: the fit search is the spec's first fit -/

theorem walkFF_eq_find (m : Mem) (asize bp fuel : Nat) :
    walkFF m asize bp fuel = (walkList m bp fuel).find?
      (fun b => decide (GET_ALLOC m (HDRP b) = 0 ∧ asize ≤ GET_SIZE m (HDRP b))) := by
  induction fuel generalizing bp with
  | zero => rfl
  | succ k ih =>
    unfold walkFF walkList
    by_cases h1 : bp ≠ 0 ∧ 0 < GET_SIZE m (HDRP bp)
    · rw [if_pos h1, if_pos h1]
      by_cases h2 : GET_ALLOC m (HDRP bp) = 0 ∧ asize ≤ GET_SIZE m (HDRP bp)
      · rw [if_pos h2, List.find?_cons_of_pos _ (by simpa using h2)]
      · rw [if_neg h2, List.find?_cons_of_neg _ (by simpa using h2), ih]
    · rw [if_neg h1, if_neg h1]
      rfl

theorem ffLoop_eq_find (m : Mem) (tbl asize fuel k : Nat) :
    ∀ i, ffLoop m tbl asize fuel i k =
      (((List.range' i k).map
          (fun j => walkList m (getLP m (slotAddr tbl j)) fuel)).flatten).find?
        (fun b => decide (GET_ALLOC m (HDRP b) = 0 ∧ asize ≤ GET_SIZE m (HDRP b))) := by
  induction k with
  | zero => intro i; rfl
  | succ n ih =>
    intro i
    unfold ffLoop
    rw [List.range'_succ, List.map_cons, List.flatten_cons, List.find?_append,
        walkFF_eq_find]
    cases hc : (walkList m (getLP m (slotAddr tbl i)) fuel).find?
        (fun b => decide (GET_ALLOC m (HDRP b) = 0 ∧ asize ≤ GET_SIZE m (HDRP b))) with
    | some x => simp
    | none => simp [ih]

theorem find?_congr_mem (l : List Nat) (p q : Nat → Bool)
    (h : ∀ x ∈ l, p x = q x) : l.find? p = l.find? q := by
  induction l with
  | nil => rfl
  | cons a t ih =>
    by_cases hp : p a = true
    · rw [List.find?_cons_of_pos _ hp,
          List.find?_cons_of_pos _ (by rw [← h a (by simp)]; exact hp)]
    · rw [List.find?_cons_of_neg _ (by simpa using hp),
          List.find?_cons_of_neg _ (by rw [← h a (by simp)]; simpa using hp),
          ih (fun x hx => h x (by simp [hx]))]

/-- The program's class function agrees with the spec's `class_of`
exactly on the sizes whose `int` reinterpretation is nonnegative. -/
theorem choosefreetable_bysize_small (n : Nat) (h : n < 2147483648) :
    choosefreetable_bysize n = classOfSpec n := by
  have ht : toInt32 n = Int.ofNat n := by
    unfold toInt32
    rw [Nat.mod_eq_of_lt (by omega), if_pos (by omega)]
  have hd : Int.tdiv (toInt32 n) 8 = ((n / 8 : Nat) : Int) := by
    rw [ht]
    exact (Int.ofNat_tdiv n 8).symm
  unfold choosefreetable_bysize classOfSpec
  rw [hd]
  norm_cast

set_option maxRecDepth 1000000 in
set_option maxHeartbeats 4000000 in
/-- C8 counterexample: for the adjusted request `asize = 2^31` the `(int)`
cast at `find_fit`'s call to `choosefreetable_bysize` (line 531)
reinterprets the size as negative, so the code computes start class 1 while
the spec's `class_of(2^31)` is 18.  On a heap whose only block is free, of
size `2^31` and listed on class 1 — where the allocator's own `insertFree`
files it, through the same cast — the code's search finds it, but a search
that starts at the spec's class 18 scans only the empty lists 18 and 19 and
finds nothing. -/
theorem find_fit_cast_counterexample :
    choosefreetable_bysize 2147483648 = 1 ∧
    classOfSpec 2147483648 = 18 ∧
    find_fit cs8State 2147483648 50 = some 1000 ∧
    firstFitSpec cs8State 2147483648 50 = none ∧
    find_fit cs8State 2147483648 50 ≠ firstFitSpec cs8State 2147483648 50 := by
  refine ⟨by decide, by decide, by decide, by decide, by decide⟩

/-- C8 amended: for every adjusted request below `2^31` — where the `int`
reinterpretation at the call site is the identity — `find_fit` starts at
the spec's class of the request and walks each class list in next-link
order through the larger classes, returning exactly what the spec's first
fit over the concatenated walks returns (so it keeps scanning within a
class rather than taking the head); and when every listed node is free —
as the free-list invariant guarantees — it is the first block of size at
least `asize`, or none when no list has one.  For requests of `2^31` bytes
and up the cast makes the search start at class 1 instead. -/
theorem find_fit_first_fit (s : MMState) (asize fuel : Nat)
    (h : asize < 2147483648) :
    choosefreetable_bysize asize = classOfSpec asize ∧
    find_fit s asize fuel = firstFitSpec s asize fuel ∧
    ((∀ bp ∈ specSearchList s asize fuel, GET_ALLOC s.mem (HDRP bp) = 0) →
      find_fit s asize fuel = firstFitSpecSize s asize fuel) := by
  have hcls := choosefreetable_bysize_small asize h
  have h1 : find_fit s asize fuel = firstFitSpec s asize fuel := by
    unfold find_fit firstFitSpec specSearchList
    simp only [hcls]
    exact ffLoop_eq_find s.mem s.freelisttablehead asize fuel _ _
  refine ⟨hcls, h1, fun hall => ?_⟩
  rw [h1]
  unfold firstFitSpec firstFitSpecSize
  exact find?_congr_mem _ _ _ (fun x hx => by simp [hall x hx])

set_option maxRecDepth 1000000 in
set_option maxHeartbeats 4000000 in
/-- Witness for the amended C8 on the freshly initialized heap: the search
for an adjusted request of 24 bytes starts at class 1, scans up to class
11, and returns its sole free block 984; the size-only spec search
agrees. -/
theorem find_fit_first_fit_witness :
    find_fit sInitLit 24 50 = some 984 ∧
    firstFitSpecSize sInitLit 24 50 = some 984 := by
  have h := (find_fit_first_fit sInitLit 24 50 (by decide)).2.2 (by decide)
  exact ⟨by decide, by rw [← h]; decide⟩

/-! ### C2: the coalescing invariant over all reachable heaps -/

theorem lastFree_nil : lastFree [] = false := rfl

theorem lastFree_concat (l : AHeap) (a : ABlock) : lastFree (l ++ [a]) = a.free := by
  simp [lastFree, List.getLast?_concat]

theorem headFree_nil : headFree [] = false := rfl

theorem headFree_cons (r : ABlock) (t : AHeap) : headFree (r :: t) = r.free := rfl

theorem lsize_concat (l : AHeap) (a : ABlock) : lsize (l ++ [a]) = a.size := by
  simp [lsize, List.getLast?_concat]

theorem rsize_cons (r : ABlock) (t : AHeap) : rsize (r :: t) = r.size := rfl

theorem noAdj_mid_one (pre post : AHeap) (b c : ABlock) (hc : c.free = false)
    (h : noAdjFree (pre ++ b :: post)) : noAdjFree (pre ++ c :: post) := by
  unfold noAdjFree at h ⊢
  rw [List.chain'_append] at h ⊢
  obtain ⟨h1, h2, h3⟩ := h
  refine ⟨h1, ?_, ?_⟩
  · rw [List.chain'_cons'] at h2 ⊢
    refine ⟨fun y hy hcf _ => ?_, h2.2⟩
    rw [hc] at hcf
    cases hcf
  · intro x hx y hy _ hyf
    simp only [List.head?_cons, Option.mem_def, Option.some.injEq] at hy
    rw [← hy, hc] at hyf
    cases hyf

theorem noAdj_mid_two (pre post : AHeap) (b c d : ABlock)
    (hc : c.free = false) (hd : d.free = false)
    (h : noAdjFree (pre ++ b :: post)) : noAdjFree (pre ++ c :: d :: post) := by
  unfold noAdjFree at h ⊢
  rw [List.chain'_append] at h ⊢
  obtain ⟨h1, h2, h3⟩ := h
  refine ⟨h1, ?_, ?_⟩
  · rw [List.chain'_cons'] at h2 ⊢
    refine ⟨fun y hy hcf _ => ?_, ?_⟩
    · rw [hc] at hcf
      cases hcf
    · rw [List.chain'_cons']
      refine ⟨fun y hy hdf _ => ?_, h2.2⟩
      rw [hd] at hdf
      cases hdf
  · intro x hx y hy _ hyf
    simp only [List.head?_cons, Option.mem_def, Option.some.injEq] at hy
    rw [← hy, hc] at hyf
    cases hyf

theorem coalesceA_noAdj (pre post : AHeap) (sz : Nat) (b : ABlock)
    (hb : b.free = false) (h : noAdjFree (pre ++ b :: post)) :
    noAdjFree (coalesceA pre sz post) := by
  unfold noAdjFree at h ⊢
  unfold coalesceA
  rcases List.eq_nil_or_concat pre with rfl | ⟨pre', l, hpre⟩
  · rw [List.nil_append] at h
    rw [List.chain'_cons'] at h
    obtain ⟨hbhead, hpost⟩ := h
    cases post with
    | nil =>
      rw [if_pos (by simp [lastFree_nil, headFree_nil])]
      exact List.chain'_singleton _
    | cons r t =>
      rw [List.chain'_cons'] at hpost
      obtain ⟨hrhead, ht⟩ := hpost
      by_cases hr : r.free = true
      · rw [if_neg (by simp [lastFree_nil, headFree_cons, hr]),
            if_pos (by simp [lastFree_nil, headFree_cons, hr])]
        simp only [rsize_cons, List.tail_cons, List.nil_append]
        rw [List.chain'_cons']
        exact ⟨fun y hy _ hyf => hrhead y hy hr hyf, ht⟩
      · rw [if_pos (by simp [lastFree_nil, headFree_cons, hr])]
        simp only [List.nil_append]
        rw [List.chain'_cons']
        refine ⟨fun y hy _ hyf => ?_, List.chain'_cons'.2 ⟨hrhead, ht⟩⟩
        simp only [List.head?_cons, Option.mem_def, Option.some.injEq] at hy
        rw [← hy] at hyf
        exact hr hyf
  · rw [List.concat_eq_append] at hpre
    subst hpre
    rw [List.chain'_append] at h
    obtain ⟨hpre2, hbp, hjunc⟩ := h
    rw [List.chain'_append] at hpre2
    obtain ⟨hpre', hl, hjunc'⟩ := hpre2
    rw [List.chain'_cons'] at hbp
    obtain ⟨hbhead, hpost⟩ := hbp
    by_cases hlf : l.free = true
    · -- left neighbor free: cases 3 and 4
      cases post with
      | nil =>
        rw [if_neg (by simp [lastFree_concat, headFree_nil, hlf]),
            if_neg (by simp [lastFree_concat, headFree_nil, hlf]),
            if_pos (by simp [lastFree_concat, headFree_nil, hlf])]
        simp only [lsize_concat, List.dropLast_concat]
        rw [List.chain'_append]
        refine ⟨hpre', List.chain'_singleton _, ?_⟩
        intro x hx y hy hxf _
        exact hjunc' x hx l (by simp) hxf hlf
      | cons r t =>
        rw [List.chain'_cons'] at hpost
        obtain ⟨hrhead, ht⟩ := hpost
        by_cases hr : r.free = true
        · -- case 4
          rw [if_neg (by simp [lastFree_concat, hlf]),
              if_neg (by simp [lastFree_concat, hlf]),
              if_neg (by simp [headFree_cons, hr])]
          simp only [lsize_concat, rsize_cons, List.dropLast_concat, List.tail_cons]
          rw [List.chain'_append]
          refine ⟨hpre', ?_, ?_⟩
          · rw [List.chain'_cons']
            exact ⟨fun y hy _ hyf => hrhead y hy hr hyf, ht⟩
          · intro x hx y hy hxf _
            exact hjunc' x hx l (by simp) hxf hlf
        · -- case 3
          rw [if_neg (by simp [lastFree_concat, hlf]),
              if_neg (by simp [lastFree_concat, hlf]),
              if_pos (by simp [lastFree_concat, headFree_cons, hlf, hr])]
          simp only [lsize_concat, List.dropLast_concat]
          rw [List.chain'_append]
          refine ⟨hpre', ?_, ?_⟩
          · rw [List.chain'_cons']
            refine ⟨fun y hy _ hyf => ?_, List.chain'_cons'.2 ⟨hrhead, ht⟩⟩
            simp only [List.head?_cons, Option.mem_def, Option.some.injEq] at hy
            rw [← hy] at hyf
            exact hr hyf
          · intro x hx y hy hxf _
            exact hjunc' x hx l (by simp) hxf hlf
    · -- left neighbor allocated: cases 1 and 2
      cases post with
      | nil =>
        rw [if_pos (by simp [lastFree_concat, headFree_nil, hlf])]
        rw [List.chain'_append]
        refine ⟨List.chain'_append.2 ⟨hpre', hl, hjunc'⟩, List.chain'_singleton _, ?_⟩
        intro x hx y hy hxf _
        simp only [List.getLast?_concat, Option.mem_def, Option.some.injEq] at hx
        rw [← hx] at hxf
        exact hlf hxf
      | cons r t =>
        rw [List.chain'_cons'] at hpost
        obtain ⟨hrhead, ht⟩ := hpost
        by_cases hr : r.free = true
        · -- case 2
          rw [if_neg (by simp [headFree_cons, hr]),
              if_pos (by simp [lastFree_concat, headFree_cons, hlf, hr])]
          simp only [rsize_cons, List.tail_cons]
          rw [List.chain'_append]
          refine ⟨List.chain'_append.2 ⟨hpre', hl, hjunc'⟩, ?_, ?_⟩
          · rw [List.chain'_cons']
            exact ⟨fun y hy _ hyf => hrhead y hy hr hyf, ht⟩
          · intro x hx y hy hxf _
            simp only [List.getLast?_concat, Option.mem_def, Option.some.injEq] at hx
            rw [← hx] at hxf
            exact hlf hxf
        · -- case 1
          rw [if_pos (by simp [lastFree_concat, headFree_cons, hlf, hr])]
          rw [List.chain'_append]
          refine ⟨List.chain'_append.2 ⟨hpre', hl, hjunc'⟩, ?_, ?_⟩
          · rw [List.chain'_cons']
            refine ⟨fun y hy _ hyf => ?_, List.chain'_cons'.2 ⟨hrhead, ht⟩⟩
            simp only [List.head?_cons, Option.mem_def, Option.some.injEq] at hy
            rw [← hy] at hyf
            exact hr hyf
          · intro x hx y hy hxf _
            simp only [List.getLast?_concat, Option.mem_def, Option.some.injEq] at hx
            rw [← hx] at hxf
            exact hlf hxf

theorem placeA_noAdj (pre post : AHeap) (csize asize : Nat)
    (h : noAdjFree (pre ++ ⟨csize, true⟩ :: post)) :
    noAdjFree (placeA pre csize post asize) := by
  unfold placeA
  by_cases hs : 24 ≤ csize - asize
  · rw [if_pos hs]
    apply coalesceA_noAdj _ _ _ ⟨0, false⟩ rfl
    have h2 := noAdj_mid_two pre post ⟨csize, true⟩ ⟨asize, false⟩ ⟨0, false⟩
      rfl rfl h
    simpa [List.append_assoc] using h2
  · rw [if_neg hs]
    exact noAdj_mid_one pre post ⟨csize, true⟩ ⟨csize, false⟩ rfl h

theorem extend_noAdj (bs : AHeap) (nsz : Nat) (h : noAdjFree bs) :
    noAdjFree (extPre bs ++ ⟨extSize bs nsz, true⟩ :: []) := by
  unfold extPre extSize
  by_cases hl : lastFree bs = true
  · rw [if_pos hl, if_pos hl]
    rcases List.eq_nil_or_concat bs with rfl | ⟨bs', a, hbs⟩
    · cases hl
    · subst hbs
      rw [List.concat_eq_append] at h ⊢
      simp only [List.dropLast_concat, lsize_concat]
      unfold noAdjFree at h ⊢
      rw [List.chain'_append] at h ⊢
      obtain ⟨h1, _, h3⟩ := h
      rw [List.concat_eq_append, lastFree_concat] at hl
      refine ⟨h1, List.chain'_singleton _, ?_⟩
      intro x hx y hy hxf _
      exact h3 x hx a (by simp) hxf hl
  · rw [if_neg hl, if_neg hl]
    unfold noAdjFree at h ⊢
    rw [List.chain'_append]
    refine ⟨h, List.chain'_singleton _, ?_⟩
    intro x hx y hy hxf _
    rcases List.eq_nil_or_concat bs with rfl | ⟨bs', a, hbs⟩
    · cases hx
    · subst hbs
      rw [List.concat_eq_append] at hx hl
      simp only [List.getLast?_concat, Option.mem_def, Option.some.injEq] at hx
      rw [lastFree_concat] at hl
      rw [← hx] at hxf
      exact absurd hxf (by simpa using hl)

theorem astep_noAdj (s t : AHeap) (hst : AStep s t) (h : noAdjFree s) :
    noAdjFree t := by
  cases hst with
  | allocFound pre sz post asize hfit => exact placeA_noAdj _ _ _ _ h
  | allocExtend bs nsz asize hfit => exact placeA_noAdj _ _ _ _ (extend_noAdj _ _ h)
  | allocFail bs => exact h
  | freeBlock pre sz post => exact coalesceA_noAdj _ _ _ ⟨sz, false⟩ rfl h

/-- C2: after every public call, no two physically adjacent blocks of the
heap walk are both free: every heap reachable from the initialized heap by
public calls (each call being at most two primitive placement, extension,
coalescing or free steps) satisfies the coalescing invariant. -/
theorem no_two_adjacent_free (bs : AHeap) (h : ReachableA bs) : noAdjFree bs := by
  unfold ReachableA at h
  induction h with
  | refl => exact List.chain'_singleton _
  | tail _ hstep ih => exact astep_noAdj _ _ hstep ih

/-- Witness for C2: the heap after placing a 24-byte allocation into the
initial 168-byte free block (an `allocate` call) has no adjacent free
blocks. -/
theorem no_two_adjacent_free_witness : noAdjFree (placeA [] 168 [] 24) :=
  no_two_adjacent_free _
    (Relation.ReflTransGen.single
      (show AStep initA (placeA [] 168 [] 24) from
        AStep.allocFound [] 168 [] 24 (by norm_num)))

/-- Symbolic evaluation of `free` on a block both of whose physical
neighbors are allocated and whose class slot is empty: the boundary tags are
rewritten with the allocation bit clear and the block becomes the sole head
of its class list. -/
theorem free_case1 (s : MMState) (ptr oldsize flw : Nat)
    (hptr : ptr ≠ 0)
    (hold : GET_SIZE s.mem (HDRP ptr) = oldsize)
    (h24 : 24 ≤ oldsize) (h32 : oldsize < 4294967296)
    (hflw : getW s.mem (ptr - 8) = flw)
    (hflo : getW s.mem (ptr - flw / 8 * 8 - 4) = flw)
    (hfl1 : flw % 2 = 1) (hfl8 : 8 ≤ flw / 8 * 8)
    (hfr1 : getW s.mem (ptr + oldsize - 4) % 2 = 1)
    (hsl : getLP s.mem (slotAddr s.freelisttablehead (choosefreetable_bysize oldsize)) = 0)
    (hslot : slotAddr s.freelisttablehead (choosefreetable_bysize oldsize) + 8
      ≤ ptr - flw / 8 * 8 - 8) :
    mm_free s ptr =
      { s with mem := freeCase1Mem s.mem s.freelisttablehead ptr oldsize } := by
  unfold freeCase1Mem
  have h8 : oldsize % 8 = 0 := by
    rw [← hold]
    unfold GET_SIZE
    omega
  have hpack : PACK oldsize 0 = oldsize := Nat.or_zero oldsize
  have hplo : 8 ≤ ptr - flw / 8 * 8 - 8 := by omega
  have hpbig : flw / 8 * 8 + 16 ≤ ptr := by omega
  set flsz := flw / 8 * 8 with hflsz
  set m1 := putW s.mem (HDRP ptr) (PACK oldsize 0) with hm1
  have hm1hdr : getW m1 (ptr - 4) = oldsize := by
    rw [hm1, hpack]
    unfold HDRP
    rw [getW_putW_same]
    omega
  have hgs1 : GET_SIZE m1 (HDRP ptr) = oldsize := by
    unfold GET_SIZE HDRP
    rw [hm1hdr]
    omega
  have hftr1 : FTRP m1 ptr = ptr + oldsize - 8 := by
    unfold FTRP
    rw [hgs1]
  set m2 := putW m1 (ptr + oldsize - 8) (PACK oldsize 0) with hm2
  have hm2hdr : getW m2 (ptr - 4) = oldsize := by
    rw [hm2, getW_putW_out _ _ _ _ (by omega)]
    exact hm1hdr
  have hm2fl : getW m2 (ptr - 8) = flw := by
    rw [hm2, getW_putW_out _ _ _ _ (by omega), hm1,
        getW_putW_out _ _ _ _ (by unfold HDRP; omega)]
    exact hflw
  have hm2flo : getW m2 (ptr - flsz - 4) = flw := by
    rw [hm2, getW_putW_out _ _ _ _ (by omega), hm1,
        getW_putW_out _ _ _ _ (by unfold HDRP; omega)]
    exact hflo
  have hm2fr : getW m2 (ptr + oldsize - 4) = getW s.mem (ptr + oldsize - 4) := by
    rw [hm2, getW_putW_out _ _ _ _ (by omega), hm1,
        getW_putW_out _ _ _ _ (by unfold HDRP; omega)]
  have hprev : PREV_BLKP m2 ptr = ptr - flsz := by
    unfold PREV_BLKP GET_SIZE
    rw [hm2fl]
  have hftrL : FTRP m2 (ptr - flsz) = ptr - 8 := by
    unfold FTRP GET_SIZE HDRP
    rw [hm2flo]
    omega
  have hpa : GET_ALLOC m2 (FTRP m2 (PREV_BLKP m2 ptr)) = 1 := by
    rw [hprev, hftrL]
    unfold GET_ALLOC
    rw [hm2fl]
    exact hfl1
  have hnext : NEXT_BLKP m2 ptr = ptr + oldsize := by
    unfold NEXT_BLKP GET_SIZE
    rw [hm2hdr]
    omega
  have hna : GET_ALLOC m2 (HDRP (NEXT_BLKP m2 ptr)) = 1 := by
    rw [hnext]
    unfold HDRP GET_ALLOC
    rw [hm2fr]
    exact hfr1
  have hcls : choosefreetable m2 ptr = choosefreetable_bysize oldsize := by
    unfold choosefreetable GET_SIZE HDRP
    rw [hm2hdr]
    congr 1
    omega
  have hslot8 : slotAddr s.freelisttablehead (choosefreetable_bysize oldsize) + 8
      ≤ ptr - flsz - 8 := hslot
  have hhead : getLP m2 (slotAddr s.freelisttablehead (choosefreetable_bysize oldsize)) = 0 := by
    rw [hm2, getLP_putW_out _ _ _ _ (by omega), hm1,
        getLP_putW_out _ _ _ _ (by unfold HDRP; omega)]
    exact hsl
  have hins : insertFree { s with mem := m2 } ptr =
      { s with mem := (putLP (putLP (putLP m2 ptr 0) (ptr + 8) 0)
          (slotAddr s.freelisttablehead (choosefreetable_bysize oldsize)) ptr) } := by
    unfold insertFree
    simp only [hcls, hhead]
    rw [if_neg hptr, if_neg (by simp)]
  have hcoal : coalesce { s with mem := m2 } ptr =
      (ptr, { s with mem := (putLP (putLP (putLP m2 ptr 0) (ptr + 8) 0)
          (slotAddr s.freelisttablehead (choosefreetable_bysize oldsize)) ptr) }) := by
    unfold coalesce
    simp only [hpa, hna]
    rw [if_pos (by omega : (1 : Nat) ≠ 0 ∧ (1 : Nat) ≠ 0)]
    rw [hins]
  unfold mm_free
  rw [if_pos hptr]
  simp only [hold, hftr1]
  rw [hcoal]

/-- C5 amended: when `reallocate(ptr, size)` takes the grow path (non-null
`ptr`, positive `size`, adjusted size above the current block size) and the
inner allocation succeeds at a pointer `q` disjoint from the old block, the
call copies `oldsize` bytes — the old block's full recorded size including
its boundary tags, not `min(old payload, requested size)` bytes — from `ptr`
onto `q`, then frees the old block (its header afterwards reports the old
size with the allocation bit clear) and returns `q`; in particular the first
`min(old payload, requested size)` bytes of the new payload do equal the old
payload. -/
theorem realloc_grow_copies (s s1 : MMState) (ptr size fuel q oldsize flw : Nat)
    (h1 : ptr ≠ 0) (h2 : size ≠ 0)
    (hold : GET_SIZE s.mem (HDRP ptr) = oldsize)
    (h3 : oldsize < adjustSize size)
    (hmal : mm_malloc s (adjustSize size) fuel = (q, s1))
    (hq : q ≠ 0)
    (h24 : 24 ≤ oldsize) (h32 : oldsize < 4294967296)
    (hos : getW s1.mem (ptr - 4) = getW s.mem (ptr - 4))
    (hflw : getW s1.mem (ptr - 8) = flw)
    (hflo : getW s1.mem (ptr - flw / 8 * 8 - 4) = flw)
    (hfl1 : flw % 2 = 1) (hfl8 : 8 ≤ flw / 8 * 8)
    (hfr1 : getW s1.mem (ptr + oldsize - 4) % 2 = 1)
    (hsl1 : getLP s1.mem (slotAddr s1.freelisttablehead (choosefreetable_bysize oldsize)) = 0)
    (hslot : slotAddr s1.freelisttablehead (choosefreetable_bysize oldsize) + 8
      ≤ ptr - flw / 8 * 8 - 8)
    (hqtb : slotAddr s1.freelisttablehead (choosefreetable_bysize oldsize) + 8 ≤ q)
    (hqd : ptr + oldsize ≤ q ∨ q + oldsize ≤ ptr - flw / 8 * 8 - 8)
    (hby : ∀ j, j < oldsize → rd s1.mem (ptr + j) < 256)
    (hfrm : ∀ j, j < oldsize - 8 → rd s1.mem (ptr + j) = rd s.mem (ptr + j)) :
    mm_realloc s ptr size fuel =
      (q, mm_free { s1 with mem := memcpyN s1.mem q ptr oldsize } ptr) ∧
    GET_ALLOC (mm_realloc s ptr size fuel).2.mem (HDRP ptr) = 0 ∧
    GET_SIZE (mm_realloc s ptr size fuel).2.mem (HDRP ptr) = oldsize ∧
    (∀ j, j < min (oldsize - 8) size →
      rd (mm_realloc s ptr size fuel).2.mem (q + j) = rd s.mem (ptr + j)) := by
  have h8 : oldsize % 8 = 0 := by
    rw [← hold]
    unfold GET_SIZE
    omega
  set flsz := flw / 8 * 8 with hflsz
  -- the realloc grow path
  have hre : mm_realloc s ptr size fuel =
      (q, mm_free { s1 with mem := memcpyN s1.mem q ptr oldsize } ptr) := by
    unfold mm_realloc
    rw [if_neg h2, if_neg h1, hold]
    rw [if_neg (by omega), hmal]
    simp only [if_neg hq]
  -- free of the old block after the copy: case-1 coalescing
  set s' : MMState := { s1 with mem := memcpyN s1.mem q ptr oldsize } with hs'
  have hmemq : s'.mem = memcpyN s1.mem q ptr oldsize := rfl
  have htblq : s'.freelisttablehead = s1.freelisttablehead := rfl
  have hold' : GET_SIZE s'.mem (HDRP ptr) = oldsize := by
    unfold GET_SIZE HDRP
    rw [hmemq, getW_memcpyN_out _ _ _ _ _ (by omega), hos]
    rw [← hold]
    unfold GET_SIZE HDRP
    rfl
  have hflw' : getW s'.mem (ptr - 8) = flw := by
    rw [hmemq, getW_memcpyN_out _ _ _ _ _ (by omega), hflw]
  have hflo' : getW s'.mem (ptr - flsz - 4) = flw := by
    rw [hmemq, getW_memcpyN_out _ _ _ _ _ (by omega), hflo]
  have hfr1' : getW s'.mem (ptr + oldsize - 4) % 2 = 1 := by
    rw [hmemq, getW_memcpyN_out _ _ _ _ _ (by omega)]
    exact hfr1
  have hsl' : getLP s'.mem
      (slotAddr s'.freelisttablehead (choosefreetable_bysize oldsize)) = 0 := by
    rw [hmemq, htblq, getLP_memcpyN_out _ _ _ _ _ (by omega)]
    exact hsl1
  have hfree : mm_free s' ptr =
      { s' with mem := freeCase1Mem s'.mem s'.freelisttablehead ptr oldsize } :=
    free_case1 s' ptr oldsize flw h1 hold' h24 h32 hflw' hflo' hfl1 hfl8 hfr1' hsl'
      (by rw [htblq]; exact hslot)
  -- final memory
  set M := freeCase1Mem s'.mem s'.freelisttablehead ptr oldsize with hM
  have hMhdr : getW M (ptr - 4) = oldsize := by
    rw [hM]
    unfold freeCase1Mem HDRP
    rw [getW_putLP_out _ _ _ _ (by rw [htblq]; omega),
        getW_putLP_out _ _ _ _ (by omega),
        getW_putLP_out _ _ _ _ (by omega),
        getW_putW_out _ _ _ _ (by omega),
        getW_putW_same]
    rw [show PACK oldsize 0 = oldsize from Nat.or_zero oldsize]
    omega
  refine ⟨hre, ?_, ?_, ?_⟩
  · rw [hre]
    unfold GET_ALLOC HDRP
    rw [hfree]
    simp only
    rw [hMhdr]
    omega
  · rw [hre]
    unfold GET_SIZE HDRP
    rw [hfree]
    simp only
    rw [hMhdr]
    omega
  · intro j hj
    rw [hre, hfree]
    simp only
    rw [hM]
    unfold freeCase1Mem
    rw [rd_putLP_out _ _ _ _ (by rw [htblq]; omega),
        rd_putLP_out _ _ _ _ (by omega),
        rd_putLP_out _ _ _ _ (by omega),
        rd_putW_out _ _ _ _ (by omega),
        rd_putW_out _ _ _ _ (by unfold HDRP; omega)]
    rw [hmemq, rd_memcpyN_in _ _ _ _ _ (by omega)]
    rw [Nat.mod_eq_of_lt (hby j (by omega))]
    exact hfrm j (by omega)

/-- Symbolic evaluation of `coalesce`, case 1: both physical neighbors
allocated, empty class slot. -/
theorem coalesce_case1 (s : MMState) (bp sz flw frw : Nat)
    (hbp : bp ≠ 0)
    (hhdr : getW s.mem (bp - 4) = sz) (hsz8 : sz % 8 = 0) (hsz24 : 24 ≤ sz)
    (hflw : getW s.mem (bp - 8) = flw)
    (hflo : getW s.mem (bp - flw / 8 * 8 - 4) = flw) (hfl8 : 8 ≤ flw / 8 * 8)
    (hfrw : getW s.mem (bp + sz - 4) = frw)
    (hfl1 : flw % 2 = 1) (hfr1 : frw % 2 = 1)
    (hsl : getLP s.mem (slotAddr s.freelisttablehead (choosefreetable_bysize sz)) = 0)
    (hslot : slotAddr s.freelisttablehead (choosefreetable_bysize sz) + 8
      ≤ bp - flw / 8 * 8 - 8) :
    coalesce s bp = (bp, { s with mem :=
      (putLP (putLP (putLP s.mem bp 0) (bp + 8) 0)
        (slotAddr s.freelisttablehead (choosefreetable_bysize sz)) bp) }) := by
  set flsz := flw / 8 * 8 with hflsz
  have hgs : GET_SIZE s.mem (HDRP bp) = sz := by
    unfold GET_SIZE HDRP
    rw [hhdr]
    omega
  have hprev : PREV_BLKP s.mem bp = bp - flsz := by
    unfold PREV_BLKP GET_SIZE
    rw [hflw]
  have hftrL : FTRP s.mem (bp - flsz) = bp - 8 := by
    unfold FTRP GET_SIZE HDRP
    rw [hflo]
    omega
  have hpa : GET_ALLOC s.mem (FTRP s.mem (PREV_BLKP s.mem bp)) = 1 := by
    rw [hprev, hftrL]
    unfold GET_ALLOC
    rw [hflw]
    exact hfl1
  have hnext : NEXT_BLKP s.mem bp = bp + sz := by
    unfold NEXT_BLKP GET_SIZE
    rw [hhdr]
    omega
  have hna : GET_ALLOC s.mem (HDRP (NEXT_BLKP s.mem bp)) = 1 := by
    rw [hnext]
    unfold HDRP GET_ALLOC
    rw [hfrw]
    exact hfr1
  have hcls : choosefreetable s.mem bp = choosefreetable_bysize sz := by
    unfold choosefreetable
    rw [hgs]
  have hins : insertFree s bp = { s with mem :=
      (putLP (putLP (putLP s.mem bp 0) (bp + 8) 0)
        (slotAddr s.freelisttablehead (choosefreetable_bysize sz)) bp) } := by
    unfold insertFree
    simp only [hcls, hsl]
    rw [if_neg hbp, if_neg (by simp)]
  unfold coalesce
  simp only [hpa, hna]
  rw [if_pos (by omega : (1 : Nat) ≠ 0 ∧ (1 : Nat) ≠ 0)]
  rw [hins]

/-- Symbolic evaluation of `coalesce`, case 2: only the right neighbor is
free; it is the sole member of its class list. -/
theorem coalesce_case2 (s : MMState) (bp sz flw frw : Nat)
    (hbp : bp ≠ 0)
    (hhdr : getW s.mem (bp - 4) = sz) (hsz8 : sz % 8 = 0) (hsz24 : 24 ≤ sz)
    (hm32 : sz + frw / 8 * 8 < 4294967296)
    (hflw : getW s.mem (bp - 8) = flw)
    (hflo : getW s.mem (bp - flw / 8 * 8 - 4) = flw) (hfl8 : 8 ≤ flw / 8 * 8)
    (hfrw : getW s.mem (bp + sz - 4) = frw)
    (hfl1 : flw % 2 = 1) (hfr0 : frw % 2 = 0) (hfr24 : 24 ≤ frw / 8 * 8)
    (hpr : getLP s.mem (bp + sz) = 0) (hnr : getLP s.mem (bp + sz + 8) = 0)
    (hslm : getLP s.mem
      (slotAddr s.freelisttablehead (choosefreetable_bysize (sz + frw / 8 * 8))) = 0)
    (hslotr : slotAddr s.freelisttablehead (choosefreetable_bysize (frw / 8 * 8)) + 8
      ≤ bp - flw / 8 * 8 - 8)
    (hslotm : slotAddr s.freelisttablehead
        (choosefreetable_bysize (sz + frw / 8 * 8)) + 8
      ≤ bp - flw / 8 * 8 - 8) :
    coalesce s bp = (bp, { s with mem :=
      (putLP (putLP (putLP
        (putW (putW (putLP s.mem
            (slotAddr s.freelisttablehead (choosefreetable_bysize (frw / 8 * 8))) 0)
          (bp - 4) (PACK (sz + frw / 8 * 8) 0))
          (bp + (sz + frw / 8 * 8) - 8) (PACK (sz + frw / 8 * 8) 0))
        bp 0) (bp + 8) 0)
        (slotAddr s.freelisttablehead (choosefreetable_bysize (sz + frw / 8 * 8)))
        bp) }) := by
  set flsz := flw / 8 * 8 with hflsz
  set frsz := frw / 8 * 8 with hfrsz
  set msize := sz + frsz with hmsize
  have h8m : msize % 8 = 0 := by omega
  have hgs : GET_SIZE s.mem (HDRP bp) = sz := by
    unfold GET_SIZE HDRP
    rw [hhdr]
    omega
  have hprev : PREV_BLKP s.mem bp = bp - flsz := by
    unfold PREV_BLKP GET_SIZE
    rw [hflw]
  have hftrL : FTRP s.mem (bp - flsz) = bp - 8 := by
    unfold FTRP GET_SIZE HDRP
    rw [hflo]
    omega
  have hpa : GET_ALLOC s.mem (FTRP s.mem (PREV_BLKP s.mem bp)) = 1 := by
    rw [hprev, hftrL]
    unfold GET_ALLOC
    rw [hflw]
    exact hfl1
  have hnext : NEXT_BLKP s.mem bp = bp + sz := by
    unfold NEXT_BLKP GET_SIZE
    rw [hhdr]
    omega
  have hna : GET_ALLOC s.mem (HDRP (NEXT_BLKP s.mem bp)) = 0 := by
    rw [hnext]
    unfold HDRP GET_ALLOC
    rw [hfrw]
    exact hfr0
  have hgsr : GET_SIZE s.mem (HDRP (NEXT_BLKP s.mem bp)) = frsz := by
    rw [hnext]
    unfold GET_SIZE HDRP
    rw [hfrw]
  have hsize2 : GET_SIZE s.mem (HDRP bp) + GET_SIZE s.mem (HDRP (NEXT_BLKP s.mem bp))
      = msize := by
    rw [hgs, hgsr]
  -- deleteFree of the right neighbor
  have hdel : deleteFree s (NEXT_BLKP s.mem bp) = { s with mem :=
      (putLP s.mem (slotAddr s.freelisttablehead (choosefreetable_bysize frsz)) 0) } := by
    unfold deleteFree
    rw [hnext]
    unfold choosefreetable PREV_FREE NEXT_FREE
    have hx : GET_SIZE s.mem (HDRP (bp + sz)) = frsz := by
      unfold GET_SIZE HDRP
      rw [hfrw]
    rw [hx, hpr, hnr]
    simp
  set slr := slotAddr s.freelisttablehead (choosefreetable_bysize frsz) with hslr
  set slm := slotAddr s.freelisttablehead (choosefreetable_bysize msize) with hslmadr
  set mA := putLP s.mem slr 0 with hmA
  set mB := putW mA (bp - 4) (PACK msize 0) with hmB
  have hmBhdr : getW mB (bp - 4) = msize := by
    rw [hmB, getW_putW_same, show PACK msize 0 = msize from Nat.or_zero msize]
    omega
  have hftrB : FTRP mB bp = bp + msize - 8 := by
    unfold FTRP GET_SIZE HDRP
    rw [hmBhdr]
    omega
  set mC := putW mB (bp + msize - 8) (PACK msize 0) with hmC
  have hmChdr : getW mC (bp - 4) = msize := by
    rw [hmC, getW_putW_out _ _ _ _ (by omega)]
    exact hmBhdr
  have hclsC : choosefreetable mC bp = choosefreetable_bysize msize := by
    unfold choosefreetable GET_SIZE HDRP
    rw [hmChdr]
    congr 1
    omega
  have hheadC : getLP mC slm = 0 := by
    rw [hmC, getLP_putW_out _ _ _ _ (by omega), hmB,
        getLP_putW_out _ _ _ _ (by omega), hmA]
    by_cases hee : slr = slm
    · rw [hee, getLP_putLP_same]
    · rw [getLP_putLP_out _ _ _ _ (by
        rw [hslr, hslmadr] at hee ⊢
        unfold slotAddr at hee ⊢
        omega)]
      exact hslm
  have hins : insertFree { s with mem := mC } bp = { s with mem :=
      (putLP (putLP (putLP mC bp 0) (bp + 8) 0) slm bp) } := by
    unfold insertFree
    simp only [hclsC]
    rw [show getLP mC (slotAddr s.freelisttablehead
        (choosefreetable_bysize msize)) = 0 from hheadC]
    rw [if_neg hbp, if_neg (by simp)]
  unfold coalesce
  simp only [hpa, hna, hsize2]
  rw [if_neg (by simp : ¬ ((1 : Nat) ≠ 0 ∧ (0 : Nat) ≠ 0)),
      if_pos (by simp : (1 : Nat) ≠ 0 ∧ True)]
  rw [hdel]
  unfold HDRP
  rw [show FTRP (putW mA (bp - 4) (PACK msize 0)) bp = bp + msize - 8 from by
    rw [← hmB]
    exact hftrB]
  rw [← hmB, ← hmC]
  rw [hins]

/-- Symbolic evaluation of `coalesce`, case 3: only the left neighbor is
free; it is the sole member of its class list. -/
theorem coalesce_case3 (s : MMState) (bp sz flw frw : Nat)
    (hbp0 : bp - flw / 8 * 8 ≠ 0)
    (hhdr : getW s.mem (bp - 4) = sz) (hsz8 : sz % 8 = 0) (hsz24 : 24 ≤ sz)
    (hm32 : sz + flw / 8 * 8 < 4294967296)
    (hflw : getW s.mem (bp - 8) = flw)
    (hflo : getW s.mem (bp - flw / 8 * 8 - 4) = flw)
    (hfl24 : 24 ≤ flw / 8 * 8)
    (hfrw : getW s.mem (bp + sz - 4) = frw)
    (hfl0 : flw % 2 = 0) (hfr1 : frw % 2 = 1)
    (hpl : getLP s.mem (bp - flw / 8 * 8) = 0)
    (hnl : getLP s.mem (bp - flw / 8 * 8 + 8) = 0)
    (hslm : getLP s.mem (slotAddr s.freelisttablehead
      (choosefreetable_bysize (sz + flw / 8 * 8))) = 0)
    (hslotl : slotAddr s.freelisttablehead (choosefreetable_bysize (flw / 8 * 8)) + 8
      ≤ bp - flw / 8 * 8 - 8)
    (hslotm : slotAddr s.freelisttablehead
        (choosefreetable_bysize (sz + flw / 8 * 8)) + 8
      ≤ bp - flw / 8 * 8 - 8) :
    coalesce s bp = (bp - flw / 8 * 8, { s with mem :=
      (putLP (putLP (putLP
        (putW (putW (putLP s.mem
            (slotAddr s.freelisttablehead (choosefreetable_bysize (flw / 8 * 8))) 0)
          (bp + sz - 8) (PACK (sz + flw / 8 * 8) 0))
          (bp - flw / 8 * 8 - 4) (PACK (sz + flw / 8 * 8) 0))
        (bp - flw / 8 * 8) 0) (bp - flw / 8 * 8 + 8) 0)
        (slotAddr s.freelisttablehead (choosefreetable_bysize (sz + flw / 8 * 8)))
        (bp - flw / 8 * 8)) }) := by
  set flsz := flw / 8 * 8 with hflsz
  set msize := sz + flsz with hmsize
  set L := bp - flsz with hL
  have h8m : msize % 8 = 0 := by omega
  have hgs : GET_SIZE s.mem (HDRP bp) = sz := by
    unfold GET_SIZE HDRP
    rw [hhdr]
    omega
  have hprev : PREV_BLKP s.mem bp = L := by
    unfold PREV_BLKP GET_SIZE
    rw [hflw]
  have hftrL : FTRP s.mem L = bp - 8 := by
    unfold FTRP GET_SIZE HDRP
    rw [hL, hflo]
    omega
  have hpa : GET_ALLOC s.mem (FTRP s.mem (PREV_BLKP s.mem bp)) = 0 := by
    rw [hprev, hftrL]
    unfold GET_ALLOC
    rw [hflw]
    exact hfl0
  have hnext : NEXT_BLKP s.mem bp = bp + sz := by
    unfold NEXT_BLKP GET_SIZE
    rw [hhdr]
    omega
  have hna : GET_ALLOC s.mem (HDRP (NEXT_BLKP s.mem bp)) = 1 := by
    rw [hnext]
    unfold HDRP GET_ALLOC
    rw [hfrw]
    exact hfr1
  have hgsl : GET_SIZE s.mem (HDRP (PREV_BLKP s.mem bp)) = flsz := by
    rw [hprev]
    unfold GET_SIZE HDRP
    rw [hL, hflo]
  have hsize2 : GET_SIZE s.mem (HDRP bp) + GET_SIZE s.mem (HDRP (PREV_BLKP s.mem bp))
      = msize := by
    rw [hgs, hgsl]
  have hdel : deleteFree s (PREV_BLKP s.mem bp) = { s with mem :=
      (putLP s.mem (slotAddr s.freelisttablehead (choosefreetable_bysize flsz)) 0) } := by
    unfold deleteFree
    rw [hprev]
    unfold choosefreetable PREV_FREE NEXT_FREE
    have hx : GET_SIZE s.mem (HDRP L) = flsz := by
      unfold GET_SIZE HDRP
      rw [hL, hflo]
    rw [hx, hpl, hnl]
    simp
  set sll := slotAddr s.freelisttablehead (choosefreetable_bysize flsz) with hsll
  set slm := slotAddr s.freelisttablehead (choosefreetable_bysize msize) with hslmadr
  set mA := putLP s.mem sll 0 with hmA
  have hmAhdr : getW mA (bp - 4) = sz := by
    rw [hmA, getW_putLP_out _ _ _ _ (by omega)]
    exact hhdr
  have hftrA : FTRP mA bp = bp + sz - 8 := by
    unfold FTRP GET_SIZE HDRP
    rw [hmAhdr]
    omega
  set mB := putW mA (bp + sz - 8) (PACK msize 0) with hmB
  have hmBfl : getW mB (bp - 8) = flw := by
    rw [hmB, getW_putW_out _ _ _ _ (by omega), hmA,
        getW_putLP_out _ _ _ _ (by omega)]
    exact hflw
  have hprevB : PREV_BLKP mB bp = L := by
    unfold PREV_BLKP GET_SIZE
    rw [hmBfl]
  set mC := putW mB (L - 4) (PACK msize 0) with hmC
  have hmCfl : getW mC (bp - 8) = flw := by
    rw [hmC, getW_putW_out _ _ _ _ (by omega)]
    exact hmBfl
  have hprevC : PREV_BLKP mC bp = L := by
    unfold PREV_BLKP GET_SIZE
    rw [hmCfl]
  have hmChdr : getW mC (L - 4) = msize := by
    rw [hmC, getW_putW_same, show PACK msize 0 = msize from Nat.or_zero msize]
    omega
  have hclsC : choosefreetable mC L = choosefreetable_bysize msize := by
    unfold choosefreetable GET_SIZE HDRP
    rw [hmChdr]
    congr 1
    omega
  have hheadC : getLP mC slm = 0 := by
    rw [hmC, getLP_putW_out _ _ _ _ (by omega), hmB,
        getLP_putW_out _ _ _ _ (by omega), hmA]
    by_cases hee : sll = slm
    · rw [hee, getLP_putLP_same]
    · rw [getLP_putLP_out _ _ _ _ (by
        rw [hsll, hslmadr] at hee ⊢
        unfold slotAddr at hee ⊢
        omega)]
      exact hslm
  have hins : insertFree { s with mem := mC } L = { s with mem :=
      (putLP (putLP (putLP mC L 0) (L + 8) 0) slm L) } := by
    unfold insertFree
    simp only [hclsC]
    rw [show getLP mC (slotAddr s.freelisttablehead
        (choosefreetable_bysize msize)) = 0 from hheadC]
    rw [if_neg hbp0, if_neg (by simp)]
  unfold coalesce
  simp only [hpa, hna, hsize2]
  rw [if_neg (by simp : ¬ ((0 : Nat) ≠ 0 ∧ (1 : Nat) ≠ 0)),
      if_neg (by simp : ¬ ((0 : Nat) ≠ 0 ∧ (1 : Nat) = 0)),
      if_pos (by simp : True ∧ (1 : Nat) ≠ 0)]
  rw [hdel]
  simp only [hftrA]
  simp only [← hmB]
  unfold HDRP
  simp only [hprevB]
  simp only [← hmC]
  simp only [hprevC]
  simp only [hins]

/-- Symbolic evaluation of `coalesce`, case 4: both neighbors are free,
each the sole member of its class list. -/
theorem coalesce_case4 (s : MMState) (bp sz flw frw : Nat)
    (hbp0 : bp - flw / 8 * 8 ≠ 0)
    (hhdr : getW s.mem (bp - 4) = sz) (hsz8 : sz % 8 = 0) (hsz24 : 24 ≤ sz)
    (hm32 : sz + flw / 8 * 8 + frw / 8 * 8 < 4294967296)
    (hflw : getW s.mem (bp - 8) = flw)
    (hflo : getW s.mem (bp - flw / 8 * 8 - 4) = flw)
    (hfl24 : 24 ≤ flw / 8 * 8)
    (hfrw : getW s.mem (bp + sz - 4) = frw)
    (hfr2 : getW s.mem (bp + sz + frw / 8 * 8 - 8) = frw)
    (hfr24 : 24 ≤ frw / 8 * 8)
    (hfl0 : flw % 2 = 0) (hfr0 : frw % 2 = 0)
    (hpl : getLP s.mem (bp - flw / 8 * 8) = 0)
    (hnl : getLP s.mem (bp - flw / 8 * 8 + 8) = 0)
    (hpr : getLP s.mem (bp + sz) = 0) (hnr : getLP s.mem (bp + sz + 8) = 0)
    (hslm : getLP s.mem (slotAddr s.freelisttablehead
      (choosefreetable_bysize (sz + flw / 8 * 8 + frw / 8 * 8))) = 0)
    (hslotl : slotAddr s.freelisttablehead (choosefreetable_bysize (flw / 8 * 8)) + 8
      ≤ bp - flw / 8 * 8 - 8)
    (hslotr : slotAddr s.freelisttablehead (choosefreetable_bysize (frw / 8 * 8)) + 8
      ≤ bp - flw / 8 * 8 - 8)
    (hslotm : slotAddr s.freelisttablehead
        (choosefreetable_bysize (sz + flw / 8 * 8 + frw / 8 * 8)) + 8
      ≤ bp - flw / 8 * 8 - 8) :
    coalesce s bp = (bp - flw / 8 * 8, { s with mem :=
      (putLP (putLP (putLP
        (putW (putW (putLP (putLP s.mem
            (slotAddr s.freelisttablehead (choosefreetable_bysize (flw / 8 * 8))) 0)
            (slotAddr s.freelisttablehead (choosefreetable_bysize (frw / 8 * 8))) 0)
          (bp - flw / 8 * 8 - 4) (PACK (sz + flw / 8 * 8 + frw / 8 * 8) 0))
          (bp + sz + frw / 8 * 8 - 8) (PACK (sz + flw / 8 * 8 + frw / 8 * 8) 0))
        (bp - flw / 8 * 8) 0) (bp - flw / 8 * 8 + 8) 0)
        (slotAddr s.freelisttablehead
          (choosefreetable_bysize (sz + flw / 8 * 8 + frw / 8 * 8)))
        (bp - flw / 8 * 8)) }) := by
  set flsz := flw / 8 * 8 with hflsz
  set frsz := frw / 8 * 8 with hfrsz
  set msize := sz + flsz + frsz with hmsize
  set L := bp - flsz with hL
  have h8m : msize % 8 = 0 := by omega
  have hgs : GET_SIZE s.mem (HDRP bp) = sz := by
    unfold GET_SIZE HDRP
    rw [hhdr]
    omega
  have hprev : PREV_BLKP s.mem bp = L := by
    unfold PREV_BLKP GET_SIZE
    rw [hflw]
  have hftrL : FTRP s.mem L = bp - 8 := by
    unfold FTRP GET_SIZE HDRP
    rw [hL, hflo]
    omega
  have hpa : GET_ALLOC s.mem (FTRP s.mem (PREV_BLKP s.mem bp)) = 0 := by
    rw [hprev, hftrL]
    unfold GET_ALLOC
    rw [hflw]
    exact hfl0
  have hnext : NEXT_BLKP s.mem bp = bp + sz := by
    unfold NEXT_BLKP GET_SIZE
    rw [hhdr]
    omega
  have hna : GET_ALLOC s.mem (HDRP (NEXT_BLKP s.mem bp)) = 0 := by
    rw [hnext]
    unfold HDRP GET_ALLOC
    rw [hfrw]
    exact hfr0
  have hgsl : GET_SIZE s.mem (HDRP (PREV_BLKP s.mem bp)) = flsz := by
    rw [hprev]
    unfold GET_SIZE HDRP
    rw [hL, hflo]
  have hftrR : FTRP s.mem (NEXT_BLKP s.mem bp) = bp + sz + frsz - 8 := by
    rw [hnext]
    unfold FTRP GET_SIZE HDRP
    rw [hfrw]
  have hgsr : GET_SIZE s.mem (FTRP s.mem (NEXT_BLKP s.mem bp)) = frsz := by
    rw [hftrR]
    unfold GET_SIZE
    rw [hfr2]
  have hsize2 : GET_SIZE s.mem (HDRP bp) + GET_SIZE s.mem (HDRP (PREV_BLKP s.mem bp))
      + GET_SIZE s.mem (FTRP s.mem (NEXT_BLKP s.mem bp)) = msize := by
    rw [hgs, hgsl, hgsr]
  set sll := slotAddr s.freelisttablehead (choosefreetable_bysize flsz) with hsll
  set slr := slotAddr s.freelisttablehead (choosefreetable_bysize frsz) with hslr
  set slm := slotAddr s.freelisttablehead (choosefreetable_bysize msize) with hslmadr
  have hdelL : deleteFree s (PREV_BLKP s.mem bp) = { s with mem :=
      (putLP s.mem sll 0) } := by
    unfold deleteFree
    rw [hprev]
    unfold choosefreetable PREV_FREE NEXT_FREE
    have hx : GET_SIZE s.mem (HDRP L) = flsz := by
      unfold GET_SIZE HDRP
      rw [hL, hflo]
    rw [hx, hpl, hnl]
    simp
  set mA := putLP s.mem sll 0 with hmA
  have hmAhdr : getW mA (bp - 4) = sz := by
    rw [hmA, getW_putLP_out _ _ _ _ (by omega)]
    exact hhdr
  have hnextA : NEXT_BLKP mA bp = bp + sz := by
    unfold NEXT_BLKP GET_SIZE
    rw [hmAhdr]
    omega
  have hdelR : deleteFree { s with mem := mA } (NEXT_BLKP mA bp) = { s with mem :=
      (putLP mA slr 0) } := by
    unfold deleteFree
    rw [hnextA]
    unfold choosefreetable PREV_FREE NEXT_FREE
    have hx : GET_SIZE mA (HDRP (bp + sz)) = frsz := by
      unfold GET_SIZE HDRP
      rw [hmA, getW_putLP_out _ _ _ _ (by omega), hfrw]
    have hprA : getLP mA (bp + sz) = 0 := by
      rw [hmA, getLP_putLP_out _ _ _ _ (by omega)]
      exact hpr
    have hnrA : getLP mA (bp + sz + 8) = 0 := by
      rw [hmA, getLP_putLP_out _ _ _ _ (by omega)]
      exact hnr
    rw [hx, hprA, hnrA]
    simp
  set mB := putLP mA slr 0 with hmB
  have hmBfl : getW mB (bp - 8) = flw := by
    rw [hmB, getW_putLP_out _ _ _ _ (by omega), hmA,
        getW_putLP_out _ _ _ _ (by omega)]
    exact hflw
  have hprevB : PREV_BLKP mB bp = L := by
    unfold PREV_BLKP GET_SIZE
    rw [hmBfl]
  set mC := putW mB (L - 4) (PACK msize 0) with hmC
  have hmChdr : getW mC (bp - 4) = sz := by
    rw [hmC, getW_putW_out _ _ _ _ (by omega), hmB,
        getW_putLP_out _ _ _ _ (by omega), hmA,
        getW_putLP_out _ _ _ _ (by omega)]
    exact hhdr
  have hnextC : NEXT_BLKP mC bp = bp + sz := by
    unfold NEXT_BLKP GET_SIZE
    rw [hmChdr]
    omega
  have hmCfr : getW mC (bp + sz - 4) = frw := by
    rw [hmC, getW_putW_out _ _ _ _ (by omega), hmB,
        getW_putLP_out _ _ _ _ (by omega), hmA,
        getW_putLP_out _ _ _ _ (by omega)]
    exact hfrw
  have hftrC : FTRP mC (bp + sz) = bp + sz + frsz - 8 := by
    unfold FTRP GET_SIZE HDRP
    rw [hmCfr]
  set mD := putW mC (bp + sz + frsz - 8) (PACK msize 0) with hmD
  have hmDfl : getW mD (bp - 8) = flw := by
    rw [hmD, getW_putW_out _ _ _ _ (by omega), hmC,
        getW_putW_out _ _ _ _ (by omega), hmB,
        getW_putLP_out _ _ _ _ (by omega), hmA,
        getW_putLP_out _ _ _ _ (by omega)]
    exact hflw
  have hprevD : PREV_BLKP mD bp = L := by
    unfold PREV_BLKP GET_SIZE
    rw [hmDfl]
  have hmDhdr : getW mD (L - 4) = msize := by
    rw [hmD, getW_putW_out _ _ _ _ (by omega), hmC, getW_putW_same,
        show PACK msize 0 = msize from Nat.or_zero msize]
    omega
  have hclsD : choosefreetable mD L = choosefreetable_bysize msize := by
    unfold choosefreetable GET_SIZE HDRP
    rw [hmDhdr]
    congr 1
    omega
  have hheadD : getLP mD slm = 0 := by
    rw [hmD, getLP_putW_out _ _ _ _ (by omega), hmC,
        getLP_putW_out _ _ _ _ (by omega), hmB]
    by_cases he1 : slr = slm
    · rw [he1, getLP_putLP_same]
    · rw [getLP_putLP_out _ _ _ _ (by
        rw [hslr, hslmadr] at he1 ⊢
        unfold slotAddr at he1 ⊢
        omega)]
      rw [hmA]
      by_cases he2 : sll = slm
      · rw [he2, getLP_putLP_same]
      · rw [getLP_putLP_out _ _ _ _ (by
          rw [hsll, hslmadr] at he2 ⊢
          unfold slotAddr at he2 ⊢
          omega)]
        exact hslm
  have hins : insertFree { s with mem := mD } L = { s with mem :=
      (putLP (putLP (putLP mD L 0) (L + 8) 0) slm L) } := by
    unfold insertFree
    simp only [hclsD]
    rw [show getLP mD (slotAddr s.freelisttablehead
        (choosefreetable_bysize msize)) = 0 from hheadD]
    rw [if_neg hbp0, if_neg (by simp)]
  unfold coalesce
  simp only [hpa, hna, hsize2]
  rw [if_neg (by simp : ¬ ((0 : Nat) ≠ 0 ∧ (0 : Nat) ≠ 0)),
      if_neg (by simp : ¬ ((0 : Nat) ≠ 0 ∧ True)),
      if_neg (by simp : ¬ (True ∧ (0 : Nat) ≠ 0))]
  rw [hdelL]
  simp only [hdelR]
  unfold HDRP
  simp only [hprevB]
  simp only [← hmC]
  simp only [hnextC]
  simp only [hftrC]
  simp only [← hmD]
  simp only [hprevD]
  simp only [hins]

/-- C1: for a block `bp` whose header and footer record the same 8-aligned
size with the allocation bit clear and which sits on no free list,
`coalesce` follows the four-case table.  With both physical neighbors
allocated it inserts `bp` as-is; with only the right neighbor free it
unlinks the right neighbor and merges it into `bp`; with only the left
neighbor free it unlinks the left neighbor, merges into it and returns the
left pointer; with both free it unlinks both and merges all three.  In
every case the merged block's header and footer record the summed size with
the allocation bit clear, and the returned pointer is published as the head
of the free list of the class of the resulting size. -/
theorem coalesce_four_cases (s : MMState) (bp sz flw frw : Nat)
    (hbp : bp ≠ 0) (hbp0 : bp - flw / 8 * 8 ≠ 0)
    (hbp64 : bp < 18446744073709551616)
    (hhdr : getW s.mem (bp - 4) = sz) (hsz8 : sz % 8 = 0) (hsz24 : 24 ≤ sz)
    (hftr : getW s.mem (bp + sz - 8) = sz)
    (hflw : getW s.mem (bp - 8) = flw)
    (hflo : getW s.mem (bp - flw / 8 * 8 - 4) = flw) (hfl8 : 8 ≤ flw / 8 * 8)
    (hfrw : getW s.mem (bp + sz - 4) = frw) :
    (flw % 2 = 1 → frw % 2 = 1 →
      getLP s.mem (slotAddr s.freelisttablehead (choosefreetable_bysize sz)) = 0 →
      slotAddr s.freelisttablehead (choosefreetable_bysize sz) + 8
        ≤ bp - flw / 8 * 8 - 8 →
      (coalesce s bp).1 = bp ∧
      getW (coalesce s bp).2.mem (bp - 4) = sz ∧
      getW (coalesce s bp).2.mem (bp + sz - 8) = sz ∧
      getLP (coalesce s bp).2.mem
        (slotAddr s.freelisttablehead (choosefreetable_bysize sz)) = bp) ∧
    (flw % 2 = 1 → frw % 2 = 0 → 24 ≤ frw / 8 * 8 →
      sz + frw / 8 * 8 < 4294967296 →
      getLP s.mem (bp + sz) = 0 → getLP s.mem (bp + sz + 8) = 0 →
      getLP s.mem (slotAddr s.freelisttablehead
        (choosefreetable_bysize (sz + frw / 8 * 8))) = 0 →
      slotAddr s.freelisttablehead (choosefreetable_bysize (frw / 8 * 8)) + 8
        ≤ bp - flw / 8 * 8 - 8 →
      slotAddr s.freelisttablehead (choosefreetable_bysize (sz + frw / 8 * 8)) + 8
        ≤ bp - flw / 8 * 8 - 8 →
      (coalesce s bp).1 = bp ∧
      getW (coalesce s bp).2.mem (bp - 4) = sz + frw / 8 * 8 ∧
      getW (coalesce s bp).2.mem (bp + (sz + frw / 8 * 8) - 8) = sz + frw / 8 * 8 ∧
      getLP (coalesce s bp).2.mem (slotAddr s.freelisttablehead
        (choosefreetable_bysize (sz + frw / 8 * 8))) = bp) ∧
    (flw % 2 = 0 → frw % 2 = 1 → 24 ≤ flw / 8 * 8 →
      sz + flw / 8 * 8 < 4294967296 →
      getLP s.mem (bp - flw / 8 * 8) = 0 → getLP s.mem (bp - flw / 8 * 8 + 8) = 0 →
      getLP s.mem (slotAddr s.freelisttablehead
        (choosefreetable_bysize (sz + flw / 8 * 8))) = 0 →
      slotAddr s.freelisttablehead (choosefreetable_bysize (flw / 8 * 8)) + 8
        ≤ bp - flw / 8 * 8 - 8 →
      slotAddr s.freelisttablehead (choosefreetable_bysize (sz + flw / 8 * 8)) + 8
        ≤ bp - flw / 8 * 8 - 8 →
      (coalesce s bp).1 = bp - flw / 8 * 8 ∧
      getW (coalesce s bp).2.mem (bp - flw / 8 * 8 - 4) = sz + flw / 8 * 8 ∧
      getW (coalesce s bp).2.mem (bp + sz - 8) = sz + flw / 8 * 8 ∧
      getLP (coalesce s bp).2.mem (slotAddr s.freelisttablehead
        (choosefreetable_bysize (sz + flw / 8 * 8))) = bp - flw / 8 * 8) ∧
    (flw % 2 = 0 → frw % 2 = 0 → 24 ≤ flw / 8 * 8 → 24 ≤ frw / 8 * 8 →
      sz + flw / 8 * 8 + frw / 8 * 8 < 4294967296 →
      getW s.mem (bp + sz + frw / 8 * 8 - 8) = frw →
      getLP s.mem (bp - flw / 8 * 8) = 0 → getLP s.mem (bp - flw / 8 * 8 + 8) = 0 →
      getLP s.mem (bp + sz) = 0 → getLP s.mem (bp + sz + 8) = 0 →
      getLP s.mem (slotAddr s.freelisttablehead
        (choosefreetable_bysize (sz + flw / 8 * 8 + frw / 8 * 8))) = 0 →
      slotAddr s.freelisttablehead (choosefreetable_bysize (flw / 8 * 8)) + 8
        ≤ bp - flw / 8 * 8 - 8 →
      slotAddr s.freelisttablehead (choosefreetable_bysize (frw / 8 * 8)) + 8
        ≤ bp - flw / 8 * 8 - 8 →
      slotAddr s.freelisttablehead
          (choosefreetable_bysize (sz + flw / 8 * 8 + frw / 8 * 8)) + 8
        ≤ bp - flw / 8 * 8 - 8 →
      (coalesce s bp).1 = bp - flw / 8 * 8 ∧
      getW (coalesce s bp).2.mem (bp - flw / 8 * 8 - 4)
        = sz + flw / 8 * 8 + frw / 8 * 8 ∧
      getW (coalesce s bp).2.mem (bp + sz + frw / 8 * 8 - 8)
        = sz + flw / 8 * 8 + frw / 8 * 8 ∧
      getLP (coalesce s bp).2.mem (slotAddr s.freelisttablehead
        (choosefreetable_bysize (sz + flw / 8 * 8 + frw / 8 * 8)))
        = bp - flw / 8 * 8) := by
  refine ⟨?_, ?_, ?_, ?_⟩
  · intro h1 h2 hsl hslot
    have hc := coalesce_case1 s bp sz flw frw hbp hhdr hsz8 hsz24 hflw hflo hfl8 hfrw
      h1 h2 hsl hslot
    have hp1 : (coalesce s bp).1 = bp := by rw [hc]
    have hm : (coalesce s bp).2.mem
        = putLP (putLP (putLP s.mem bp 0) (bp + 8) 0)
            (slotAddr s.freelisttablehead (choosefreetable_bysize sz)) bp := by
      rw [hc]
    refine ⟨hp1, ?_, ?_, ?_⟩
    · rw [hm,
        getW_putLP_out _ (slotAddr s.freelisttablehead (choosefreetable_bysize sz))
          bp (bp - 4) (Or.inl (by omega)),
        getW_putLP_out _ (bp + 8) 0 (bp - 4) (Or.inr (by omega)),
        getW_putLP_out _ bp 0 (bp - 4) (Or.inr (by omega)),
        hhdr]
    · rw [hm,
        getW_putLP_out _ (slotAddr s.freelisttablehead (choosefreetable_bysize sz))
          bp (bp + sz - 8) (Or.inl (by omega)),
        getW_putLP_out _ (bp + 8) 0 (bp + sz - 8) (Or.inl (by omega)),
        getW_putLP_out _ bp 0 (bp + sz - 8) (Or.inl (by omega)),
        hftr]
    · rw [hm, getLP_putLP_same]
      omega
  · intro h1 h2 h3 h4 h5 h6 h7 h8 h9
    have hc := coalesce_case2 s bp sz flw frw hbp hhdr hsz8 hsz24 h4 hflw hflo hfl8
      hfrw h1 h2 h3 h5 h6 h7 h8 h9
    have hp1 : (coalesce s bp).1 = bp := by rw [hc]
    have hm : (coalesce s bp).2.mem
        = putLP (putLP (putLP
            (putW (putW (putLP s.mem
                (slotAddr s.freelisttablehead
                  (choosefreetable_bysize (frw / 8 * 8))) 0)
              (bp - 4) (PACK (sz + frw / 8 * 8) 0))
              (bp + (sz + frw / 8 * 8) - 8) (PACK (sz + frw / 8 * 8) 0))
            bp 0) (bp + 8) 0)
            (slotAddr s.freelisttablehead
              (choosefreetable_bysize (sz + frw / 8 * 8))) bp := by
      rw [hc]
    refine ⟨hp1, ?_, ?_, ?_⟩
    · rw [hm,
        getW_putLP_out _ (slotAddr s.freelisttablehead
          (choosefreetable_bysize (sz + frw / 8 * 8))) bp (bp - 4)
          (Or.inl (by omega)),
        getW_putLP_out _ (bp + 8) 0 (bp - 4) (Or.inr (by omega)),
        getW_putLP_out _ bp 0 (bp - 4) (Or.inr (by omega)),
        getW_putW_out _ (bp + (sz + frw / 8 * 8) - 8) (PACK (sz + frw / 8 * 8) 0)
          (bp - 4) (Or.inr (by omega)),
        getW_putW_same,
        show PACK (sz + frw / 8 * 8) 0 = sz + frw / 8 * 8 from Nat.or_zero _]
      omega
    · rw [hm,
        getW_putLP_out _ (slotAddr s.freelisttablehead
          (choosefreetable_bysize (sz + frw / 8 * 8))) bp
          (bp + (sz + frw / 8 * 8) - 8) (Or.inl (by omega)),
        getW_putLP_out _ (bp + 8) 0 (bp + (sz + frw / 8 * 8) - 8)
          (Or.inl (by omega)),
        getW_putLP_out _ bp 0 (bp + (sz + frw / 8 * 8) - 8) (Or.inl (by omega)),
        getW_putW_same,
        show PACK (sz + frw / 8 * 8) 0 = sz + frw / 8 * 8 from Nat.or_zero _]
      omega
    · rw [hm, getLP_putLP_same]
      omega
  · intro h1 h2 h3 h4 h5 h6 h7 h8 h9
    have hc := coalesce_case3 s bp sz flw frw hbp0 hhdr hsz8 hsz24 h4 hflw hflo h3
      hfrw h1 h2 h5 h6 h7 h8 h9
    have hp1 : (coalesce s bp).1 = bp - flw / 8 * 8 := by rw [hc]
    have hm : (coalesce s bp).2.mem
        = putLP (putLP (putLP
            (putW (putW (putLP s.mem
                (slotAddr s.freelisttablehead
                  (choosefreetable_bysize (flw / 8 * 8))) 0)
              (bp + sz - 8) (PACK (sz + flw / 8 * 8) 0))
              (bp - flw / 8 * 8 - 4) (PACK (sz + flw / 8 * 8) 0))
            (bp - flw / 8 * 8) 0) (bp - flw / 8 * 8 + 8) 0)
            (slotAddr s.freelisttablehead
              (choosefreetable_bysize (sz + flw / 8 * 8)))
            (bp - flw / 8 * 8) := by
      rw [hc]
    refine ⟨hp1, ?_, ?_, ?_⟩
    · rw [hm,
        getW_putLP_out _ (slotAddr s.freelisttablehead
          (choosefreetable_bysize (sz + flw / 8 * 8))) (bp - flw / 8 * 8)
          (bp - flw / 8 * 8 - 4) (Or.inl (by omega)),
        getW_putLP_out _ (bp - flw / 8 * 8 + 8) 0 (bp - flw / 8 * 8 - 4)
          (Or.inr (by omega)),
        getW_putLP_out _ (bp - flw / 8 * 8) 0 (bp - flw / 8 * 8 - 4)
          (Or.inr (by omega)),
        getW_putW_same,
        show PACK (sz + flw / 8 * 8) 0 = sz + flw / 8 * 8 from Nat.or_zero _]
      omega
    · rw [hm,
        getW_putLP_out _ (slotAddr s.freelisttablehead
          (choosefreetable_bysize (sz + flw / 8 * 8))) (bp - flw / 8 * 8)
          (bp + sz - 8) (Or.inl (by omega)),
        getW_putLP_out _ (bp - flw / 8 * 8 + 8) 0 (bp + sz - 8)
          (Or.inl (by omega)),
        getW_putLP_out _ (bp - flw / 8 * 8) 0 (bp + sz - 8) (Or.inl (by omega)),
        getW_putW_out _ (bp - flw / 8 * 8 - 4) (PACK (sz + flw / 8 * 8) 0)
          (bp + sz - 8) (Or.inl (by omega)),
        getW_putW_same,
        show PACK (sz + flw / 8 * 8) 0 = sz + flw / 8 * 8 from Nat.or_zero _]
      omega
    · rw [hm, getLP_putLP_same]
      omega
  · intro h1 h2 h3 h4 h5 h6 h7 h8 h9 h10 h11 h12 h13 h14
    have hc := coalesce_case4 s bp sz flw frw hbp0 hhdr hsz8 hsz24 h5 hflw hflo h3
      hfrw h6 h4 h1 h2 h7 h8 h9 h10 h11 h12 h13 h14
    have hp1 : (coalesce s bp).1 = bp - flw / 8 * 8 := by rw [hc]
    have hm : (coalesce s bp).2.mem
        = putLP (putLP (putLP
            (putW (putW (putLP (putLP s.mem
                (slotAddr s.freelisttablehead
                  (choosefreetable_bysize (flw / 8 * 8))) 0)
                (slotAddr s.freelisttablehead
                  (choosefreetable_bysize (frw / 8 * 8))) 0)
              (bp - flw / 8 * 8 - 4) (PACK (sz + flw / 8 * 8 + frw / 8 * 8) 0))
              (bp + sz + frw / 8 * 8 - 8) (PACK (sz + flw / 8 * 8 + frw / 8 * 8) 0))
            (bp - flw / 8 * 8) 0) (bp - flw / 8 * 8 + 8) 0)
            (slotAddr s.freelisttablehead
              (choosefreetable_bysize (sz + flw / 8 * 8 + frw / 8 * 8)))
            (bp - flw / 8 * 8) := by
      rw [hc]
    refine ⟨hp1, ?_, ?_, ?_⟩
    · rw [hm,
        getW_putLP_out _ (slotAddr s.freelisttablehead
          (choosefreetable_bysize (sz + flw / 8 * 8 + frw / 8 * 8)))
          (bp - flw / 8 * 8) (bp - flw / 8 * 8 - 4) (Or.inl (by omega)),
        getW_putLP_out _ (bp - flw / 8 * 8 + 8) 0 (bp - flw / 8 * 8 - 4)
          (Or.inr (by omega)),
        getW_putLP_out _ (bp - flw / 8 * 8) 0 (bp - flw / 8 * 8 - 4)
          (Or.inr (by omega)),
        getW_putW_out _ (bp + sz + frw / 8 * 8 - 8)
          (PACK (sz + flw / 8 * 8 + frw / 8 * 8) 0) (bp - flw / 8 * 8 - 4)
          (Or.inr (by omega)),
        getW_putW_same,
        show PACK (sz + flw / 8 * 8 + frw / 8 * 8) 0
          = sz + flw / 8 * 8 + frw / 8 * 8 from Nat.or_zero _]
      omega
    · rw [hm,
        getW_putLP_out _ (slotAddr s.freelisttablehead
          (choosefreetable_bysize (sz + flw / 8 * 8 + frw / 8 * 8)))
          (bp - flw / 8 * 8) (bp + sz + frw / 8 * 8 - 8) (Or.inl (by omega)),
        getW_putLP_out _ (bp - flw / 8 * 8 + 8) 0 (bp + sz + frw / 8 * 8 - 8)
          (Or.inl (by omega)),
        getW_putLP_out _ (bp - flw / 8 * 8) 0 (bp + sz + frw / 8 * 8 - 8)
          (Or.inl (by omega)),
        getW_putW_same,
        show PACK (sz + flw / 8 * 8 + frw / 8 * 8) 0
          = sz + flw / 8 * 8 + frw / 8 * 8 from Nat.or_zero _]
      omega
    · rw [hm, getLP_putLP_same]
      omega

/-- Witness for the four-case coalescing theorem: in the handcrafted state,
freeing pointer 1008 (size 24) between the free left neighbor at 984
(size 24) and the free right neighbor at 1032 (size 32) takes case 4 and
returns 984, with the merged boundary tags recording size 80 and the head
of class slot 864 set to 984. -/
theorem coalesce_four_cases_witness :
    (coalesce c1wState 1008).1 = 984 ∧
    getW (coalesce c1wState 1008).2.mem 980 = 80 ∧
    getW (coalesce c1wState 1008).2.mem 1056 = 80 ∧
    getLP (coalesce c1wState 1008).2.mem 864 = 984 := by
  have h := (coalesce_four_cases c1wState 1008 24 24 32 (by decide) (by decide)
    (by decide) (by decide) (by decide) (by decide) (by decide) (by decide)
    (by decide) (by decide) (by decide)).2.2.2 (by decide) (by decide)
    (by decide) (by decide) (by decide) (by decide) (by decide) (by decide)
    (by decide) (by decide) (by decide) (by decide) (by decide) (by decide)
  obtain ⟨ha, hb, hc, hd⟩ := h
  norm_num at ha hb hc hd
  have hsl : slotAddr c1wState.freelisttablehead (choosefreetable_bysize 80)
      = 864 := by decide
  rw [hsl] at hd
  exact ⟨ha, hb, hc, hd⟩

set_option maxRecDepth 1000000 in
set_option maxHeartbeats 4000000 in
/-- C5 counterexample: `p = allocate(16)` returns 984 with block size 24
(payload 16), and `reallocate(p, 17)` returns the new pointer 1008; a copy
of exactly `min(16, 17) = 16` bytes would leave byte 16 of the new payload
as the inner allocation left it (0), but the final state holds 25 there —
the old block's footer byte, copied because the code copies the full old
block size of 24 bytes. -/
theorem realloc_copy_counterexample :
    c5state.1 = 1008 ∧
    GET_SIZE s984state.2.mem (HDRP s984state.1) = 24 ∧
    min 16 17 = 16 ∧
    rd s984state.2.mem (984 + 16) = 25 ∧
    rd (mm_malloc s984state.2 (adjustSize 17) 50).2.mem (1008 + 16) = 0 ∧
    rd c5state.2.mem (1008 + 16) = 25 ∧
    rd c5state.2.mem (1008 + 16)
      ≠ rd (mm_malloc s984state.2 (adjustSize 17) 50).2.mem (1008 + 16) := by
  have hs : s984state = (984, s984Lit) := s984_eval
  simp only [c5state_eval, hs, show adjustSize 17 = 32 from by decide,
    mid5_eval]
  decide

set_option maxRecDepth 1000000 in
set_option maxHeartbeats 4000000 in
/-- Witness for the amended reallocation theorem at the concrete grow
scenario `p = allocate(16); reallocate(p, 17)`: the old block at 984 has
size 24, the inner allocation returns 1008, 24 bytes are copied, the old
block is freed with its size intact, and the first 16 payload bytes are
preserved. -/
theorem realloc_grow_copies_witness :
    mm_realloc s984Lit 984 17 50 =
      (1008, mm_free { mid5Lit with mem := memcpyN mid5Lit.mem 1008 984 24 } 984) ∧
    GET_ALLOC (mm_realloc s984Lit 984 17 50).2.mem (HDRP 984) = 0 ∧
    GET_SIZE (mm_realloc s984Lit 984 17 50).2.mem (HDRP 984) = 24 ∧
    (∀ j, j < min (24 - 8) 17 →
      rd (mm_realloc s984Lit 984 17 50).2.mem (1008 + j)
        = rd s984Lit.mem (984 + j)) :=
  realloc_grow_copies s984Lit mid5Lit 984 17 50 1008 24 9
    (by decide) (by decide) (by decide) (by decide)
    (by rw [show adjustSize 17 = 32 from by decide]; exact mid5_eval)
    (by decide) (by decide) (by decide) (by decide) (by decide) (by decide)
    (by decide) (by decide) (by decide) (by decide) (by decide) (by decide)
    (by decide) (by decide) (by decide)

end MM
